import Mathlib

/-!
The builtin catalog and the special-function attribute inference of cparser.

A shallow embedding of `src/parser/builtins.c`.

* C strings are lists of characters followed by an implicit NUL terminator; a
  `const char *` into a string is the list together with an offset.
* Pointers to types and to entities are indices into a store (a list); a read
  through an index outside the store is a fault.
* Code that can abort (a failed `assert`, a wild read) returns `Except fault_t`.
-/

namespace CParser

/-! ## Faults and C strings -/

/-- The ways in which the embedded code can abort. -/
inductive fault_t where
  /-- an `assert` did not hold -/
  | assertion_failed
  /-- a read outside an object (past the NUL terminator of a string, through a
  null or dangling pointer) -/
  | invalid_access
deriving DecidableEq, Repr

/-- Equality of results is decidable. -/
instance instDecidableEqExcept {ε α : Type} [DecidableEq ε] [DecidableEq α] :
    DecidableEq (Except ε α)
  | Except.ok a, Except.ok b =>
    if h : a = b then isTrue (by rw [h]) else isFalse (fun h2 => h (Except.ok.inj h2))
  | Except.error a, Except.error b =>
    if h : a = b then isTrue (by rw [h]) else isFalse (fun h2 => h (Except.error.inj h2))
  | Except.ok _, Except.error _ => isFalse (fun h => Except.noConfusion h)
  | Except.error _, Except.ok _ => isFalse (fun h => Except.noConfusion h)

/-- The string terminator. -/
def NUL : Char := Char.ofNat 0

/-- The character `name[i]` of the NUL-terminated string whose characters are `s`:
the characters of `s`, then the terminator at index `s.length`; every index
after that is outside the array. -/
def char_at (s : List Char) (i : Nat) : Except fault_t Char :=
  match (s ++ [NUL])[i]? with
  | some c => pure c
  | none => throw fault_t.invalid_access

/-- The test `name[i] == c`. -/
def char_eq (s : List Char) (i : Nat) (c : Char) : Except fault_t Bool := do
  let d ← char_at s i
  pure (decide (d = c))

/-- Short-circuit `a && b`: `b` is evaluated only when `a` is true. -/
def and_then (a b : Except fault_t Bool) : Except fault_t Bool := do
  if (← a) then b else pure false

/-- Short-circuit `a || b`: `b` is evaluated only when `a` is false. -/
def or_else (a b : Except fault_t Bool) : Except fault_t Bool := do
  if (← a) then pure true else b

/-- Modelled from the spec: `strstart` of `adt/strutil.h`, which is not among the
sources. `strstart(str, prefix)` tells whether the string at `str` begins with
`prefix`; it walks both strings in step and stops at the end of `prefix` or at
the first character that differs. Here `str` is the string `s` at offset `off`
and `pre` holds the characters of the literal `prefix`. -/
def strstart (s : List Char) (off : Nat) : List Char → Except fault_t Bool
  | [] => pure true
  | p :: ps => do
    let c ← char_at s off
    if c = p then strstart s (off + 1) ps else pure false

/-- Modelled from the spec: `streq` of `adt/strutil.h`, which is not among the
sources. `streq(a, b)` is `strcmp(a, b) == 0`: both strings are walked in step
up to the first difference or the common terminator. Here `a` is the string `s`
at offset `off` and `lit` holds the characters of the literal `b`. -/
def streq (s : List Char) (off : Nat) : List Char → Except fault_t Bool
  | [] => char_eq s off NUL
  | p :: ps => do
    let c ← char_at s off
    if c = p then streq s (off + 1) ps else pure false

/-! ## Declaration modifiers -/

/-- Modelled from the spec: the `decl_modifiers_t` bit-set. The header that
assigns the bits is not among the sources; each modifier is one bit and
`DM_NONE` is the empty set. -/
def DM_NONE : Nat := 0

/-- Modelled from the spec: modifier bit "no side effects, result depends only on
arguments and globals". -/
def DM_CONST : Nat := 1 <<< 14

/-- Modelled from the spec: modifier bit "no side effects, may read memory". -/
def DM_PURE : Nat := 1 <<< 15

/-- Modelled from the spec: modifier bit "never returns". -/
def DM_NORETURN : Nat := 1 <<< 9

/-- Modelled from the spec: modifier bit "may return more than once". -/
def DM_RETURNS_TWICE : Nat := 1 <<< 25

/-- Modelled from the spec: modifier bit "returns a fresh allocation". -/
def DM_MALLOC : Nat := 1 <<< 26

/-! ## Types and the type store -/

/-- Atomic type kinds named in `builtins.c`. -/
inductive atomic_type_kind_t where
  | ATOMIC_TYPE_VOID
  | ATOMIC_TYPE_CHAR
  | ATOMIC_TYPE_UCHAR
  | ATOMIC_TYPE_SHORT
  | ATOMIC_TYPE_USHORT
  | ATOMIC_TYPE_INT
  | ATOMIC_TYPE_UINT
  | ATOMIC_TYPE_LONG
  | ATOMIC_TYPE_ULONG
  | ATOMIC_TYPE_LONGLONG
  | ATOMIC_TYPE_ULONGLONG
  | ATOMIC_TYPE_FLOAT
  | ATOMIC_TYPE_DOUBLE
  | ATOMIC_TYPE_LONG_DOUBLE
deriving DecidableEq, Repr

/-- The empty qualifier set. -/
def TYPE_QUALIFIER_NONE : Nat := 0

/-- Qualifier bit `const`. -/
def TYPE_QUALIFIER_CONST : Nat := 1

/-- Qualifier bit `restrict`. -/
def TYPE_QUALIFIER_RESTRICT : Nat := 2

/-- A function type: return type, ordered parameter types, variadic flag and
modifier bit-set. Types are referred to by their index in the type store. -/
structure function_type_t where
  return_type : Nat
  parameters : List Nat
  variadic : Bool
  modifiers : Nat
deriving DecidableEq, Repr

/-- A type descriptor (the `type_t` union, by kind). -/
inductive type_t where
  | TYPE_ERROR
  | TYPE_ATOMIC (akind : atomic_type_kind_t) (qualifiers : Nat)
  | TYPE_COMPLEX (akind : atomic_type_kind_t) (qualifiers : Nat)
  | TYPE_POINTER (points_to : Nat) (qualifiers : Nat)
  | TYPE_FUNCTION (function : function_type_t)
  | TYPE_TYPEDEF (aliased : Nat)
  | TYPE_TYPEOF (typeof_type : Nat)
deriving DecidableEq, Repr

/-- The type store: every live type descriptor; a `type_t *` is an index. -/
abbrev type_store := List type_t

/-- Follows typedef and typeof links for at most `fuel` steps. -/
def skip_typeref_fuel (st : type_store) : Nat → Nat → Except fault_t Nat
  | 0, _ => throw fault_t.invalid_access
  | fuel + 1, t =>
    match st[t]? with
    | none => throw fault_t.invalid_access
    | some (type_t.TYPE_TYPEDEF u) => skip_typeref_fuel st fuel u
    | some (type_t.TYPE_TYPEOF u) => skip_typeref_fuel st fuel u
    | some _ => pure t

/-- Modelled from the spec: `skip_typeref` (declared in `type.h`, defined outside
the sources) strips alias/typedef indirection: it follows typedef and typeof
links until it reaches a type that is neither. A chain through distinct types has
at most `st.length` links, which is the fuel given. -/
def skip_typeref (st : type_store) (t : Nat) : Except fault_t Nat :=
  skip_typeref_fuel st (st.length + 1) t

/-- Modelled from the spec: `duplicate_type` makes a fresh copy of a descriptor
that is not yet in the store. -/
def duplicate_type (t : type_t) : type_t := t

/-- Modelled from the spec: `identify_new_type` canonicalizes a fresh descriptor:
if a descriptor of equal structure is already in the store the fresh one is
discarded and the existing instance returned, otherwise the fresh one is added
and becomes the canonical instance. -/
def identify_new_type (st : type_store) (t : type_t) : Nat × type_store :=
  if List.indexOf t st < st.length then (List.indexOf t st, st)
  else (st.length, st ++ [t])

/-- The statement `type->function.modifiers |= modifiers` on a descriptor. -/
def or_function_modifiers : type_t → Nat → type_t
  | type_t.TYPE_FUNCTION f, m =>
    type_t.TYPE_FUNCTION { f with modifiers := f.modifiers ||| m }
  | t, _ => t

/-- Source: `add_type_modifier`, `builtins.c` lines 291-302. Returns the resulting
type pointer and the type store after the call. -/
def add_type_modifier (st : type_store) (orig_type : Nat) (modifiers : Nat) :
    Except fault_t (Nat × type_store) := do
  let type ← skip_typeref st orig_type
  match st[type]? with
  | none => throw fault_t.invalid_access
  | some (type_t.TYPE_FUNCTION f) =>
    if f.modifiers &&& modifiers = modifiers then
      pure (orig_type, st)
    else
      let new_type := duplicate_type (type_t.TYPE_FUNCTION f)
      let new_type := or_function_modifiers new_type modifiers
      pure (identify_new_type st new_type)
  | some _ => throw fault_t.assertion_failed

/-! ## Symbols and entities -/

/-- An interned name. Interning makes two symbols with equal text the same
instance, so a symbol is identified with its text. -/
structure symbol_t where
  string : List Char
deriving DecidableEq, Repr

/-- Entity kinds. -/
inductive entity_kind_t where
  | ENTITY_VARIABLE
  | ENTITY_PARAMETER
  | ENTITY_FUNCTION
  | ENTITY_TYPEDEF
  | ENTITY_ENUM_VALUE
deriving DecidableEq, Repr

/-- Name spaces of the symbol table. -/
inductive entity_namespace_t where
  | NAMESPACE_NORMAL
  | NAMESPACE_TAG
  | NAMESPACE_LABEL
deriving DecidableEq, Repr

/-- Storage classes; `STORAGE_CLASS_NONE` is the zero value. -/
inductive storage_class_t where
  | STORAGE_CLASS_NONE
  | STORAGE_CLASS_EXTERN
  | STORAGE_CLASS_STATIC
  | STORAGE_CLASS_TYPEDEF
  | STORAGE_CLASS_AUTO
  | STORAGE_CLASS_REGISTER
deriving DecidableEq, Repr

/-- Builtin kinds named in `builtins.c`; `BUILTIN_NONE` is the zero value. -/
inductive builtin_kind_t where
  | BUILTIN_NONE
  | BUILTIN_ALLOCA
  | BUILTIN_INF
  | BUILTIN_NAN
  | BUILTIN_VA_END
  | BUILTIN_EXPECT
  | BUILTIN_OBJECT_SIZE
  | BUILTIN_ROTL
  | BUILTIN_ROTR
  | BUILTIN_FIRM
  | BUILTIN_LIBC
  | BUILTIN_LIBC_CHECK
  | BUILTIN_CIMAG
  | BUILTIN_CREAL
deriving DecidableEq, Repr

/-- Backend intrinsic kinds named in `builtins.c`. -/
inductive ir_builtin_kind where
  | ir_bk_trap
  | ir_bk_debugbreak
  | ir_bk_return_address
  | ir_bk_frame_address
  | ir_bk_prefetch
  | ir_bk_ffs
  | ir_bk_clz
  | ir_bk_ctz
  | ir_bk_popcount
  | ir_bk_parity
  | ir_bk_bswap
  | ir_bk_inport
  | ir_bk_outport
  | ir_bk_compare_swap
  | ir_bk_may_alias
deriving DecidableEq, Repr

/-- The union `function.b`: zeroed, or written through one of its members. -/
inductive builtin_data_t where
  | zero
  | firm_builtin_kind (kind : ir_builtin_kind)
  | chk_arg_pos (pos : Nat)
deriving DecidableEq, Repr

/-- A source position. -/
structure position_t where
  input_name : List Char
  lineno : Nat
deriving DecidableEq, Repr

/-- The position given to every compiler-made declaration. -/
def builtin_position : position_t := ⟨"<built-in>".toList, 0⟩

/-- The fields of `entity_t` that `builtins.c` reads or writes: `kind`, `namespc`,
`base.symbol`, `base.pos`, the `declaration` part and the `function` part.
A `function_t *` points at the same object. `type` is `none` for a null
pointer and otherwise an index into the type store. -/
structure entity_t where
  kind : entity_kind_t
  namespc : entity_namespace_t
  symbol : Option symbol_t
  pos : position_t
  storage_class : storage_class_t
  declared_storage_class : storage_class_t
  type : Option Nat
  implicit : Bool
  btk : builtin_kind_t
  builtin_in_lib : Bool
  actual_name : Option symbol_t
  b : builtin_data_t
deriving DecidableEq, Repr

/-- Modelled from the spec: `allocate_entity_zero` (not among the sources) makes
an entity of the given kind, name space, symbol and position with every other
field zero. -/
def allocate_entity_zero (kind : entity_kind_t) (namespc : entity_namespace_t)
    (symbol : Option symbol_t) (pos : position_t) : entity_t :=
  { kind := kind, namespc := namespc, symbol := symbol, pos := pos,
    storage_class := storage_class_t.STORAGE_CLASS_NONE,
    declared_storage_class := storage_class_t.STORAGE_CLASS_NONE,
    type := none, implicit := false, btk := builtin_kind_t.BUILTIN_NONE,
    builtin_in_lib := false, actual_name := none, b := builtin_data_t.zero }

/-! ## Special functions -/

/-- The statement
`function->base.type = add_type_modifier(function->base.type, modifiers)`. -/
def set_type_modifier (st : type_store) (function : entity_t) (modifiers : Nat) :
    Except fault_t (entity_t × type_store) :=
  match function.type with
  | none => throw fault_t.invalid_access
  | some t => do
    let r ← add_type_modifier st t modifiers
    pure ({ function with type := some r.1 }, r.2)

/-- Source: the prefix test of `adapt_special_functions`, `builtins.c` lines
313-323: the number of characters by which `name` is advanced. -/
def prefix_length (name : List Char) : Except fault_t Nat := do
  if (← char_eq name 0 '_') then
    if (← strstart name 1 "_builtin_".toList) then
      pure 10
    else if (← and_then (char_eq name 1 '_') (char_eq name 2 'x')) then
      pure 3
    else if (← char_eq name 1 '_') then
      pure 2
    else
      pure 1
  else
    pure 0

/-- Source: `adapt_special_functions`, `builtins.c` lines 304-345. `name` is the
symbol's string together with the offset `off` by which the pointer has been
advanced, so `name[i]` is the character at index `off + i` of the string. -/
def adapt_special_functions (st : type_store) (function : entity_t) :
    Except fault_t (entity_t × type_store) :=
  match function.symbol with
  | none => pure (function, st)
  | some symbol => do
    let name := symbol.string
    let off ← prefix_length name
    if (← char_eq name off 's') then
      if (← or_else
            (or_else
              (and_then (char_eq name (off + 1) 'e')
                (or_else (streq name off "setjmp".toList)
                         (streq name off "setjmp_syscall".toList)))
              (and_then (char_eq name (off + 1) 'i') (streq name off "sigsetjmp".toList)))
            (and_then (char_eq name (off + 1) 'a') (streq name off "savectx".toList))) then
        set_type_modifier st function DM_RETURNS_TWICE
      else if (← and_then (char_eq name (off + 1) 'i')
                   (streq name off "siglongjmp".toList)) then
        set_type_modifier st function DM_NORETURN
      else
        pure (function, st)
    else if (← or_else
            (or_else
              (and_then (char_eq name off 'q') (streq name off "qsetjmp".toList))
              (and_then (char_eq name off 'v') (streq name off "vfork".toList)))
            (and_then (char_eq name off 'g') (streq name off "getcontext".toList))) then
      set_type_modifier st function DM_RETURNS_TWICE
    else if (← and_then (char_eq name off 'l') (streq name off "longjmp".toList)) then
      set_type_modifier st function DM_NORETURN
    else
      pure (function, st)

/-! ## The compiler session -/

/-- The two dialect flags that `builtins.c` reads. -/
structure dialect_t where
  freestanding : Bool
  c99 : Bool
deriving DecidableEq, Repr

/-- Warning categories used in `builtins.c`. -/
inductive warning_t where
  | WARN_OTHER
deriving DecidableEq, Repr

/-- An argument of a diagnostic: an entity pointer for `%N`, a type pointer for
`%T`. -/
inductive diagnostic_arg_t where
  | entity (e : Nat)
  | type (t : Nat)
deriving DecidableEq, Repr

/-- One call of `warningf`: category, position, format string and arguments. -/
structure diagnostic_t where
  warning : warning_t
  pos : position_t
  fmt : String
  args : List diagnostic_arg_t
deriving DecidableEq, Repr

/-- The state of a compiler session as far as `builtins.c` touches it.
* `symbol_table`: the interned symbols;
* `types`: the type store;
* `entities`: the entity store, an `entity_t *` is an index into it;
* `scope`: the entities visible in the global scope, the most recent first;
* `diagnostics`: the warnings emitted so far, in order;
* `merged`: the calls `merge_into_decl(decl, other)` made so far, in order;
* `symbol_obstack`: the characters of the object growing on the symbol obstack;
* `obstack_objects`: the finished objects living on the symbol obstack;
* `recorded`: the calls `record_entity(entity, is_definition)` made so far, in
  order. -/
structure session_t where
  dialect : dialect_t
  symbol_table : List symbol_t
  types : type_store
  entities : List entity_t
  scope : List Nat
  diagnostics : List diagnostic_t
  merged : List (Nat × Nat)
  symbol_obstack : List Char := []
  obstack_objects : List (List Char) := []
  recorded : List (Nat × Bool) := []
deriving DecidableEq, Repr

/-- The well-known type singletons of `ast/types.h` that `builtins.c` names. -/
inductive type_global_t where
  | type_void
  | type_int
  | type_long
  | type_long_long
  | type_float
  | type_double
  | type_long_double
  | type_size_t
  | type_int32_t
  | type_int64_t
  | type_unsigned_char
  | type_unsigned_short
  | type_unsigned_int
  | type_unsigned_long
  | type_unsigned_long_long
  | type_unsigned_int64
  | type_void_ptr
  | type_const_void_ptr
  | type_void_ptr_restrict
  | type_const_void_ptr_restrict
  | type_char_ptr
  | type_const_char_ptr
  | type_char_ptr_restrict
  | type_const_char_ptr_restrict
  | type_valist_arg
  | type_builtin_template
  | type_builtin_template_ptr
deriving DecidableEq, Repr

/-- What `builtins.c` takes from other modules without the sources showing how
it is computed: the compatibility test of `type.h`, what `merge_into_decl` of the
parser writes into the declaration it is given (the new content of `decl` from
its old content and the merged-in entity), and the values of the well-known type
pointers. -/
structure collaborators_t where
  types_compatible : type_store → Nat → Nat → Bool
  merge_into_decl : entity_t → entity_t → entity_t
  type_global : type_global_t → Nat

/-- Modelled from the spec: `symbol_table_insert` (not among the sources) interns
a text: the symbol for it is created on the first request and the same symbol
is returned on every later one. -/
def symbol_table_insert (s : session_t) (string : List Char) : symbol_t × session_t :=
  if (⟨string⟩ : symbol_t) ∈ s.symbol_table then (⟨string⟩, s)
  else (⟨string⟩, { s with symbol_table := s.symbol_table ++ [⟨string⟩] })

/-- Modelled from the spec: `get_entity` (not among the sources) looks a symbol up
in the scope and returns the visible entity of that name in the given name space,
or null. -/
def get_entity (s : session_t) (symbol : symbol_t) (namespc : entity_namespace_t) :
    Option Nat :=
  s.scope.find? (fun p =>
    match s.entities[p]? with
    | some e => decide (e.symbol = some symbol ∧ e.namespc = namespc)
    | none => false)

/-- Allocation of an entity: it is placed at the end of the entity store. -/
def new_entity (s : session_t) (e : entity_t) : Nat × session_t :=
  (s.entities.length, { s with entities := s.entities ++ [e] })

/-- A write to fields of the entity that `p` points to. -/
def update_entity (s : session_t) (p : Nat) (f : entity_t → entity_t) : session_t :=
  match s.entities[p]? with
  | some e => { s with entities := s.entities.set p (f e) }
  | none => s

/-- One call of `warningf`: the diagnostic is appended to those emitted; the
session goes on. -/
def warningf (s : session_t) (warning : warning_t) (pos : position_t) (fmt : String)
    (args : List diagnostic_arg_t) : session_t :=
  { s with diagnostics := s.diagnostics ++ [⟨warning, pos, fmt, args⟩] }

/-- The call `merge_into_decl(decl, other)`: the call is recorded and the entity
at `decl` is rewritten as the parser's `merge_into_decl` prescribes. -/
def merge_into_decl (ext : collaborators_t) (s : session_t) (decl other : Nat) :
    Except fault_t session_t :=
  match s.entities[decl]?, s.entities[other]? with
  | some d, some o =>
    pure { update_entity s decl (fun _ => ext.merge_into_decl d o) with
           merged := s.merged ++ [(decl, other)] }
  | _, _ => throw fault_t.invalid_access

/-- Modelled from the spec: `make_function_type` (not among the sources) returns
the canonical instance of the function type with the given return type,
parameters and modifiers, not variadic. -/
def make_function_type (s : session_t) (return_type : Nat) (parameters : List Nat)
    (modifiers : Nat) : Nat × session_t :=
  let r := identify_new_type s.types
    (type_t.TYPE_FUNCTION ⟨return_type, parameters, false, modifiers⟩)
  (r.1, { s with types := r.2 })

/-- Modelled from the spec: `make_complex_type` (not among the sources) returns
the canonical instance of the complex type over the given atomic kind. -/
def make_complex_type (s : session_t) (akind : atomic_type_kind_t) (qualifiers : Nat) :
    Nat × session_t :=
  let r := identify_new_type s.types (type_t.TYPE_COMPLEX akind qualifiers)
  (r.1, { s with types := r.2 })

/-! ## Builtin entities -/

/-- The entity that `create_builtin_function` builds, `builtins.c` lines 21-26:
a zeroed function entity in the normal name space with the five assignments
applied. -/
def builtin_function_entity (kind : builtin_kind_t) (symbol : Option symbol_t)
    (function_type : Nat) : entity_t :=
  let entity := allocate_entity_zero entity_kind_t.ENTITY_FUNCTION
    entity_namespace_t.NAMESPACE_NORMAL symbol builtin_position
  let entity := { entity with storage_class := storage_class_t.STORAGE_CLASS_EXTERN }
  let entity := { entity with declared_storage_class := storage_class_t.STORAGE_CLASS_EXTERN }
  let entity := { entity with type := some function_type }
  let entity := { entity with implicit := true }
  let entity := { entity with btk := kind }
  entity

/-- Source: `create_builtin_function`, `builtins.c` lines 18-29. Returns the
pointer to the new entity and the session holding it. -/
def create_builtin_function (s : session_t) (kind : builtin_kind_t)
    (symbol : Option symbol_t) (function_type : Nat) : Nat × session_t :=
  new_entity s (builtin_function_entity kind symbol function_type)

/-! ## Known libc functions -/

/-- Source: `find_existing_entity`, `builtins.c` lines 184-188. -/
def find_existing_entity (s : session_t) (name : List Char) : Option Nat × session_t :=
  let r := symbol_table_insert s name
  (get_entity r.2 r.1 entity_namespace_t.NAMESPACE_NORMAL, r.2)

/-- Source: `merge_builtin`, `builtins.c` lines 190-212. -/
def merge_builtin (ext : collaborators_t) (s : session_t) (def_ : Nat)
    (kind : builtin_kind_t) (type : Nat) : Except fault_t session_t :=
  match s.entities[def_]? with
  | none => throw fault_t.invalid_access
  | some d =>
    if d.kind ≠ entity_kind_t.ENTITY_FUNCTION then
      pure (warningf s warning_t.WARN_OTHER d.pos
        "language standard mandates that '%N' is a function"
        [diagnostic_arg_t.entity def_])
    else
      match d.type with
      | none => throw fault_t.invalid_access
      | some def_type => do
        let def_skipped ← skip_typeref s.types def_type
        if !ext.types_compatible s.types def_skipped type then
          pure (warningf s warning_t.WARN_OTHER d.pos
            "declaration of '%N' with type '%T' is incompatible with language standard specified '%T'"
            [diagnostic_arg_t.entity def_, diagnostic_arg_t.type def_type,
             diagnostic_arg_t.type type])
        else
          let symbol := d.symbol
          let r := create_builtin_function s kind symbol type
          let builtin_func := r.1
          let s := update_entity r.2 builtin_func (fun e => { e with builtin_in_lib := true })
          merge_into_decl ext s def_ builtin_func

/-- The two statements that `find_known_libc_functions` repeats for each name,
`builtins.c` lines 230-242:
`entity_t *e = f(name); if (e != NULL) m(e, kind, make_function_type(ret, 1, { param }, DM_CONST));` -/
def merge_known (ext : collaborators_t) (s : session_t) (name : List Char)
    (kind : builtin_kind_t) (ret param : Nat) : Except fault_t session_t :=
  let r := find_existing_entity s name
  match r.1 with
  | none => pure r.2
  | some e =>
    let t := make_function_type r.2 ret [param] DM_CONST
    merge_builtin ext t.2 e kind t.1

/-- Source: `find_known_libc_functions`, `builtins.c` lines 214-244. -/
def find_known_libc_functions (ext : collaborators_t) (s : session_t) :
    Except fault_t session_t :=
  if s.dialect.freestanding then
    pure s
  else if s.dialect.c99 then do
    let r := make_complex_type s atomic_type_kind_t.ATOMIC_TYPE_FLOAT TYPE_QUALIFIER_NONE
    let type_complex_float := r.1
    let r := make_complex_type r.2 atomic_type_kind_t.ATOMIC_TYPE_DOUBLE TYPE_QUALIFIER_NONE
    let type_complex_double := r.1
    let r := make_complex_type r.2 atomic_type_kind_t.ATOMIC_TYPE_LONG_DOUBLE TYPE_QUALIFIER_NONE
    let type_complex_ldouble := r.1
    let type_ldouble := ext.type_global type_global_t.type_long_double
    let type_double := ext.type_global type_global_t.type_double
    let type_float := ext.type_global type_global_t.type_float
    let s := r.2
    let s ← merge_known ext s "cimag".toList builtin_kind_t.BUILTIN_CIMAG
      type_double type_complex_double
    let s ← merge_known ext s "cimagf".toList builtin_kind_t.BUILTIN_CIMAG
      type_float type_complex_float
    let s ← merge_known ext s "cimagl".toList builtin_kind_t.BUILTIN_CIMAG
      type_ldouble type_complex_ldouble
    let s ← merge_known ext s "creal".toList builtin_kind_t.BUILTIN_CREAL
      type_double type_complex_double
    let s ← merge_known ext s "crealf".toList builtin_kind_t.BUILTIN_CREAL
      type_float type_complex_float
    let s ← merge_known ext s "creall".toList builtin_kind_t.BUILTIN_CREAL
      type_ldouble type_complex_ldouble
    pure s
  else
    pure s

/-! ## Names used to state the properties -/

/-- The name that `adapt_special_functions` classifies: the symbol's string
advanced by the number of characters its prefix test skips. -/
def normalized_name (name : List Char) : List Char :=
  match prefix_length name with
  | Except.ok k => name.drop k
  | Except.error _ => name

/-- The reference normalization in the words of the specification: if the name
starts with `__builtin_` drop 10 characters; else if it starts with `__x` drop 3;
else if it starts with `__` drop 2; else if it starts with `_` drop 1; else the
name is unchanged. -/
def normalize_reference (name : List Char) : List Char :=
  if "__builtin_".toList <+: name then name.drop 10
  else if "__x".toList <+: name then name.drop 3
  else if "__".toList <+: name then name.drop 2
  else if "_".toList <+: name then name.drop 1
  else name

/-- The base names that the specification's table classifies as returning
twice. -/
def returns_twice_names : List (List Char) :=
  ["setjmp".toList, "setjmp_syscall".toList, "sigsetjmp".toList, "savectx".toList,
   "qsetjmp".toList, "vfork".toList, "getcontext".toList]

/-- The base names that the specification's table classifies as never
returning. -/
def noreturn_names : List (List Char) :=
  ["siglongjmp".toList, "longjmp".toList]

/-- The spellings of a base name: bare, or behind `_`, `__`, `__x`, `__builtin_`. -/
def name_spellings : List (List Char) :=
  ["".toList, "_".toList, "__".toList, "__x".toList, "__builtin_".toList]

/-! ## A concrete session -/

/-- A type store with the atomic types, the types of `memcpy`, a user's
`double cimag(double complex)` reached through a typedef, and `int f(void)`. -/
def example_types : type_store :=
  [ type_t.TYPE_ATOMIC atomic_type_kind_t.ATOMIC_TYPE_VOID TYPE_QUALIFIER_NONE,
    type_t.TYPE_ATOMIC atomic_type_kind_t.ATOMIC_TYPE_INT TYPE_QUALIFIER_NONE,
    type_t.TYPE_ATOMIC atomic_type_kind_t.ATOMIC_TYPE_ULONG TYPE_QUALIFIER_NONE,
    type_t.TYPE_ATOMIC atomic_type_kind_t.ATOMIC_TYPE_FLOAT TYPE_QUALIFIER_NONE,
    type_t.TYPE_ATOMIC atomic_type_kind_t.ATOMIC_TYPE_DOUBLE TYPE_QUALIFIER_NONE,
    type_t.TYPE_ATOMIC atomic_type_kind_t.ATOMIC_TYPE_LONG_DOUBLE TYPE_QUALIFIER_NONE,
    type_t.TYPE_POINTER 0 TYPE_QUALIFIER_NONE,
    type_t.TYPE_POINTER 0 TYPE_QUALIFIER_RESTRICT,
    type_t.TYPE_ATOMIC atomic_type_kind_t.ATOMIC_TYPE_VOID TYPE_QUALIFIER_CONST,
    type_t.TYPE_POINTER 8 TYPE_QUALIFIER_RESTRICT,
    type_t.TYPE_FUNCTION ⟨6, [7, 9, 2], false, DM_NONE⟩,
    type_t.TYPE_COMPLEX atomic_type_kind_t.ATOMIC_TYPE_DOUBLE TYPE_QUALIFIER_NONE,
    type_t.TYPE_FUNCTION ⟨4, [11], false, DM_NONE⟩,
    type_t.TYPE_TYPEDEF 12,
    type_t.TYPE_FUNCTION ⟨1, [], false, DM_NONE⟩ ]

/-- A user-written declaration: not implicit, no builtin kind. -/
def user_entity (kind : entity_kind_t) (name : String) (lineno : Nat) (type : Nat) :
    entity_t :=
  { kind := kind, namespc := entity_namespace_t.NAMESPACE_NORMAL,
    symbol := some ⟨name.toList⟩, pos := ⟨"user.c".toList, lineno⟩,
    storage_class := storage_class_t.STORAGE_CLASS_EXTERN,
    declared_storage_class := storage_class_t.STORAGE_CLASS_NONE,
    type := some type, implicit := false, btk := builtin_kind_t.BUILTIN_NONE,
    builtin_in_lib := false, actual_name := none, b := builtin_data_t.zero }

/-- The declarations of the example: `cimag` with the libc signature (through a
typedef), `memcpy` with the libc signature, `creal` as a variable, and
`int cimagf(void)`. -/
def example_entities : List entity_t :=
  [ user_entity entity_kind_t.ENTITY_FUNCTION "cimag" 1 13,
    user_entity entity_kind_t.ENTITY_FUNCTION "memcpy" 2 10,
    user_entity entity_kind_t.ENTITY_VARIABLE "creal" 3 1,
    user_entity entity_kind_t.ENTITY_FUNCTION "cimagf" 4 14 ]

/-- A hosted C99 session holding the example declarations. -/
def example_session : session_t :=
  { dialect := ⟨false, true⟩,
    symbol_table := [⟨"cimag".toList⟩, ⟨"memcpy".toList⟩, ⟨"creal".toList⟩,
      ⟨"cimagf".toList⟩],
    types := example_types,
    entities := example_entities,
    scope := [0, 1, 2, 3],
    diagnostics := [],
    merged := [] }

/-- The same session under the freestanding dialect. -/
def example_freestanding : session_t :=
  { example_session with dialect := ⟨true, true⟩ }

/-- Collaborators for the example: two function types are compatible when
return type, parameters and variadic flag agree, other types when they are the
same descriptor; `merge_into_decl` copies the builtin fields into the
declaration; the type globals point into `example_types`. -/
def example_collaborators : collaborators_t :=
  { types_compatible := fun st a b =>
      match st[a]?, st[b]? with
      | some (type_t.TYPE_FUNCTION f), some (type_t.TYPE_FUNCTION g) =>
        decide (f.return_type = g.return_type ∧ f.parameters = g.parameters
          ∧ f.variadic = g.variadic)
      | some x, some y => decide (x = y)
      | _, _ => false,
    merge_into_decl := fun d o =>
      { d with btk := o.btk, builtin_in_lib := o.builtin_in_lib,
               actual_name := o.actual_name, b := o.b },
    type_global := fun g =>
      match g with
      | type_global_t.type_void => 0
      | type_global_t.type_int => 1
      | type_global_t.type_size_t => 2
      | type_global_t.type_float => 3
      | type_global_t.type_double => 4
      | type_global_t.type_long_double => 5
      | type_global_t.type_void_ptr => 6
      | type_global_t.type_void_ptr_restrict => 7
      | type_global_t.type_const_void_ptr_restrict => 9
      | _ => 0 }

/-- A function named `name` whose type is `int f(void)` of `example_types`. -/
def example_function (name : String) : entity_t :=
  user_entity entity_kind_t.ENTITY_FUNCTION name 1 14

/-- The record that `merge_builtin` synthesizes for a declaration with the given
symbol: the entity of `create_builtin_function` with `builtin_in_lib` set. -/
def merged_builtin_entity (kind : builtin_kind_t) (symbol : Option symbol_t) (type : Nat) :
    entity_t :=
  { kind := entity_kind_t.ENTITY_FUNCTION, namespc := entity_namespace_t.NAMESPACE_NORMAL,
    symbol := symbol, pos := builtin_position,
    storage_class := storage_class_t.STORAGE_CLASS_EXTERN,
    declared_storage_class := storage_class_t.STORAGE_CLASS_EXTERN,
    type := some type, implicit := true, btk := kind,
    builtin_in_lib := true, actual_name := none, b := builtin_data_t.zero }


/-- The result `result` of a call on `function` in store `st` is "modifier set `m`
added to the function's type": the function's type resolved to a function type
`f`, the call succeeded, the function differs from `function` only in its type
field, which holds what `add_type_modifier` returned, and that type resolves to
the function type `f` with `m` or-ed into its modifiers. -/
def adds_modifier (st : type_store) (function : entity_t) (m : Nat)
    (result : Except fault_t (entity_t × type_store)) : Prop :=
  ∃ (t r p r2 : Nat) (st2 : type_store) (f : function_type_t),
    function.type = some t ∧ skip_typeref st t = Except.ok r ∧
    st[r]? = some (type_t.TYPE_FUNCTION f) ∧
    add_type_modifier st t m = Except.ok (p, st2) ∧
    result = Except.ok ({ function with type := some p }, st2) ∧
    skip_typeref st2 p = Except.ok r2 ∧
    st2[r2]? = some (type_t.TYPE_FUNCTION
      ⟨f.return_type, f.parameters, f.variadic, f.modifiers ||| m⟩)

/-- The names that `find_known_libc_functions` looks up, each with the builtin kind
it passes to `merge_builtin`, `builtins.c` lines 230-242. -/
def known_libc_names : List (List Char × builtin_kind_t) :=
  [("cimag".toList, builtin_kind_t.BUILTIN_CIMAG),
   ("cimagf".toList, builtin_kind_t.BUILTIN_CIMAG),
   ("cimagl".toList, builtin_kind_t.BUILTIN_CIMAG),
   ("creal".toList, builtin_kind_t.BUILTIN_CREAL),
   ("crealf".toList, builtin_kind_t.BUILTIN_CREAL),
   ("creall".toList, builtin_kind_t.BUILTIN_CREAL)]

/-- Invariant of the merges made since a session with `n0` entities, scope `scope0`
and merge record `m0`: the scope is the same, and every merge recorded since then
passed a record allocated since then, which is still the builtin record made for
one of the known names. -/
def merged_records_known (n0 : Nat) (scope0 : List Nat) (m0 : List (Nat × Nat))
    (s : session_t) : Prop :=
  s.scope = scope0 ∧ n0 ≤ s.entities.length ∧
  ∃ new, s.merged = m0 ++ new ∧
    ∀ pr ∈ new, n0 ≤ pr.2 ∧ ∃ name kind type, (name, kind) ∈ known_libc_names ∧
      s.entities[pr.1]?.isSome = true ∧
      s.entities[pr.2]? = some (merged_builtin_entity kind (some ⟨name⟩) type)

/-! ## The builtin catalog -/

/-- Modelled from the spec: `obstack_printf(&symbol_obstack, fmt, name)` for a
format with one `%s`: the text of the format before the `%s`, the name and the
text after it are appended to the object growing on the symbol obstack. -/
def obstack_printf (s : session_t) (before name after : List Char) : session_t :=
  { s with symbol_obstack := s.symbol_obstack ++ before ++ name ++ after }

/-- Source: `finalize_symbol_string`, `builtins.c` lines 39-46.
`obstack_nul_finish` closes the growing object, which becomes the string;
`symbol->string != string` holds exactly when the text had been interned before,
and then `obstack_free` gives the string back. -/
def finalize_symbol_string (s : session_t) : symbol_t × session_t :=
  let string := s.symbol_obstack
  let s := { s with symbol_obstack := [],
                    obstack_objects := s.obstack_objects ++ [string] }
  let interned := decide ((⟨string⟩ : symbol_t) ∈ s.symbol_table)
  let r := symbol_table_insert s string
  if interned then
    (r.1, { r.2 with obstack_objects := r.2.obstack_objects.dropLast })
  else
    r

/-- Modelled from the spec: `record_entity` of the parser (not among the sources)
registers an entity in the global scope, where it becomes the most recent entry;
the call is recorded with its `is_definition` argument. -/
def record_entity (s : session_t) (entity : Nat) (is_definition : Bool) : session_t :=
  { s with scope := entity :: s.scope,
           recorded := s.recorded ++ [(entity, is_definition)] }

/-- Source: `record_builtin_function`, `builtins.c` lines 31-37. -/
def record_builtin_function (s : session_t) (kind : builtin_kind_t)
    (symbol : Option symbol_t) (function_type : Nat) : Nat × session_t :=
  let r := create_builtin_function s kind symbol function_type
  let entity := r.1
  (entity, record_entity r.2 entity false)

/-- Source: `create_gnu_builtin`, `builtins.c` lines 48-55. -/
def create_gnu_builtin (s : session_t) (kind : builtin_kind_t) (name : List Char)
    (type : Nat) : Nat × session_t :=
  let s := obstack_printf s "__builtin_".toList name []
  let r := finalize_symbol_string s
  let symbol := r.1
  record_builtin_function r.2 kind (some symbol) type

/-- Source: `create_gnu_builtin_firm`, `builtins.c` lines 57-65. -/
def create_gnu_builtin_firm (s : session_t) (kind : ir_builtin_kind) (name : List Char)
    (type : Nat) : Nat × session_t :=
  let s := obstack_printf s "__builtin_".toList name []
  let r := finalize_symbol_string s
  let symbol := r.1
  let r := record_builtin_function r.2 builtin_kind_t.BUILTIN_FIRM (some symbol) type
  let entity := r.1
  (entity, update_entity r.2 entity
    (fun e => { e with b := builtin_data_t.firm_builtin_kind kind }))

/-- Source: `create_builtin_firm`, `builtins.c` lines 67-74. -/
def create_builtin_firm (s : session_t) (kind : ir_builtin_kind) (name : List Char)
    (type : Nat) : Nat × session_t :=
  let r := symbol_table_insert s name
  let symbol := r.1
  let r := record_builtin_function r.2 builtin_kind_t.BUILTIN_FIRM (some symbol) type
  let entity := r.1
  (entity, update_entity r.2 entity
    (fun e => { e with b := builtin_data_t.firm_builtin_kind kind }))

/-- Source: `create_gnu_builtin_libc`, `builtins.c` lines 76-84. -/
def create_gnu_builtin_libc (s : session_t) (name : List Char) (type : Nat) :
    Nat × session_t :=
  let s := obstack_printf s "__builtin_".toList name []
  let r := finalize_symbol_string s
  let symbol := r.1
  let r := record_builtin_function r.2 builtin_kind_t.BUILTIN_LIBC (some symbol) type
  let entity := r.1
  let s := update_entity r.2 entity (fun e => { e with builtin_in_lib := true })
  let a := symbol_table_insert s name
  (entity, update_entity a.2 entity (fun e => { e with actual_name := some a.1 }))

/-- Source: `create_gnu_builtin_chk`, `builtins.c` lines 86-96. -/
def create_gnu_builtin_chk (s : session_t) (name : List Char) (chk_arg_pos : Nat)
    (type : Nat) : Nat × session_t :=
  let s := obstack_printf s "__builtin___".toList name "_chk".toList
  let r := finalize_symbol_string s
  let symbol := r.1
  let r := record_builtin_function r.2 builtin_kind_t.BUILTIN_LIBC_CHECK (some symbol) type
  let entity := r.1
  let s := update_entity r.2 entity (fun e => { e with builtin_in_lib := true })
  let a := symbol_table_insert s name
  let s := update_entity a.2 entity (fun e => { e with actual_name := some a.1 })
  (entity, update_entity s entity
    (fun e => { e with b := builtin_data_t.chk_arg_pos chk_arg_pos }))

/-- Source: `create_intrinsic_firm`, `builtins.c` lines 246-253. -/
def create_intrinsic_firm (s : session_t) (kind : ir_builtin_kind) (name : List Char)
    (type : Nat) : Nat × session_t :=
  let r := symbol_table_insert s name
  let symbol := r.1
  let r := record_builtin_function r.2 builtin_kind_t.BUILTIN_FIRM (some symbol) type
  let entity := r.1
  (entity, update_entity r.2 entity
    (fun e => { e with b := builtin_data_t.firm_builtin_kind kind }))

/-- Source: `create_intrinsic`, `builtins.c` lines 255-261. -/
def create_intrinsic (s : session_t) (kind : builtin_kind_t) (name : List Char)
    (type : Nat) : Nat × session_t :=
  let r := symbol_table_insert s name
  let symbol := r.1
  record_builtin_function r.2 kind (some symbol) type

/-- The arguments of one call of a function-type maker, over the well-known
types: return type, parameter types, variadic flag, modifiers. -/
structure builtin_signature_t where
  return_type : type_global_t
  parameters : List type_global_t
  variadic : Bool
  modifiers : Nat
deriving DecidableEq, Repr

/-- The arguments of `make_function_0_type(return_type, modifiers)`. -/
def function_0_type (return_type : type_global_t) (modifiers : Nat) :
    builtin_signature_t :=
  ⟨return_type, [], false, modifiers⟩

/-- The arguments of `make_function_1_type(return_type, argument_type, modifiers)`. -/
def function_1_type (return_type argument_type : type_global_t) (modifiers : Nat) :
    builtin_signature_t :=
  ⟨return_type, [argument_type], false, modifiers⟩

/-- The arguments of
`make_function_1_type_variadic(return_type, argument_type, modifiers)`. -/
def function_1_type_variadic (return_type argument_type : type_global_t)
    (modifiers : Nat) : builtin_signature_t :=
  ⟨return_type, [argument_type], true, modifiers⟩

/-- The arguments of
`make_function_2_type(return_type, argument_type1, argument_type2, modifiers)`. -/
def function_2_type (return_type argument_type1 argument_type2 : type_global_t)
    (modifiers : Nat) : builtin_signature_t :=
  ⟨return_type, [argument_type1, argument_type2], false, modifiers⟩

/-- The arguments of `make_function_type(return_type, n, parameters, modifiers)`,
`n` being the length of `parameters`. -/
def function_type (return_type : type_global_t) (parameters : List type_global_t)
    (modifiers : Nat) : builtin_signature_t :=
  ⟨return_type, parameters, false, modifiers⟩

/-- The function type descriptor that a signature denotes once the well-known
types are given their pointers. -/
def signature_type (ext : collaborators_t) (sig : builtin_signature_t) : function_type_t :=
  ⟨ext.type_global sig.return_type, sig.parameters.map ext.type_global,
   sig.variadic, sig.modifiers⟩

/-- Modelled from the spec: the function-type makers (`make_function_type`,
`make_function_0_type`, `make_function_1_type`, `make_function_1_type_variadic`,
`make_function_2_type`, none among the sources) return the canonical instance of
the function type built from their arguments. -/
def make_signature_type (ext : collaborators_t) (s : session_t)
    (sig : builtin_signature_t) : Nat × session_t :=
  let r := identify_new_type s.types (type_t.TYPE_FUNCTION (signature_type ext sig))
  (r.1, { s with types := r.2 })

/-- The function through which a line of the catalog registers its builtin,
with the arguments that come before the name. -/
inductive builtin_creator_t where
  | gnu_builtin (kind : builtin_kind_t)
  | gnu_builtin_firm (kind : ir_builtin_kind)
  | builtin_firm (kind : ir_builtin_kind)
  | gnu_builtin_libc
  | gnu_builtin_chk (chk_arg_pos : Nat)
  | intrinsic (kind : builtin_kind_t)
  | intrinsic_firm (kind : ir_builtin_kind)
deriving DecidableEq, Repr

/-- One line of the catalog: the creating function, the name given to it and the
function type made for it. -/
structure builtin_row_t where
  creator : builtin_creator_t
  name : String
  signature : builtin_signature_t
deriving DecidableEq, Repr

/-- One line of the catalog executed: the function type is made (it is an
argument of the call), then the creating function runs. -/
def register_row (ext : collaborators_t) (s : session_t) (row : builtin_row_t) :
    session_t :=
  let t := make_signature_type ext s row.signature
  match row.creator with
  | builtin_creator_t.gnu_builtin kind =>
    (create_gnu_builtin t.2 kind row.name.toList t.1).2
  | builtin_creator_t.gnu_builtin_firm kind =>
    (create_gnu_builtin_firm t.2 kind row.name.toList t.1).2
  | builtin_creator_t.builtin_firm kind =>
    (create_builtin_firm t.2 kind row.name.toList t.1).2
  | builtin_creator_t.gnu_builtin_libc =>
    (create_gnu_builtin_libc t.2 row.name.toList t.1).2
  | builtin_creator_t.gnu_builtin_chk chk_arg_pos =>
    (create_gnu_builtin_chk t.2 row.name.toList chk_arg_pos t.1).2
  | builtin_creator_t.intrinsic kind =>
    (create_intrinsic t.2 kind row.name.toList t.1).2
  | builtin_creator_t.intrinsic_firm kind =>
    (create_intrinsic_firm t.2 kind row.name.toList t.1).2

/-- The lines of a catalog executed in order. -/
def register_rows (ext : collaborators_t) (s : session_t) (rows : List builtin_row_t) :
    session_t :=
  rows.foldl (register_row ext) s

/-- A line `b(kind, name, type)` of `create_gnu_builtins`. -/
def row_b (kind : builtin_kind_t) (name : String) (sig : builtin_signature_t) :
    builtin_row_t :=
  ⟨builtin_creator_t.gnu_builtin kind, name, sig⟩

/-- A line `f(kind, name, type)` of `create_gnu_builtins`. -/
def row_f (kind : ir_builtin_kind) (name : String) (sig : builtin_signature_t) :
    builtin_row_t :=
  ⟨builtin_creator_t.gnu_builtin_firm kind, name, sig⟩

/-- A line `s(kind, name, type)` of `create_gnu_builtins`. -/
def row_s (kind : ir_builtin_kind) (name : String) (sig : builtin_signature_t) :
    builtin_row_t :=
  ⟨builtin_creator_t.builtin_firm kind, name, sig⟩

/-- A line `l(name, type)` of `create_gnu_builtins`. -/
def row_l (name : String) (sig : builtin_signature_t) : builtin_row_t :=
  ⟨builtin_creator_t.gnu_builtin_libc, name, sig⟩

/-- A line `c(name, chk_arg_pos, type)` of `create_gnu_builtins`. -/
def row_c (name : String) (chk_arg_pos : Nat) (sig : builtin_signature_t) :
    builtin_row_t :=
  ⟨builtin_creator_t.gnu_builtin_chk chk_arg_pos, name, sig⟩

/-- A line `i(kind, name, type)` of `create_microsoft_intrinsics`. -/
def row_i (kind : builtin_kind_t) (name : String) (sig : builtin_signature_t) :
    builtin_row_t :=
  ⟨builtin_creator_t.intrinsic kind, name, sig⟩

/-- A line `f(kind, name, type)` of `create_microsoft_intrinsics`. -/
def row_mf (kind : ir_builtin_kind) (name : String) (sig : builtin_signature_t) :
    builtin_row_t :=
  ⟨builtin_creator_t.intrinsic_firm kind, name, sig⟩

open type_global_t builtin_kind_t ir_builtin_kind in
/-- The lines of `create_gnu_builtins`, `builtins.c` lines 101-178, in order. -/
def gnu_builtin_rows : List builtin_row_t :=
  [ row_b BUILTIN_ALLOCA "alloca" (function_1_type type_void_ptr type_size_t DM_NONE),
    row_b BUILTIN_INF "huge_val" (function_0_type type_double DM_CONST),
    row_b BUILTIN_INF "huge_valf" (function_0_type type_float DM_CONST),
    row_b BUILTIN_INF "huge_vall" (function_0_type type_long_double DM_CONST),
    row_b BUILTIN_INF "inf" (function_0_type type_double DM_CONST),
    row_b BUILTIN_INF "inff" (function_0_type type_float DM_CONST),
    row_b BUILTIN_INF "infl" (function_0_type type_long_double DM_CONST),
    row_b BUILTIN_NAN "nan" (function_1_type type_double type_char_ptr DM_CONST),
    row_b BUILTIN_NAN "nanf" (function_1_type type_float type_char_ptr DM_CONST),
    row_b BUILTIN_NAN "nanl" (function_1_type type_long_double type_char_ptr DM_CONST),
    row_b BUILTIN_VA_END "va_end" (function_1_type type_void type_valist_arg DM_NONE),
    row_b BUILTIN_EXPECT "expect" (function_2_type type_long type_long type_long DM_CONST),
    row_b BUILTIN_OBJECT_SIZE "object_size"
      (function_2_type type_size_t type_void_ptr type_int DM_CONST),
    row_f ir_bk_bswap "bswap32" (function_1_type type_int32_t type_int32_t DM_CONST),
    row_f ir_bk_bswap "bswap64" (function_1_type type_int64_t type_int64_t DM_CONST),
    row_f ir_bk_clz "clz" (function_1_type type_int type_unsigned_int DM_CONST),
    row_f ir_bk_clz "clzl" (function_1_type type_int type_unsigned_long DM_CONST),
    row_f ir_bk_clz "clzll" (function_1_type type_int type_unsigned_long_long DM_CONST),
    row_f ir_bk_ctz "ctz" (function_1_type type_int type_unsigned_int DM_CONST),
    row_f ir_bk_ctz "ctzl" (function_1_type type_int type_unsigned_long DM_CONST),
    row_f ir_bk_ctz "ctzll" (function_1_type type_int type_unsigned_long_long DM_CONST),
    row_f ir_bk_ffs "ffs" (function_1_type type_int type_unsigned_int DM_CONST),
    row_f ir_bk_ffs "ffsl" (function_1_type type_int type_unsigned_long DM_CONST),
    row_f ir_bk_ffs "ffsll" (function_1_type type_int type_unsigned_long_long DM_CONST),
    row_f ir_bk_frame_address "frame_address"
      (function_1_type type_void_ptr type_unsigned_int DM_CONST),
    row_f ir_bk_parity "parity" (function_1_type type_int type_unsigned_int DM_CONST),
    row_f ir_bk_parity "parityl" (function_1_type type_int type_unsigned_long DM_CONST),
    row_f ir_bk_parity "parityll"
      (function_1_type type_int type_unsigned_long_long DM_CONST),
    row_f ir_bk_popcount "popcount" (function_1_type type_int type_unsigned_int DM_CONST),
    row_f ir_bk_popcount "popcountl" (function_1_type type_int type_unsigned_long DM_CONST),
    row_f ir_bk_popcount "popcountll"
      (function_1_type type_int type_unsigned_long_long DM_CONST),
    row_f ir_bk_prefetch "prefetch"
      (function_1_type_variadic type_float type_void_ptr DM_NONE),
    row_f ir_bk_return_address "return_address"
      (function_1_type type_void_ptr type_unsigned_int DM_CONST),
    row_f ir_bk_trap "trap" (function_type type_void [] DM_NORETURN),
    row_s ir_bk_compare_swap "__sync_val_compare_and_swap"
      (function_type type_builtin_template
        [type_builtin_template_ptr, type_builtin_template, type_builtin_template] DM_NONE),
    row_s ir_bk_may_alias "__builtin_may_alias"
      (function_type type_int [type_const_void_ptr, type_const_void_ptr] DM_NONE),
    row_l "abort" (function_type type_void [] DM_NORETURN),
    row_l "abs" (function_type type_int [type_int] DM_CONST),
    row_l "atan2l"
      (function_type type_long_double [type_long_double, type_long_double] DM_CONST),
    row_l "exit" (function_type type_void [type_int] DM_NORETURN),
    row_l "fabs" (function_type type_double [type_double] DM_CONST),
    row_l "fabsf" (function_type type_float [type_float] DM_CONST),
    row_l "fabsl" (function_type type_long_double [type_long_double] DM_CONST),
    row_l "labs" (function_type type_long [type_long] DM_CONST),
    row_l "llabs" (function_type type_long_long [type_long_long] DM_CONST),
    row_l "malloc" (function_type type_void_ptr [type_size_t] DM_MALLOC),
    row_l "memcmp"
      (function_type type_int [type_const_void_ptr, type_const_void_ptr, type_size_t]
        DM_PURE),
    row_l "memcpy"
      (function_type type_void_ptr
        [type_void_ptr_restrict, type_const_void_ptr_restrict, type_size_t] DM_NONE),
    row_l "memmove"
      (function_type type_void_ptr
        [type_void_ptr_restrict, type_const_void_ptr_restrict, type_size_t] DM_NONE),
    row_l "memset" (function_type type_void_ptr [type_void_ptr, type_int, type_size_t] DM_NONE),
    row_l "stpcpy"
      (function_type type_char_ptr [type_char_ptr_restrict, type_const_char_ptr_restrict]
        DM_NONE),
    row_l "strcat"
      (function_type type_char_ptr [type_char_ptr_restrict, type_const_char_ptr_restrict]
        DM_NONE),
    row_l "strchr" (function_type type_char_ptr [type_const_char_ptr, type_int] DM_NONE),
    row_l "strcmp" (function_type type_int [type_const_char_ptr, type_const_char_ptr] DM_PURE),
    row_l "strcpy"
      (function_type type_char_ptr [type_char_ptr_restrict, type_const_char_ptr_restrict]
        DM_NONE),
    row_l "strlen" (function_type type_size_t [type_const_char_ptr] DM_PURE),
    row_l "strncat"
      (function_type type_char_ptr
        [type_char_ptr_restrict, type_const_char_ptr_restrict, type_size_t] DM_NONE),
    row_l "strncpy"
      (function_type type_char_ptr
        [type_char_ptr_restrict, type_const_char_ptr_restrict, type_size_t] DM_NONE),
    row_c "memcpy" 3
      (function_type type_void_ptr
        [type_void_ptr_restrict, type_const_void_ptr_restrict, type_size_t, type_size_t]
        DM_NONE),
    row_c "memmove" 3
      (function_type type_void_ptr
        [type_void_ptr_restrict, type_const_void_ptr_restrict, type_size_t, type_size_t]
        DM_NONE),
    row_c "memset" 3
      (function_type type_void_ptr [type_void_ptr, type_int, type_size_t, type_size_t]
        DM_NONE),
    row_c "stpcpy" 2
      (function_type type_char_ptr
        [type_char_ptr_restrict, type_const_char_ptr_restrict, type_size_t] DM_NONE),
    row_c "stpncpy" 3
      (function_type type_char_ptr
        [type_char_ptr_restrict, type_const_char_ptr_restrict, type_size_t, type_size_t]
        DM_NONE),
    row_c "strcat" 2
      (function_type type_char_ptr
        [type_char_ptr_restrict, type_const_char_ptr_restrict, type_size_t] DM_NONE),
    row_c "strcpy" 2
      (function_type type_char_ptr
        [type_char_ptr_restrict, type_const_char_ptr_restrict, type_size_t] DM_NONE),
    row_c "strncat" 3
      (function_type type_char_ptr
        [type_char_ptr_restrict, type_const_char_ptr_restrict, type_size_t, type_size_t]
        DM_NONE),
    row_c "strncpy" 3
      (function_type type_char_ptr
        [type_char_ptr_restrict, type_const_char_ptr_restrict, type_size_t, type_size_t]
        DM_NONE) ]

open type_global_t builtin_kind_t ir_builtin_kind in
/-- The lines of `create_microsoft_intrinsics`, `builtins.c` lines 268-288, in
order. -/
def microsoft_intrinsic_rows : List builtin_row_t :=
  [ row_i BUILTIN_ROTL "_rotl"
      (function_2_type type_unsigned_int type_unsigned_int type_int DM_CONST),
    row_i BUILTIN_ROTL "_rotl64"
      (function_2_type type_unsigned_int64 type_unsigned_int64 type_int DM_CONST),
    row_i BUILTIN_ROTR "_rotr"
      (function_2_type type_unsigned_int type_unsigned_int type_int DM_CONST),
    row_i BUILTIN_ROTR "_rotr64"
      (function_2_type type_unsigned_int64 type_unsigned_int64 type_int DM_CONST),
    row_mf ir_bk_bswap "_byteswap_ushort"
      (function_1_type type_unsigned_short type_unsigned_short DM_CONST),
    row_mf ir_bk_bswap "_byteswap_ulong"
      (function_1_type type_unsigned_long type_unsigned_long DM_CONST),
    row_mf ir_bk_bswap "_byteswap_uint64"
      (function_1_type type_unsigned_int64 type_unsigned_int64 DM_CONST),
    row_mf ir_bk_debugbreak "__debugbreak" (function_0_type type_void DM_NONE),
    row_mf ir_bk_return_address "_ReturnAddress" (function_0_type type_void_ptr DM_NONE),
    row_mf ir_bk_popcount "__popcount"
      (function_1_type type_unsigned_int type_unsigned_int DM_CONST),
    row_mf ir_bk_inport "__inbyte"
      (function_1_type type_unsigned_char type_unsigned_short DM_NONE),
    row_mf ir_bk_inport "__inword"
      (function_1_type type_unsigned_short type_unsigned_short DM_NONE),
    row_mf ir_bk_inport "__indword"
      (function_1_type type_unsigned_long type_unsigned_short DM_NONE),
    row_mf ir_bk_outport "__outbyte"
      (function_2_type type_void type_unsigned_short type_unsigned_char DM_NONE),
    row_mf ir_bk_outport "__outword"
      (function_2_type type_void type_unsigned_short type_unsigned_short DM_NONE),
    row_mf ir_bk_outport "__outdword"
      (function_2_type type_void type_unsigned_short type_unsigned_long DM_NONE),
    row_mf ir_bk_trap "__ud2" (function_type type_void [] DM_NORETURN) ]

/-- Source: `create_gnu_builtins`, `builtins.c` lines 98-182. -/
def create_gnu_builtins (ext : collaborators_t) (s : session_t) : session_t :=
  register_rows ext s gnu_builtin_rows

/-- Source: `create_microsoft_intrinsics`, `builtins.c` lines 263-289. -/
def create_microsoft_intrinsics (ext : collaborators_t) (s : session_t) : session_t :=
  register_rows ext s microsoft_intrinsic_rows

/-! ## What a line of the catalog leaves behind -/

/-- The externally visible name of a line: the name is prefixed with `__builtin_`
by the three `create_gnu_builtin` functions, wrapped into `__builtin___` and
`_chk` by `create_gnu_builtin_chk`, and interned as given by the others. -/
def visible_name (row : builtin_row_t) : List Char :=
  match row.creator with
  | builtin_creator_t.gnu_builtin _ => "__builtin_".toList ++ row.name.toList
  | builtin_creator_t.gnu_builtin_firm _ => "__builtin_".toList ++ row.name.toList
  | builtin_creator_t.gnu_builtin_libc => "__builtin_".toList ++ row.name.toList
  | builtin_creator_t.gnu_builtin_chk _ =>
    "__builtin___".toList ++ row.name.toList ++ "_chk".toList
  | builtin_creator_t.builtin_firm _ => row.name.toList
  | builtin_creator_t.intrinsic _ => row.name.toList
  | builtin_creator_t.intrinsic_firm _ => row.name.toList

/-- The entity that a line leaves in the entity store, `t` being the pointer to
the function type made for it. -/
def row_entity (row : builtin_row_t) (t : Nat) : entity_t :=
  match row.creator with
  | builtin_creator_t.gnu_builtin kind =>
    builtin_function_entity kind (some ⟨visible_name row⟩) t
  | builtin_creator_t.gnu_builtin_firm kind =>
    { builtin_function_entity builtin_kind_t.BUILTIN_FIRM (some ⟨visible_name row⟩) t with
      b := builtin_data_t.firm_builtin_kind kind }
  | builtin_creator_t.builtin_firm kind =>
    { builtin_function_entity builtin_kind_t.BUILTIN_FIRM (some ⟨visible_name row⟩) t with
      b := builtin_data_t.firm_builtin_kind kind }
  | builtin_creator_t.gnu_builtin_libc =>
    { builtin_function_entity builtin_kind_t.BUILTIN_LIBC (some ⟨visible_name row⟩) t with
      builtin_in_lib := true, actual_name := some ⟨row.name.toList⟩ }
  | builtin_creator_t.gnu_builtin_chk chk_arg_pos =>
    { builtin_function_entity builtin_kind_t.BUILTIN_LIBC_CHECK
        (some ⟨visible_name row⟩) t with
      builtin_in_lib := true, actual_name := some ⟨row.name.toList⟩,
      b := builtin_data_t.chk_arg_pos chk_arg_pos }
  | builtin_creator_t.intrinsic kind =>
    builtin_function_entity kind (some ⟨visible_name row⟩) t
  | builtin_creator_t.intrinsic_firm kind =>
    { builtin_function_entity builtin_kind_t.BUILTIN_FIRM (some ⟨visible_name row⟩) t with
      b := builtin_data_t.firm_builtin_kind kind }

/-- In the session `s`, the entity `e` is what the line `row` leaves behind and
its type is the function type of the line's signature. -/
def registered_as (ext : collaborators_t) (s : session_t) (row : builtin_row_t)
    (e : entity_t) : Prop :=
  ∃ t, e = row_entity row t ∧
    s.types[t]? = some (type_t.TYPE_FUNCTION (signature_type ext row.signature))

/-- The session `s2` is `s` after the registration of one new entity `e` at the
pointer `p`: `e` is appended to the entity store, `p` is put in front of the
scope, one call `record_entity(p, false)` is recorded, no object is left
growing on the symbol obstack, and the type store, the diagnostics, the merge
record and the dialect are those of `s`. -/
def registers (s s2 : session_t) (p : Nat) (e : entity_t) : Prop :=
  p = s.entities.length ∧ s2.entities = s.entities ++ [e] ∧ s2.scope = p :: s.scope ∧
  s2.recorded = s.recorded ++ [(p, false)] ∧ s2.types = s.types ∧
  s2.diagnostics = s.diagnostics ∧ s2.merged = s.merged ∧ s2.dialect = s.dialect ∧
  s2.symbol_obstack = []

/-- The names that are shorter than a prefix under test or leave nothing behind
it: every prefix of `__builtin_` (the empty name, `_` and `__` among them) and
`__x`. -/
def short_names : List (List Char) :=
  "__builtin_".toList.inits ++ ["__x".toList]

/-- A hosted session of a dialect before C99, with the example declarations. -/
def example_c89 : session_t :=
  { example_session with dialect := ⟨false, false⟩ }

/-- Both catalogs: the lines of `create_gnu_builtins`, then those of
`create_microsoft_intrinsics`. -/
def catalog_rows : List builtin_row_t :=
  gnu_builtin_rows ++ microsoft_intrinsic_rows

/-- A type store in which a function type already carries modifiers: `int`,
a function type with `DM_CONST` and `DM_NORETURN` set, and a typedef of it. -/
def example_types_const : type_store :=
  [ type_t.TYPE_ATOMIC atomic_type_kind_t.ATOMIC_TYPE_INT TYPE_QUALIFIER_NONE,
    type_t.TYPE_FUNCTION ⟨0, [0], false, DM_CONST ||| DM_NORETURN⟩,
    type_t.TYPE_TYPEDEF 1 ]

/-- The pair of fields by which a checked entity and its libc entity are
matched: builtin kind and `actual_name`. -/
def kind_and_actual_name (e : entity_t) : builtin_kind_t × Option symbol_t :=
  (e.btk, e.actual_name)

/-! ## Lemmas on strings -/

theorem char_at_drop (s : List Char) (off : Nat) (h : off ≤ s.length) :
    char_at s off = Except.ok ((s.drop off).headD NUL) := by
  unfold char_at
  rcases Nat.lt_or_eq_of_le h with h1 | h1
  · rw [List.getElem?_append_left h1]
    have : s.drop off = s[off] :: s.drop (off + 1) := List.drop_eq_getElem_cons h1
    rw [this]
    simp [List.getElem?_eq_getElem h1]
    rfl
  · subst h1
    simp
    rfl

theorem drop_succ_of_drop_cons (s : List Char) (off : Nat) (c : Char) (rest : List Char)
    (h : s.drop off = c :: rest) : s.drop (off + 1) = rest ∧ off + 1 ≤ s.length := by
  constructor
  · have := List.drop_drop 1 off s
    rw [← this, h]
    rfl
  · by_contra hc
    have : s.length ≤ off := by omega
    rw [List.drop_eq_nil_of_le this] at h
    cases h

theorem strstart_eq (s : List Char) (p : List Char) (hp : NUL ∉ p) :
    ∀ off, off ≤ s.length →
      strstart s off p = Except.ok (decide (p <+: s.drop off)) := by
  induction p with
  | nil => intro off _; simp [strstart]; rfl
  | cons a ps ih =>
    intro off hoff
    have ha : NUL ≠ a := fun h => hp (by simp [h])
    have hps : NUL ∉ ps := fun h => hp (by simp [h])
    unfold strstart
    rw [char_at_drop s off hoff]
    cases hd : s.drop off with
    | nil =>
      simp [bind, Except.bind, ha, pure, Except.pure]
    | cons c rest =>
      obtain ⟨h1, h2⟩ := drop_succ_of_drop_cons s off c rest hd
      by_cases hca : c = a
      · subst hca
        simp [bind, Except.bind, ih hps (off + 1) h2, h1, List.cons_prefix_cons]
      · have : ¬ (a = c) := fun h => hca h.symm
        simp [bind, Except.bind, hca, List.cons_prefix_cons, this, pure, Except.pure]

theorem streq_eq (s : List Char) (hs : NUL ∉ s) (p : List Char) (hp : NUL ∉ p) :
    ∀ off, off ≤ s.length →
      streq s off p = Except.ok (decide (s.drop off = p)) := by
  induction p with
  | nil =>
    intro off hoff
    unfold streq char_eq
    rw [char_at_drop s off hoff]
    cases hd : s.drop off with
    | nil => simp [bind, Except.bind, pure, Except.pure]
    | cons c rest =>
      have hc : c ∈ s := List.mem_of_mem_drop (by rw [hd]; simp)
      have : c ≠ NUL := fun h => hs (h ▸ hc)
      simp [bind, Except.bind, pure, Except.pure, this]
  | cons a ps ih =>
    intro off hoff
    have ha : NUL ≠ a := fun h => hp (by simp [h])
    have hps : NUL ∉ ps := fun h => hp (by simp [h])
    unfold streq
    rw [char_at_drop s off hoff]
    cases hd : s.drop off with
    | nil =>
      simp [bind, Except.bind, ha, pure, Except.pure]
    | cons c rest =>
      obtain ⟨h1, h2⟩ := drop_succ_of_drop_cons s off c rest hd
      by_cases hca : c = a
      · subst hca
        simp [bind, Except.bind, ih hps (off + 1) h2, h1]
      · simp [bind, Except.bind, hca, pure, Except.pure]


theorem char_eq_drop (s : List Char) (off : Nat) (c : Char) (h : off ≤ s.length) :
    char_eq s off c = Except.ok (decide ((s.drop off).headD NUL = c)) := by
  unfold char_eq
  rw [char_at_drop s off h]
  rfl

theorem and_then_ok (a b : Bool) :
    and_then (Except.ok a) (Except.ok b) = Except.ok (a && b) := by
  cases a <;> rfl

theorem or_else_ok (a b : Bool) :
    or_else (Except.ok a) (Except.ok b) = Except.ok (a || b) := by
  cases a <;> rfl

theorem and_then_false (b : Except fault_t Bool) :
    and_then (Except.ok false) b = Except.ok false := rfl

theorem prefix_length_eq (name : List Char) :
    prefix_length name = Except.ok
      (if "__builtin_".toList <+: name then 10
       else if "__x".toList <+: name then 3
       else if "__".toList <+: name then 2
       else if "_".toList <+: name then 1
       else 0) := by
  have e1 : "__builtin_".toList = ['_','_','b','u','i','l','t','i','n','_'] := rfl
  have e2 : "__x".toList = ['_','_','x'] := rfl
  have e3 : "__".toList = ['_','_'] := rfl
  have e4 : "_".toList = ['_'] := rfl
  have e5 : "_builtin_".toList = ['_','b','u','i','l','t','i','n','_'] := rfl
  have hn : NUL ∉ ['_','b','u','i','l','t','i','n','_'] := by decide
  unfold prefix_length
  rw [char_eq_drop name 0 '_' (Nat.zero_le _), e1, e2, e3, e4, e5]
  rcases name with _ | ⟨c0, t⟩
  · simp [bind, Except.bind, NUL]
    rfl
  · by_cases h0 : c0 = '_'
    · subst h0
      rw [strstart_eq _ _ hn 1 (by simp), char_eq_drop _ 1 '_' (by simp)]
      rcases t with _ | ⟨c1, t⟩
      · simp [bind, Except.bind, NUL, and_then_false, List.cons_prefix_cons]
        rfl
      · rw [char_eq_drop _ 2 'x' (by simp), and_then_ok]
        by_cases hb : ['_','b','u','i','l','t','i','n','_'] <+: c1 :: t
        · have hc1 : c1 = '_' := by
            have := (List.cons_prefix_cons.1 hb).1
            exact this.symm
          simp [bind, Except.bind, List.cons_prefix_cons, hb]
          rfl
        · simp [bind, Except.bind, List.cons_prefix_cons, hb]
          by_cases h1 : c1 = '_'
          · subst h1
            rcases t with _ | ⟨c2, t⟩
            · simp [NUL]; rfl
            · by_cases h2 : c2 = 'x'
              · subst h2; simp; rfl
              · have : ¬ ('x' = c2) := fun h => h2 h.symm
                simp [h2, this]; rfl
          · have : ¬ ('_' = c1) := fun h => h1 h.symm
            simp [h1, this]; rfl
    · have : ¬ ('_' = c0) := fun h => h0 h.symm
      simp [bind, Except.bind, h0, this, List.cons_prefix_cons]
      rfl


theorem prefix_length_le (name : List Char) (k : Nat)
    (h : prefix_length name = Except.ok k) : k ≤ name.length := by
  rw [prefix_length_eq] at h
  have h := Except.ok.inj h
  subst h
  split_ifs with h1 h2 h3 h4
  · simpa using h1.length_le
  · simpa using h2.length_le
  · simpa using h3.length_le
  · simpa using h4.length_le
  · exact Nat.zero_le _

theorem classify_eq (name : List Char) (hs : NUL ∉ name) (off : Nat) (hoff : off ≤ name.length)
    (A B C : Except fault_t (entity_t × type_store)) :
    (do
      if (← char_eq name off 's') then
        if (← or_else
              (or_else
                (and_then (char_eq name (off + 1) 'e')
                  (or_else (streq name off "setjmp".toList)
                           (streq name off "setjmp_syscall".toList)))
                (and_then (char_eq name (off + 1) 'i') (streq name off "sigsetjmp".toList)))
              (and_then (char_eq name (off + 1) 'a') (streq name off "savectx".toList))) then
          A
        else if (← and_then (char_eq name (off + 1) 'i')
                     (streq name off "siglongjmp".toList)) then
          B
        else
          C
      else if (← or_else
              (or_else
                (and_then (char_eq name off 'q') (streq name off "qsetjmp".toList))
                (and_then (char_eq name off 'v') (streq name off "vfork".toList)))
              (and_then (char_eq name off 'g') (streq name off "getcontext".toList))) then
        A
      else if (← and_then (char_eq name off 'l') (streq name off "longjmp".toList)) then
        B
      else
        C) =
    (if name.drop off ∈ returns_twice_names then A
     else if name.drop off ∈ noreturn_names then B
     else C) := by
  have hq : ∀ (lit : List Char), NUL ∉ lit →
      streq name off lit = Except.ok (decide (name.drop off = lit)) :=
    fun lit hl => streq_eq name hs lit hl off hoff
  rw [hq "setjmp".toList (by decide), hq "setjmp_syscall".toList (by decide),
    hq "sigsetjmp".toList (by decide), hq "savectx".toList (by decide),
    hq "siglongjmp".toList (by decide), hq "qsetjmp".toList (by decide),
    hq "vfork".toList (by decide), hq "getcontext".toList (by decide),
    hq "longjmp".toList (by decide)]
  simp only [char_eq_drop name off _ hoff]
  cases hd : name.drop off with
  | nil =>
    simp [bind, Except.bind, NUL, and_then_ok, or_else_ok, returns_twice_names, noreturn_names]
  | cons c0 rest =>
    obtain ⟨h1, h2⟩ := drop_succ_of_drop_cons name off c0 rest hd
    simp only [char_eq_drop name (off + 1) _ h2, h1, and_then_ok, or_else_ok]
    have e1 : "setjmp".toList = ['s','e','t','j','m','p'] := rfl
    have e2 : "setjmp_syscall".toList
        = ['s','e','t','j','m','p','_','s','y','s','c','a','l','l'] := rfl
    have e3 : "sigsetjmp".toList = ['s','i','g','s','e','t','j','m','p'] := rfl
    have e4 : "savectx".toList = ['s','a','v','e','c','t','x'] := rfl
    have e5 : "qsetjmp".toList = ['q','s','e','t','j','m','p'] := rfl
    have e6 : "vfork".toList = ['v','f','o','r','k'] := rfl
    have e7 : "getcontext".toList = ['g','e','t','c','o','n','t','e','x','t'] := rfl
    have e8 : "siglongjmp".toList = ['s','i','g','l','o','n','g','j','m','p'] := rfl
    have e9 : "longjmp".toList = ['l','o','n','g','j','m','p'] := rfl
    simp only [returns_twice_names, noreturn_names, e1, e2, e3, e4, e5, e6, e7, e8, e9]
    by_cases hRT : c0 :: rest ∈ [['s','e','t','j','m','p'],
        ['s','e','t','j','m','p','_','s','y','s','c','a','l','l'],
        ['s','i','g','s','e','t','j','m','p'], ['s','a','v','e','c','t','x'],
        ['q','s','e','t','j','m','p'], ['v','f','o','r','k'],
        ['g','e','t','c','o','n','t','e','x','t']]
    · rw [if_pos hRT]
      simp only [List.mem_cons, List.mem_singleton, List.not_mem_nil, or_false] at hRT
      rcases hRT with h | h | h | h | h | h | h <;>
        (injection h with ha hb; subst ha; subst hb; simp [bind, Except.bind])
    · rw [if_neg hRT]
      by_cases hNR : c0 :: rest ∈ [['s','i','g','l','o','n','g','j','m','p'],
          ['l','o','n','g','j','m','p']]
      · rw [if_pos hNR]
        simp only [List.mem_cons, List.mem_singleton, List.not_mem_nil, or_false] at hNR
        rcases hNR with h | h <;>
          (injection h with ha hb; subst ha; subst hb; simp [bind, Except.bind])
      · rw [if_neg hNR]
        simp only [List.mem_cons, List.mem_singleton, List.not_mem_nil, or_false,
          not_or] at hRT hNR
        obtain ⟨r1, r2, r3, r4, r5, r6, r7⟩ := hRT
        obtain ⟨n1, n2⟩ := hNR
        simp [bind, Except.bind, r1, r2, r3, r4, r5, r6, r7, n1, n2]


theorem adapt_special_functions_eq (st : type_store) (function : entity_t) (symbol : symbol_t)
    (hsym : function.symbol = some symbol) (hs : NUL ∉ symbol.string) :
    adapt_special_functions st function =
      (if normalized_name symbol.string ∈ returns_twice_names then
         set_type_modifier st function DM_RETURNS_TWICE
       else if normalized_name symbol.string ∈ noreturn_names then
         set_type_modifier st function DM_NORETURN
       else Except.ok (function, st)) := by
  obtain ⟨k, hk⟩ : ∃ k, prefix_length symbol.string = Except.ok k :=
    ⟨_, prefix_length_eq symbol.string⟩
  have hle := prefix_length_le _ _ hk
  have hn : normalized_name symbol.string = symbol.string.drop k := by
    simp [normalized_name, hk]
  rw [hn, ← classify_eq symbol.string hs k hle]
  unfold adapt_special_functions
  rw [hsym]
  simp only [hk]
  rfl

set_option maxRecDepth 100000 in
theorem spellings_normalize :
    ∀ b ∈ returns_twice_names ++ noreturn_names, ∀ p ∈ name_spellings,
      NUL ∉ p ++ b ∧ normalized_name (p ++ b) = b := by
  decide

/-! ## Lemmas on the type store -/

theorem lor_eq_of_land_eq (a m : Nat) (h : a &&& m = m) : a ||| m = a := by
  apply Nat.eq_of_testBit_eq
  intro i
  have h2 := congrArg (fun x => x.testBit i) h
  simp only [Nat.testBit_land] at h2
  rw [Nat.testBit_lor]
  cases ha : a.testBit i <;> cases hm : m.testBit i <;> simp_all

theorem lor_land_self (a m : Nat) : (a ||| m) &&& m = m := by
  apply Nat.eq_of_testBit_eq
  intro i
  rw [Nat.testBit_land, Nat.testBit_lor]
  cases a.testBit i <;> cases m.testBit i <;> rfl

theorem skip_typeref_function (st : type_store) (p : Nat) (f : function_type_t)
    (h : st[p]? = some (type_t.TYPE_FUNCTION f)) : skip_typeref st p = Except.ok p := by
  unfold skip_typeref skip_typeref_fuel
  rw [h]
  rfl

theorem identify_new_type_get (st : type_store) (v : type_t) :
    (identify_new_type st v).2[(identify_new_type st v).1]? = some v := by
  unfold identify_new_type
  split_ifs with h
  · exact List.getElem?_indexOf (List.indexOf_lt_length.1 h)
  · simp

theorem identify_new_type_again (st : type_store) (v : type_t) :
    identify_new_type (identify_new_type st v).2 v = identify_new_type st v := by
  by_cases h : List.indexOf v st < st.length
  · simp [identify_new_type, h]
  · have hv : v ∉ st := fun hm => h (List.indexOf_lt_length.2 hm)
    have h1 : List.indexOf v (st ++ [v]) = st.length := by
      rw [List.indexOf_append_of_not_mem hv]
      simp
    simp [identify_new_type, h, h1]

theorem identify_new_type_extends (st : type_store) (v : type_t) :
    st <+: (identify_new_type st v).2 := by
  unfold identify_new_type
  split_ifs with h
  · exact List.prefix_refl st
  · exact List.prefix_append st [v]

theorem add_type_modifier_present (st : type_store) (t r m : Nat) (f : function_type_t)
    (hr : skip_typeref st t = Except.ok r)
    (hf : st[r]? = some (type_t.TYPE_FUNCTION f))
    (hm : f.modifiers &&& m = m) :
    add_type_modifier st t m = Except.ok (t, st) := by
  unfold add_type_modifier
  simp [hr, bind, Except.bind, hf, hm, pure, Except.pure]

theorem add_type_modifier_absent (st : type_store) (t r m : Nat) (f : function_type_t)
    (hr : skip_typeref st t = Except.ok r)
    (hf : st[r]? = some (type_t.TYPE_FUNCTION f))
    (hm : ¬ f.modifiers &&& m = m) :
    add_type_modifier st t m = Except.ok (identify_new_type st
      (type_t.TYPE_FUNCTION ⟨f.return_type, f.parameters, f.variadic, f.modifiers ||| m⟩)) := by
  unfold add_type_modifier
  simp [hr, bind, Except.bind, hf, hm, pure, Except.pure, duplicate_type, or_function_modifiers]

/-! ## Lemmas on merging -/

theorem merge_builtin_not_function (ext : collaborators_t) (s : session_t) (def_ : Nat)
    (kind : builtin_kind_t) (type : Nat) (d : entity_t)
    (hd : s.entities[def_]? = some d) (hk : d.kind ≠ entity_kind_t.ENTITY_FUNCTION) :
    merge_builtin ext s def_ kind type = Except.ok
      { s with diagnostics := s.diagnostics ++
          [⟨warning_t.WARN_OTHER, d.pos, "language standard mandates that '%N' is a function",
            [diagnostic_arg_t.entity def_]⟩] } := by
  unfold merge_builtin
  simp [hd, hk, warningf, pure, Except.pure]

theorem merge_builtin_incompatible (ext : collaborators_t) (s : session_t) (def_ : Nat)
    (kind : builtin_kind_t) (type : Nat) (d : entity_t) (t r : Nat)
    (hd : s.entities[def_]? = some d) (hk : d.kind = entity_kind_t.ENTITY_FUNCTION)
    (ht : d.type = some t) (hr : skip_typeref s.types t = Except.ok r)
    (hc : ext.types_compatible s.types r type = false) :
    merge_builtin ext s def_ kind type = Except.ok
      { s with diagnostics := s.diagnostics ++
          [⟨warning_t.WARN_OTHER, d.pos,
            "declaration of '%N' with type '%T' is incompatible with language standard specified '%T'",
            [diagnostic_arg_t.entity def_, diagnostic_arg_t.type t,
             diagnostic_arg_t.type type]⟩] } := by
  unfold merge_builtin
  simp [hd, hk, ht, hr, hc, warningf, pure, Except.pure, bind, Except.bind]

theorem merge_builtin_compatible (ext : collaborators_t) (s : session_t) (def_ : Nat)
    (kind : builtin_kind_t) (type : Nat) (d : entity_t) (t r : Nat)
    (hd : s.entities[def_]? = some d) (hk : d.kind = entity_kind_t.ENTITY_FUNCTION)
    (ht : d.type = some t) (hr : skip_typeref s.types t = Except.ok r)
    (hc : ext.types_compatible s.types r type = true) :
    merge_builtin ext s def_ kind type = Except.ok
      { s with
        entities := (s.entities ++ [merged_builtin_entity kind d.symbol type]).set def_
          (ext.merge_into_decl d (merged_builtin_entity kind d.symbol type)),
        merged := s.merged ++ [(def_, s.entities.length)] } := by
  have hlt : def_ < s.entities.length := by
    by_contra h
    rw [List.getElem?_eq_none (by omega)] at hd
    cases hd
  unfold merge_builtin
  simp only [hd, hk, ht, hr, hc, bind, Except.bind, create_builtin_function, new_entity,
    update_entity, merge_into_decl]
  simp [List.getElem?_append_left hlt, hd, merged_builtin_entity, builtin_function_entity,
    allocate_entity_zero, pure, Except.pure]

theorem get_entity_some (s : session_t) (symbol : symbol_t) (namespc : entity_namespace_t)
    (e : Nat) (h : get_entity s symbol namespc = some e) :
    e ∈ s.scope ∧ ∃ d, s.entities[e]? = some d ∧ d.symbol = some symbol
      ∧ d.namespc = namespc := by
  unfold get_entity at h
  refine ⟨List.mem_of_find?_eq_some h, ?_⟩
  have h2 := List.find?_some h
  cases hd : s.entities[e]? with
  | none => simp [hd] at h2
  | some d =>
    simp only [hd, decide_eq_true_eq] at h2
    exact ⟨d, rfl, h2.1, h2.2⟩

theorem merge_builtin_ok_cases (ext : collaborators_t) (s s2 : session_t) (def_ : Nat)
    (kind : builtin_kind_t) (type : Nat)
    (h : merge_builtin ext s def_ kind type = Except.ok s2) :
    (∃ w, s2 = { s with diagnostics := s.diagnostics ++ [w] }) ∨
    (∃ d, s.entities[def_]? = some d ∧
      s2 = { s with
        entities := (s.entities ++ [merged_builtin_entity kind d.symbol type]).set def_
          (ext.merge_into_decl d (merged_builtin_entity kind d.symbol type)),
        merged := s.merged ++ [(def_, s.entities.length)] }) := by
  cases hd : s.entities[def_]? with
  | none => simp [merge_builtin, hd, throw, throwThe, MonadExceptOf.throw] at h
  | some d =>
    by_cases hk : d.kind = entity_kind_t.ENTITY_FUNCTION
    · cases ht : d.type with
      | none => simp [merge_builtin, hd, hk, ht, throw, throwThe, MonadExceptOf.throw] at h
      | some t =>
        cases hr : skip_typeref s.types t with
        | error e => simp [merge_builtin, hd, hk, ht, hr, bind, Except.bind] at h
        | ok r =>
          cases hc : ext.types_compatible s.types r type with
          | false =>
            rw [merge_builtin_incompatible ext s def_ kind type d t r hd hk ht hr hc] at h
            exact Or.inl ⟨_, (Except.ok.inj h).symm⟩
          | true =>
            rw [merge_builtin_compatible ext s def_ kind type d t r hd hk ht hr hc] at h
            exact Or.inr ⟨d, rfl, (Except.ok.inj h).symm⟩
    · rw [merge_builtin_not_function ext s def_ kind type d hd hk] at h
      exact Or.inl ⟨_, (Except.ok.inj h).symm⟩

theorem merge_known_step (ext : collaborators_t) (s s2 : session_t) (name : List Char)
    (kind : builtin_kind_t) (ret param : Nat) (n0 : Nat) (scope0 : List Nat)
    (m0 : List (Nat × Nat)) (hscope : ∀ p ∈ scope0, p < n0)
    (hname : (name, kind) ∈ known_libc_names)
    (hinv : merged_records_known n0 scope0 m0 s)
    (h : merge_known ext s name kind ret param = Except.ok s2) :
    merged_records_known n0 scope0 m0 s2 := by
  obtain ⟨hsc, hn0, new, hm, hnew⟩ := hinv
  unfold merge_known at h
  have hsti : ∀ x : symbol_t × session_t, x = symbol_table_insert s name →
      x.1 = ⟨name⟩ ∧ x.2.entities = s.entities ∧ x.2.scope = s.scope
        ∧ x.2.merged = s.merged := by
    intro x hx
    subst hx
    unfold symbol_table_insert
    split_ifs <;> simp
  obtain ⟨hs1, hs2, hs3, hs4⟩ := hsti _ rfl
  cases hf : (find_existing_entity s name).1 with
  | none =>
    simp only [hf] at h
    have h := Except.ok.inj h
    subst h
    simp only [find_existing_entity]
    exact ⟨hs3.trans hsc, hs2 ▸ hn0, new, hs4.trans hm, fun pr hpr => by
      rw [hs2]; exact hnew pr hpr⟩
  | some e =>
    simp only [hf] at h
    simp only [find_existing_entity] at hf h
    obtain ⟨hmem, d0, hd0, hsym, _⟩ := get_entity_some _ _ _ _ hf
    rw [hs3, hsc] at hmem
    have he : e < n0 := hscope e hmem
    rw [hs1] at hsym
    rcases merge_builtin_ok_cases _ _ _ _ _ _ h with ⟨w, hw⟩ | ⟨d, hd, hw⟩
    · subst hw
      simp only [make_function_type]
      exact ⟨hs3.trans hsc, hs2 ▸ hn0, new, hs4.trans hm, fun pr hpr => by
        rw [hs2]; exact hnew pr hpr⟩
    · subst hw
      simp only [make_function_type] at hd ⊢
      rw [hs2] at hd hd0
      have hdd : d = d0 := by
        rw [hd0] at hd
        exact (Option.some.inj hd).symm
      subst hdd
      refine ⟨hs3.trans hsc, ?_, new ++ [(e, s.entities.length)], ?_, ?_⟩
      · simp only [List.length_set, List.length_append, hs2]
        omega
      · simp only [hs4, hs2, hm, List.append_assoc]
      · intro pr hpr
        simp only [hs2]
        rcases List.mem_append.1 hpr with hp | hp
        · obtain ⟨h1, nm, kd, ty, h2, h3, h4⟩ := hnew pr hp
          have hlt : pr.2 < s.entities.length := by
            by_contra hc
            rw [List.getElem?_eq_none (by omega)] at h4
            cases h4
          have hlt1 : pr.1 < s.entities.length := by
            by_contra hc
            rw [List.getElem?_eq_none (by omega)] at h3
            cases h3
          refine ⟨h1, nm, kd, ty, h2, ?_, ?_⟩
          · rw [List.getElem?_eq_getElem (by simp; omega)]
            rfl
          · rw [List.getElem?_set_ne (by omega), List.getElem?_append_left hlt]
            exact h4
        · simp only [List.mem_singleton] at hp
          subst hp
          refine ⟨hn0, name, kind,
            (make_function_type (symbol_table_insert s name).2 ret [param] DM_CONST).1,
            hname, ?_, ?_⟩
          · rw [List.getElem?_eq_getElem (by simp; omega)]
            rfl
          · simp only []
            rw [List.getElem?_set_ne (by omega), hsym]
            simp
            rfl


theorem bind_eq_ok {α β : Type} (x : Except fault_t α) (g : α → Except fault_t β) (r : β)
    (h : (x >>= g) = Except.ok r) : ∃ a, x = Except.ok a ∧ g a = Except.ok r := by
  cases x with
  | error e => cases h
  | ok a => exact ⟨a, rfl, h⟩

theorem make_complex_type_frame (s : session_t) (akind : atomic_type_kind_t) (q : Nat) :
    (make_complex_type s akind q).2.entities = s.entities ∧
    (make_complex_type s akind q).2.scope = s.scope ∧
    (make_complex_type s akind q).2.merged = s.merged := ⟨rfl, rfl, rfl⟩

theorem find_known_libc_functions_records (ext : collaborators_t) (s s2 : session_t)
    (hscope : ∀ p ∈ s.scope, p < s.entities.length)
    (h : find_known_libc_functions ext s = Except.ok s2) :
    merged_records_known s.entities.length s.scope s.merged s2 := by
  have h0 : merged_records_known s.entities.length s.scope s.merged s :=
    ⟨rfl, Nat.le_refl _, [], by simp, fun pr hpr => by cases hpr⟩
  unfold find_known_libc_functions at h
  split_ifs at h with hf hc
  · cases h; exact h0
  · have hstart : merged_records_known s.entities.length s.scope s.merged
        (make_complex_type
          (make_complex_type
            (make_complex_type s atomic_type_kind_t.ATOMIC_TYPE_FLOAT TYPE_QUALIFIER_NONE).2
            atomic_type_kind_t.ATOMIC_TYPE_DOUBLE TYPE_QUALIFIER_NONE).2
          atomic_type_kind_t.ATOMIC_TYPE_LONG_DOUBLE TYPE_QUALIFIER_NONE).2 := h0
    obtain ⟨s1, e1, h⟩ := bind_eq_ok _ _ _ h
    have i1 := merge_known_step ext _ _ _ _ _ _ _ _ _ hscope (by decide) hstart e1
    obtain ⟨s3, e2, h⟩ := bind_eq_ok _ _ _ h
    have i2 := merge_known_step ext _ _ _ _ _ _ _ _ _ hscope (by decide) i1 e2
    obtain ⟨s4, e3, h⟩ := bind_eq_ok _ _ _ h
    have i3 := merge_known_step ext _ _ _ _ _ _ _ _ _ hscope (by decide) i2 e3
    obtain ⟨s5, e4, h⟩ := bind_eq_ok _ _ _ h
    have i4 := merge_known_step ext _ _ _ _ _ _ _ _ _ hscope (by decide) i3 e4
    obtain ⟨s6, e5, h⟩ := bind_eq_ok _ _ _ h
    have i5 := merge_known_step ext _ _ _ _ _ _ _ _ _ hscope (by decide) i4 e5
    obtain ⟨s7, e6, h⟩ := bind_eq_ok _ _ _ h
    have i6 := merge_known_step ext _ _ _ _ _ _ _ _ _ hscope (by decide) i5 e6
    cases h
    exact i6
  · cases h; exact h0

theorem ok_of_toBool {α : Type} (x : Except fault_t α) (h : x.toBool = true) :
    ∃ a, x = Except.ok a := by
  cases x with
  | error e => cases h
  | ok a => exact ⟨a, rfl⟩

/-! ## Lemmas on the catalog -/

theorem symbol_table_insert_fst (s : session_t) (n : List Char) :
    (symbol_table_insert s n).1 = ⟨n⟩ := by
  unfold symbol_table_insert; split_ifs <;> rfl

theorem symbol_table_insert_frame (s : session_t) (n : List Char) :
    ∃ tbl, (symbol_table_insert s n).2 = { s with symbol_table := tbl } := by
  unfold symbol_table_insert; split_ifs
  · exact ⟨s.symbol_table, rfl⟩
  · exact ⟨_, rfl⟩

theorem symbol_table_insert_frame_idle (s : session_t) (n : List Char)
    (h : s.symbol_obstack = []) :
    ∃ tbl objs, (symbol_table_insert s n).2 =
      { s with symbol_table := tbl, obstack_objects := objs, symbol_obstack := [] } := by
  obtain ⟨tbl, ht⟩ := symbol_table_insert_frame s n
  refine ⟨tbl, s.obstack_objects, ?_⟩
  rw [ht, ← h]

theorem finalize_symbol_string_fst (s : session_t) :
    (finalize_symbol_string s).1 = ⟨s.symbol_obstack⟩ := by
  unfold finalize_symbol_string
  simp only []
  split_ifs <;> simp [symbol_table_insert_fst]

theorem finalize_symbol_string_frame (s : session_t) :
    ∃ tbl objs, (finalize_symbol_string s).2 =
      { s with symbol_table := tbl, obstack_objects := objs, symbol_obstack := [] } := by
  unfold finalize_symbol_string
  simp only []
  split_ifs
  · obtain ⟨tbl, h⟩ := symbol_table_insert_frame
      { s with symbol_obstack := [], obstack_objects := s.obstack_objects ++ [s.symbol_obstack] }
      s.symbol_obstack
    rw [h]
    exact ⟨tbl, _, rfl⟩
  · obtain ⟨tbl, h⟩ := symbol_table_insert_frame
      { s with symbol_obstack := [], obstack_objects := s.obstack_objects ++ [s.symbol_obstack] }
      s.symbol_obstack
    rw [h]
    exact ⟨tbl, _, rfl⟩

theorem printf_finalize (s : session_t) (before name after : List Char)
    (h : s.symbol_obstack = []) :
    (finalize_symbol_string (obstack_printf s before name after)).1
      = ⟨before ++ name ++ after⟩ ∧
    ∃ tbl objs, (finalize_symbol_string (obstack_printf s before name after)).2 =
      { s with symbol_table := tbl, obstack_objects := objs, symbol_obstack := [] } := by
  constructor
  · rw [finalize_symbol_string_fst]
    simp [obstack_printf, h]
  · obtain ⟨tbl, objs, hfin⟩ :=
      finalize_symbol_string_frame (obstack_printf s before name after)
    exact ⟨tbl, objs, by rw [hfin]; rfl⟩

theorem update_entity_last (s : session_t) (l : List entity_t) (e : entity_t)
    (f : entity_t → entity_t) (h : s.entities = l ++ [e]) :
    update_entity s l.length f = { s with entities := l ++ [f e] } := by
  unfold update_entity
  simp [h]

theorem update_entity_registers (s s2 : session_t) (p : Nat) (e : entity_t)
    (f : entity_t → entity_t) (h : registers s s2 p e) :
    registers s (update_entity s2 p f) p (f e) := by
  obtain ⟨h1, h2, h3, h4, h5, h6, h7, h8, h9⟩ := h
  subst h1
  rw [update_entity_last s2 s.entities e f h2]
  exact ⟨rfl, rfl, h3, h4, h5, h6, h7, h8, h9⟩

theorem symbol_table_insert_registers (s s2 : session_t) (p : Nat) (e : entity_t)
    (n : List Char) (h : registers s s2 p e) :
    registers s (symbol_table_insert s2 n).2 p e := by
  obtain ⟨tbl, ht⟩ := symbol_table_insert_frame s2 n
  rw [ht]
  exact h

theorem record_builtin_function_registers (s s1 : session_t) (kind : builtin_kind_t)
    (symbol : Option symbol_t) (t : Nat)
    (h : ∃ tbl objs, s1 =
      { s with symbol_table := tbl, obstack_objects := objs, symbol_obstack := [] }) :
    (record_builtin_function s1 kind symbol t).1 = s.entities.length ∧
    registers s (record_builtin_function s1 kind symbol t).2 s.entities.length
      (builtin_function_entity kind symbol t) := by
  obtain ⟨tbl, objs, rfl⟩ := h
  exact ⟨rfl, rfl, rfl, rfl, rfl, rfl, rfl, rfl, rfl, rfl⟩

theorem create_gnu_builtin_registers (s : session_t) (kind : builtin_kind_t)
    (name : List Char) (t : Nat) (h : s.symbol_obstack = []) :
    (create_gnu_builtin s kind name t).1 = s.entities.length ∧
    registers s (create_gnu_builtin s kind name t).2 s.entities.length
      (builtin_function_entity kind (some ⟨"__builtin_".toList ++ name⟩) t) := by
  obtain ⟨hsym, hfin⟩ := printf_finalize s "__builtin_".toList name [] h
  rw [List.append_nil] at hsym
  obtain ⟨r1, r2⟩ := record_builtin_function_registers s _ kind
    (some ⟨"__builtin_".toList ++ name⟩) t hfin
  unfold create_gnu_builtin
  simp only [hsym]
  exact ⟨r1, r2⟩

theorem create_gnu_builtin_firm_registers (s : session_t) (kind : ir_builtin_kind)
    (name : List Char) (t : Nat) (h : s.symbol_obstack = []) :
    (create_gnu_builtin_firm s kind name t).1 = s.entities.length ∧
    registers s (create_gnu_builtin_firm s kind name t).2 s.entities.length
      { builtin_function_entity builtin_kind_t.BUILTIN_FIRM
          (some ⟨"__builtin_".toList ++ name⟩) t with
        b := builtin_data_t.firm_builtin_kind kind } := by
  obtain ⟨hsym, hfin⟩ := printf_finalize s "__builtin_".toList name [] h
  rw [List.append_nil] at hsym
  obtain ⟨r1, r2⟩ := record_builtin_function_registers s _ builtin_kind_t.BUILTIN_FIRM
    (some ⟨"__builtin_".toList ++ name⟩) t hfin
  unfold create_gnu_builtin_firm
  simp only [hsym, r1]
  exact ⟨trivial, update_entity_registers _ _ _ _
    (fun e => { e with b := builtin_data_t.firm_builtin_kind kind }) r2⟩

theorem create_builtin_firm_registers (s : session_t) (kind : ir_builtin_kind)
    (name : List Char) (t : Nat) (h : s.symbol_obstack = []) :
    (create_builtin_firm s kind name t).1 = s.entities.length ∧
    registers s (create_builtin_firm s kind name t).2 s.entities.length
      { builtin_function_entity builtin_kind_t.BUILTIN_FIRM (some ⟨name⟩) t with
        b := builtin_data_t.firm_builtin_kind kind } := by
  obtain ⟨r1, r2⟩ := record_builtin_function_registers s _ builtin_kind_t.BUILTIN_FIRM
    (some ⟨name⟩) t (symbol_table_insert_frame_idle s name h)
  unfold create_builtin_firm
  simp only [symbol_table_insert_fst, r1]
  exact ⟨trivial, update_entity_registers _ _ _ _
    (fun e => { e with b := builtin_data_t.firm_builtin_kind kind }) r2⟩

theorem create_gnu_builtin_libc_registers (s : session_t) (name : List Char) (t : Nat)
    (h : s.symbol_obstack = []) :
    (create_gnu_builtin_libc s name t).1 = s.entities.length ∧
    registers s (create_gnu_builtin_libc s name t).2 s.entities.length
      { builtin_function_entity builtin_kind_t.BUILTIN_LIBC
          (some ⟨"__builtin_".toList ++ name⟩) t with
        builtin_in_lib := true, actual_name := some ⟨name⟩ } := by
  obtain ⟨hsym, hfin⟩ := printf_finalize s "__builtin_".toList name [] h
  rw [List.append_nil] at hsym
  obtain ⟨r1, r2⟩ := record_builtin_function_registers s _ builtin_kind_t.BUILTIN_LIBC
    (some ⟨"__builtin_".toList ++ name⟩) t hfin
  unfold create_gnu_builtin_libc
  simp only [hsym, r1]
  refine ⟨trivial, ?_⟩
  have a1 := update_entity_registers _ _ _ _
    (fun e => { e with builtin_in_lib := true }) r2
  have a2 := symbol_table_insert_registers _ _ _ _ name a1
  have a3 := update_entity_registers _ _ _ _
    (fun e => { e with actual_name := some (⟨name⟩ : symbol_t) }) a2
  simp only [symbol_table_insert_fst]
  exact a3

theorem create_gnu_builtin_chk_registers (s : session_t) (name : List Char)
    (chk_arg_pos : Nat) (t : Nat) (h : s.symbol_obstack = []) :
    (create_gnu_builtin_chk s name chk_arg_pos t).1 = s.entities.length ∧
    registers s (create_gnu_builtin_chk s name chk_arg_pos t).2 s.entities.length
      { builtin_function_entity builtin_kind_t.BUILTIN_LIBC_CHECK
          (some ⟨"__builtin___".toList ++ name ++ "_chk".toList⟩) t with
        builtin_in_lib := true, actual_name := some ⟨name⟩,
        b := builtin_data_t.chk_arg_pos chk_arg_pos } := by
  obtain ⟨hsym, hfin⟩ := printf_finalize s "__builtin___".toList name "_chk".toList h
  obtain ⟨r1, r2⟩ := record_builtin_function_registers s _
    builtin_kind_t.BUILTIN_LIBC_CHECK
    (some ⟨"__builtin___".toList ++ name ++ "_chk".toList⟩) t hfin
  unfold create_gnu_builtin_chk
  simp only [hsym, r1]
  refine ⟨trivial, ?_⟩
  have a1 := update_entity_registers _ _ _ _
    (fun e => { e with builtin_in_lib := true }) r2
  have a2 := symbol_table_insert_registers _ _ _ _ name a1
  have a3 := update_entity_registers _ _ _ _
    (fun e => { e with actual_name := some (⟨name⟩ : symbol_t) }) a2
  have a4 := update_entity_registers _ _ _ _
    (fun e => { e with b := builtin_data_t.chk_arg_pos chk_arg_pos }) a3
  simp only [symbol_table_insert_fst]
  exact a4

theorem create_intrinsic_firm_registers (s : session_t) (kind : ir_builtin_kind)
    (name : List Char) (t : Nat) (h : s.symbol_obstack = []) :
    (create_intrinsic_firm s kind name t).1 = s.entities.length ∧
    registers s (create_intrinsic_firm s kind name t).2 s.entities.length
      { builtin_function_entity builtin_kind_t.BUILTIN_FIRM (some ⟨name⟩) t with
        b := builtin_data_t.firm_builtin_kind kind } := by
  obtain ⟨r1, r2⟩ := record_builtin_function_registers s _ builtin_kind_t.BUILTIN_FIRM
    (some ⟨name⟩) t (symbol_table_insert_frame_idle s name h)
  unfold create_intrinsic_firm
  simp only [symbol_table_insert_fst, r1]
  exact ⟨trivial, update_entity_registers _ _ _ _
    (fun e => { e with b := builtin_data_t.firm_builtin_kind kind }) r2⟩

theorem create_intrinsic_registers (s : session_t) (kind : builtin_kind_t)
    (name : List Char) (t : Nat) (h : s.symbol_obstack = []) :
    (create_intrinsic s kind name t).1 = s.entities.length ∧
    registers s (create_intrinsic s kind name t).2 s.entities.length
      (builtin_function_entity kind (some ⟨name⟩) t) := by
  obtain ⟨r1, r2⟩ := record_builtin_function_registers s _ kind
    (some ⟨name⟩) t (symbol_table_insert_frame_idle s name h)
  unfold create_intrinsic
  simp only [symbol_table_insert_fst]
  exact ⟨r1, r2⟩

theorem register_row_registers (ext : collaborators_t) (s : session_t)
    (row : builtin_row_t) (h : s.symbol_obstack = []) :
    registers (make_signature_type ext s row.signature).2 (register_row ext s row)
      s.entities.length (row_entity row (make_signature_type ext s row.signature).1) := by
  have h2 : (make_signature_type ext s row.signature).2.symbol_obstack = [] := h
  obtain ⟨c, n, sig⟩ := row
  cases c with
  | gnu_builtin kind =>
    exact (create_gnu_builtin_registers _ kind n.toList _ h2).2
  | gnu_builtin_firm kind =>
    exact (create_gnu_builtin_firm_registers _ kind n.toList _ h2).2
  | builtin_firm kind =>
    exact (create_builtin_firm_registers _ kind n.toList _ h2).2
  | gnu_builtin_libc =>
    exact (create_gnu_builtin_libc_registers _ n.toList _ h2).2
  | gnu_builtin_chk pos =>
    exact (create_gnu_builtin_chk_registers _ n.toList pos _ h2).2
  | intrinsic kind =>
    exact (create_intrinsic_registers _ kind n.toList _ h2).2
  | intrinsic_firm kind =>
    exact (create_intrinsic_firm_registers _ kind n.toList _ h2).2

theorem getElem?_of_isPrefix {α : Type} (l1 l2 : List α) (i : Nat) (x : α)
    (hp : l1 <+: l2) (h : l1[i]? = some x) : l2[i]? = some x := by
  obtain ⟨t, rfl⟩ := hp
  have hi : i < l1.length := by
    by_contra hc
    rw [List.getElem?_eq_none (by omega)] at h
    cases h
  rw [List.getElem?_append_left hi]
  exact h

theorem registered_as_mono (ext : collaborators_t) (s s2 : session_t)
    (row : builtin_row_t) (e : entity_t) (hp : s.types <+: s2.types)
    (h : registered_as ext s row e) : registered_as ext s2 row e := by
  obtain ⟨t, h1, h2⟩ := h
  exact ⟨t, h1, getElem?_of_isPrefix _ _ _ _ hp h2⟩

theorem register_rows_spec (ext : collaborators_t) (rows : List builtin_row_t) :
    ∀ s : session_t, s.symbol_obstack = [] →
      ∃ new, (register_rows ext s rows).entities = s.entities ++ new ∧
        List.Forall₂ (registered_as ext (register_rows ext s rows)) rows new ∧
        (register_rows ext s rows).recorded = s.recorded ++
          (List.range' s.entities.length rows.length).map (fun p => (p, false)) ∧
        (register_rows ext s rows).scope =
          (List.range' s.entities.length rows.length).reverse ++ s.scope ∧
        s.types <+: (register_rows ext s rows).types ∧
        (register_rows ext s rows).diagnostics = s.diagnostics ∧
        (register_rows ext s rows).merged = s.merged ∧
        (register_rows ext s rows).dialect = s.dialect ∧
        (register_rows ext s rows).symbol_obstack = [] := by
  induction rows with
  | nil =>
    intro s h
    exact ⟨[], by simp [register_rows], List.Forall₂.nil, by simp [register_rows],
      by simp [register_rows], List.prefix_refl _, rfl, rfl, rfl, h⟩
  | cons row rest ih =>
    intro s h
    have hr := register_row_registers ext s row h
    have h2 : (register_row ext s row).entities = s.entities ++
        [row_entity row (make_signature_type ext s row.signature).1] := hr.2.1
    have h3 : (register_row ext s row).scope = s.entities.length :: s.scope := hr.2.2.1
    have h4 : (register_row ext s row).recorded = s.recorded ++ [(s.entities.length, false)] :=
      hr.2.2.2.1
    have h5 : (register_row ext s row).types = (identify_new_type s.types
        (type_t.TYPE_FUNCTION (signature_type ext row.signature))).2 := hr.2.2.2.2.1
    have h6 : (register_row ext s row).diagnostics = s.diagnostics := hr.2.2.2.2.2.1
    have h7 : (register_row ext s row).merged = s.merged := hr.2.2.2.2.2.2.1
    have h8 : (register_row ext s row).dialect = s.dialect := hr.2.2.2.2.2.2.2.1
    have h9 : (register_row ext s row).symbol_obstack = [] := hr.2.2.2.2.2.2.2.2
    obtain ⟨new, i1, i2, i3, i4, i5, i6, i7, i8, i9⟩ := ih (register_row ext s row) h9
    have hrr : register_rows ext s (row :: rest)
        = register_rows ext (register_row ext s row) rest := rfl
    have hlen : (register_row ext s row).entities.length = s.entities.length + 1 := by
      rw [h2]; simp
    have hty : s.types <+: (register_row ext s row).types := by
      rw [h5]
      exact identify_new_type_extends s.types _
    have hrow : registered_as ext (register_row ext s row) row
        (row_entity row (make_signature_type ext s row.signature).1) := by
      refine ⟨_, rfl, ?_⟩
      rw [h5]
      exact identify_new_type_get s.types _
    rw [hrr]
    refine ⟨row_entity row (make_signature_type ext s row.signature).1 :: new, ?_,
      List.Forall₂.cons (registered_as_mono ext _ _ _ _ i5 hrow) i2, ?_, ?_,
      hty.trans i5, i6.trans h6, i7.trans h7, i8.trans h8, i9⟩
    · rw [i1, h2]; simp
    · rw [i3, h4, hlen]
      simp [List.range'_succ]
    · rw [i4, h3, hlen]
      simp [List.range'_succ]

theorem normalized_name_eq (name : List Char) :
    normalized_name name = name.drop
      (if "__builtin_".toList <+: name then 10
       else if "__x".toList <+: name then 3
       else if "__".toList <+: name then 2
       else if "_".toList <+: name then 1
       else 0) := by
  unfold normalized_name
  rw [prefix_length_eq]

theorem drop_ne_of_shorter (k : Nat) (l b : List Char) (h : l.length < b.length + k)
    (hb : 0 < b.length) : l.drop k ≠ b := by
  intro he
  have := congrArg List.length he
  rw [List.length_drop] at this
  omega

theorem short_names_unclassified :
    ∀ n ∈ short_names, NUL ∉ n ∧ normalized_name n ∉ returns_twice_names ∧
      normalized_name n ∉ noreturn_names := by
  decide

theorem skip_typeref_fuel_ok (st : type_store) (fuel : Nat) :
    ∀ t r, skip_typeref_fuel st fuel t = Except.ok r →
      ∃ ty, st[r]? = some ty ∧ (∀ u, ty ≠ type_t.TYPE_TYPEDEF u) ∧
        (∀ u, ty ≠ type_t.TYPE_TYPEOF u) := by
  induction fuel with
  | zero => intro t r h; cases h
  | succ n ih =>
    intro t r h
    unfold skip_typeref_fuel at h
    cases hty : st[t]? with
    | none => simp [hty] at h
    | some ty =>
      cases ty with
      | TYPE_TYPEDEF u => simp only [hty] at h; exact ih u r h
      | TYPE_TYPEOF u => simp only [hty] at h; exact ih u r h
      | TYPE_ERROR =>
        simp only [hty] at h; cases h
        exact ⟨_, hty, fun u hu => (by cases hu), fun u hu => (by cases hu)⟩
      | TYPE_ATOMIC a q =>
        simp only [hty] at h; cases h
        exact ⟨_, hty, fun u hu => (by cases hu), fun u hu => (by cases hu)⟩
      | TYPE_COMPLEX a q =>
        simp only [hty] at h; cases h
        exact ⟨_, hty, fun u hu => (by cases hu), fun u hu => (by cases hu)⟩
      | TYPE_POINTER a q =>
        simp only [hty] at h; cases h
        exact ⟨_, hty, fun u hu => (by cases hu), fun u hu => (by cases hu)⟩
      | TYPE_FUNCTION f =>
        simp only [hty] at h; cases h
        exact ⟨_, hty, fun u hu => (by cases hu), fun u hu => (by cases hu)⟩

theorem add_type_modifier_not_function (st : type_store) (t r m : Nat) (ty : type_t)
    (hr : skip_typeref st t = Except.ok r) (hty : st[r]? = some ty)
    (hf : ∀ f, ty ≠ type_t.TYPE_FUNCTION f) :
    add_type_modifier st t m = Except.error fault_t.assertion_failed := by
  unfold add_type_modifier
  simp only [hr, bind, Except.bind, hty]
  cases ty with
  | TYPE_FUNCTION f => exact absurd rfl (hf f)
  | _ => rfl

theorem merge_known_absent (ext : collaborators_t) (s : session_t) (name : List Char)
    (kind : builtin_kind_t) (ret param : Nat)
    (h : get_entity (symbol_table_insert s name).2 ⟨name⟩
      entity_namespace_t.NAMESPACE_NORMAL = none) :
    merge_known ext s name kind ret param = Except.ok (symbol_table_insert s name).2 := by
  unfold merge_known find_existing_entity
  simp only [symbol_table_insert_fst, h]
  rfl

theorem merge_known_present (ext : collaborators_t) (s : session_t) (name : List Char)
    (kind : builtin_kind_t) (ret param e : Nat)
    (h : get_entity (symbol_table_insert s name).2 ⟨name⟩
      entity_namespace_t.NAMESPACE_NORMAL = some e) :
    merge_known ext s name kind ret param =
      merge_builtin ext (make_function_type (symbol_table_insert s name).2 ret [param]
          DM_CONST).2 e kind
        (make_function_type (symbol_table_insert s name).2 ret [param] DM_CONST).1 := by
  unfold merge_known find_existing_entity
  simp only [symbol_table_insert_fst, h]

theorem find_known_libc_functions_c99 (ext : collaborators_t) (s : session_t)
    (hf : s.dialect.freestanding = false) (hc : s.dialect.c99 = true) :
    find_known_libc_functions ext s =
      (merge_known ext
        (make_complex_type (make_complex_type (make_complex_type s
          atomic_type_kind_t.ATOMIC_TYPE_FLOAT TYPE_QUALIFIER_NONE).2
          atomic_type_kind_t.ATOMIC_TYPE_DOUBLE TYPE_QUALIFIER_NONE).2
          atomic_type_kind_t.ATOMIC_TYPE_LONG_DOUBLE TYPE_QUALIFIER_NONE).2
        "cimag".toList builtin_kind_t.BUILTIN_CIMAG
        (ext.type_global type_global_t.type_double)
        (make_complex_type (make_complex_type s
          atomic_type_kind_t.ATOMIC_TYPE_FLOAT TYPE_QUALIFIER_NONE).2
          atomic_type_kind_t.ATOMIC_TYPE_DOUBLE TYPE_QUALIFIER_NONE).1 >>= fun s1 =>
       merge_known ext s1 "cimagf".toList builtin_kind_t.BUILTIN_CIMAG
        (ext.type_global type_global_t.type_float)
        (make_complex_type s
          atomic_type_kind_t.ATOMIC_TYPE_FLOAT TYPE_QUALIFIER_NONE).1 >>= fun s2 =>
       merge_known ext s2 "cimagl".toList builtin_kind_t.BUILTIN_CIMAG
        (ext.type_global type_global_t.type_long_double)
        (make_complex_type (make_complex_type (make_complex_type s
          atomic_type_kind_t.ATOMIC_TYPE_FLOAT TYPE_QUALIFIER_NONE).2
          atomic_type_kind_t.ATOMIC_TYPE_DOUBLE TYPE_QUALIFIER_NONE).2
          atomic_type_kind_t.ATOMIC_TYPE_LONG_DOUBLE TYPE_QUALIFIER_NONE).1 >>= fun s3 =>
       merge_known ext s3 "creal".toList builtin_kind_t.BUILTIN_CREAL
        (ext.type_global type_global_t.type_double)
        (make_complex_type (make_complex_type s
          atomic_type_kind_t.ATOMIC_TYPE_FLOAT TYPE_QUALIFIER_NONE).2
          atomic_type_kind_t.ATOMIC_TYPE_DOUBLE TYPE_QUALIFIER_NONE).1 >>= fun s4 =>
       merge_known ext s4 "crealf".toList builtin_kind_t.BUILTIN_CREAL
        (ext.type_global type_global_t.type_float)
        (make_complex_type s
          atomic_type_kind_t.ATOMIC_TYPE_FLOAT TYPE_QUALIFIER_NONE).1 >>= fun s5 =>
       merge_known ext s5 "creall".toList builtin_kind_t.BUILTIN_CREAL
        (ext.type_global type_global_t.type_long_double)
        (make_complex_type (make_complex_type (make_complex_type s
          atomic_type_kind_t.ATOMIC_TYPE_FLOAT TYPE_QUALIFIER_NONE).2
          atomic_type_kind_t.ATOMIC_TYPE_DOUBLE TYPE_QUALIFIER_NONE).2
          atomic_type_kind_t.ATOMIC_TYPE_LONG_DOUBLE TYPE_QUALIFIER_NONE).1) := by
  unfold find_known_libc_functions
  simp only [hf, hc, Bool.false_eq_true, if_false, if_true]
  simp only [bind_assoc, bind_pure]

theorem get_entity_symbol_table_insert (s : session_t) (n : List Char)
    (symbol : symbol_t) (namespc : entity_namespace_t) :
    get_entity (symbol_table_insert s n).2 symbol namespc = get_entity s symbol namespc := by
  obtain ⟨tbl, h⟩ := symbol_table_insert_frame s n
  rw [h]
  rfl

theorem merge_builtin_types (ext : collaborators_t) (s s2 : session_t) (def_ : Nat)
    (kind : builtin_kind_t) (type : Nat)
    (h : merge_builtin ext s def_ kind type = Except.ok s2) : s2.types = s.types := by
  rcases merge_builtin_ok_cases ext s s2 def_ kind type h with ⟨w, hw⟩ | ⟨d, _, hw⟩
  · rw [hw]
  · rw [hw]

theorem create_both_eq (ext : collaborators_t) (s : session_t) :
    create_microsoft_intrinsics ext (create_gnu_builtins ext s)
      = register_rows ext s catalog_rows := by
  unfold create_microsoft_intrinsics create_gnu_builtins register_rows catalog_rows
  rw [List.foldl_append]

theorem row_entity_fields (row : builtin_row_t) (t : Nat) :
    (row_entity row t).kind = entity_kind_t.ENTITY_FUNCTION ∧
    (row_entity row t).namespc = entity_namespace_t.NAMESPACE_NORMAL ∧
    (row_entity row t).implicit = true ∧
    (row_entity row t).storage_class = storage_class_t.STORAGE_CLASS_EXTERN ∧
    (row_entity row t).declared_storage_class = storage_class_t.STORAGE_CLASS_EXTERN ∧
    (row_entity row t).symbol = some ⟨visible_name row⟩ ∧
    (row_entity row t).type = some t ∧
    (row_entity row t).btk = (row_entity row 0).btk ∧
    (row_entity row t).b = (row_entity row 0).b ∧
    (row_entity row t).actual_name = (row_entity row 0).actual_name := by
  obtain ⟨c, n, sig⟩ := row
  cases c <;> exact ⟨rfl, rfl, rfl, rfl, rfl, rfl, rfl, rfl, rfl, rfl⟩

theorem registered_map {β : Type} (ext : collaborators_t) (s : session_t)
    (g : entity_t → β) (g2 : builtin_row_t → β)
    (hg : ∀ row t, g (row_entity row t) = g2 row)
    (rows : List builtin_row_t) (new : List entity_t)
    (h : List.Forall₂ (registered_as ext s) rows new) :
    new.map g = rows.map g2 := by
  induction h with
  | nil => rfl
  | cons hr _ ih =>
    obtain ⟨t, rfl, _⟩ := hr
    simp [hg, ih]

theorem registered_mem (ext : collaborators_t) (s : session_t)
    (rows : List builtin_row_t) (new : List entity_t)
    (h : List.Forall₂ (registered_as ext s) rows new) :
    ∀ e ∈ new, ∃ row ∈ rows, registered_as ext s row e := by
  induction h with
  | nil => intro e he; cases he
  | cons hr _ ih =>
    intro e he
    rcases List.mem_cons.1 he with rfl | he
    · exact ⟨_, List.mem_cons_self _ _, hr⟩
    · obtain ⟨row, hrow, hreg⟩ := ih e he
      exact ⟨row, List.mem_cons_of_mem _ hrow, hreg⟩

set_option maxRecDepth 100000 in
theorem catalog_names_nodup :
    (catalog_rows.map (fun row => some (⟨visible_name row⟩ : symbol_t))).Nodup := by
  decide

theorem catalog_rows_length : catalog_rows.length = 84 := by decide


theorem get_entity_registered (s s2 : session_t) (p : Nat) (e : entity_t)
    (symbol : symbol_t) (namespc : entity_namespace_t)
    (h : registers s s2 p e) (hs : e.symbol = some symbol) (hn : e.namespc = namespc) :
    s2.entities[p]? = some e ∧ get_entity s2 symbol namespc = some p := by
  obtain ⟨h1, h2, h3, _⟩ := h
  have hp : s2.entities[p]? = some e := by
    rw [h2, h1]
    simp
  refine ⟨hp, ?_⟩
  unfold get_entity
  rw [h3]
  simp [hp, hs, hn]

set_option maxRecDepth 100000 in
theorem chk_rows_positions :
    ∀ row ∈ gnu_builtin_rows, (row_entity row 0).btk = builtin_kind_t.BUILTIN_LIBC_CHECK →
      (row_entity row 0).b
        = builtin_data_t.chk_arg_pos (row.signature.parameters.length - 1) ∧
      0 < row.signature.parameters.length ∧
      row.signature.parameters[row.signature.parameters.length - 1]?
        = some type_global_t.type_size_t := by
  decide

set_option maxRecDepth 100000 in
theorem chk_rows_count :
    (gnu_builtin_rows.map (fun row => (row_entity row 0).btk)).count
      builtin_kind_t.BUILTIN_LIBC_CHECK = 9 := by
  decide

set_option maxRecDepth 1000000 in
set_option maxHeartbeats 4000000 in
theorem chk_rows_extend_libc_rows :
    ∀ rc ∈ gnu_builtin_rows, ∀ rl ∈ gnu_builtin_rows,
      (row_entity rc 0).btk = builtin_kind_t.BUILTIN_LIBC_CHECK →
      (row_entity rl 0).btk = builtin_kind_t.BUILTIN_LIBC →
      (row_entity rc 0).actual_name = (row_entity rl 0).actual_name →
      rc.signature.return_type = rl.signature.return_type ∧
      rc.signature.modifiers = rl.signature.modifiers ∧
      rc.signature.variadic = rl.signature.variadic ∧
      rc.signature.parameters = rl.signature.parameters ++ [type_global_t.type_size_t] := by
  decide

set_option maxRecDepth 1000000 in
theorem chk_rows_with_libc_rows :
    (gnu_builtin_rows.filter (fun rc =>
        decide ((row_entity rc 0).btk = builtin_kind_t.BUILTIN_LIBC_CHECK) &&
        gnu_builtin_rows.any (fun rl =>
          decide ((row_entity rl 0).btk = builtin_kind_t.BUILTIN_LIBC ∧
            (row_entity rl 0).actual_name = (row_entity rc 0).actual_name)))).map
      (fun rc => rc.name)
    = ["memcpy", "memmove", "memset", "stpcpy", "strcat", "strcpy", "strncat",
       "strncpy"] := by
  decide

theorem any_map_entities {β : Type} (g : entity_t → β) (q : β → Bool) (l : List entity_t) :
    (l.map g).any q = l.any (fun e => q (g e)) := by
  induction l with
  | nil => rfl
  | cons a t ih => simp only [List.map_cons, List.any_cons, ih]

theorem checked_with_libc_map (new : List entity_t) :
    (new.filter (fun c =>
        decide (c.btk = builtin_kind_t.BUILTIN_LIBC_CHECK) &&
        new.any (fun l =>
          decide (l.btk = builtin_kind_t.BUILTIN_LIBC ∧
            l.actual_name = c.actual_name)))).map (fun c => c.actual_name)
    = ((new.map kind_and_actual_name).filter (fun x =>
        decide (x.1 = builtin_kind_t.BUILTIN_LIBC_CHECK) &&
        (new.map kind_and_actual_name).any (fun y =>
          decide (y.1 = builtin_kind_t.BUILTIN_LIBC ∧ y.2 = x.2)))).map Prod.snd := by
  rw [List.filter_map, List.map_map]
  congr 1
  apply List.filter_congr
  intro x _
  show _ = (_ && (List.map kind_and_actual_name new).any _)
  rw [any_map_entities]
  rfl

set_option maxRecDepth 1000000 in
theorem chk_rows_with_libc_names :
    ((gnu_builtin_rows.map (fun row => kind_and_actual_name (row_entity row 0))).filter
      (fun x =>
        decide (x.1 = builtin_kind_t.BUILTIN_LIBC_CHECK) &&
        (gnu_builtin_rows.map (fun row => kind_and_actual_name (row_entity row 0))).any
          (fun y => decide (y.1 = builtin_kind_t.BUILTIN_LIBC ∧ y.2 = x.2)))).map Prod.snd
    = [some ⟨"memcpy".toList⟩, some ⟨"memmove".toList⟩, some ⟨"memset".toList⟩,
       some ⟨"stpcpy".toList⟩, some ⟨"strcat".toList⟩, some ⟨"strcpy".toList⟩,
       some ⟨"strncat".toList⟩, some ⟨"strncpy".toList⟩] := by
  decide

/-! ## Special functions: classification -/

theorem add_type_modifier_adds (st : type_store) (t r m : Nat) (f : function_type_t)
    (hr : skip_typeref st t = Except.ok r)
    (hf : st[r]? = some (type_t.TYPE_FUNCTION f)) :
    ∃ (p r2 : Nat) (st2 : type_store),
      add_type_modifier st t m = Except.ok (p, st2) ∧
      skip_typeref st2 p = Except.ok r2 ∧
      st2[r2]? = some (type_t.TYPE_FUNCTION
        ⟨f.return_type, f.parameters, f.variadic, f.modifiers ||| m⟩) := by
  by_cases hm : f.modifiers &&& m = m
  · refine ⟨t, r, st, add_type_modifier_present st t r m f hr hf hm, hr, ?_⟩
    rw [lor_eq_of_land_eq _ _ hm]
    exact hf
  · have hg := identify_new_type_get st (type_t.TYPE_FUNCTION
      ⟨f.return_type, f.parameters, f.variadic, f.modifiers ||| m⟩)
    exact ⟨_, _, _, add_type_modifier_absent st t r m f hr hf hm,
      skip_typeref_function _ _ _ hg, hg⟩

theorem set_type_modifier_adds (st : type_store) (function : entity_t) (t r m : Nat)
    (f : function_type_t) (ht : function.type = some t)
    (hr : skip_typeref st t = Except.ok r)
    (hf : st[r]? = some (type_t.TYPE_FUNCTION f)) :
    adds_modifier st function m (set_type_modifier st function m) := by
  obtain ⟨p, r2, st2, h1, h2, h3⟩ := add_type_modifier_adds st t r m f hr hf
  refine ⟨t, r, p, r2, st2, f, ht, hr, hf, h1, ?_, h2, h3⟩
  unfold set_type_modifier
  simp [ht, h1, bind, Except.bind, pure, Except.pure]

/-- C1: for a function with a symbol (a C string, so without an embedded NUL) and
a type that resolves to a function type, `adapt_special_functions` adds
`DM_RETURNS_TWICE` to the type when the normalized name is one of setjmp,
setjmp_syscall, sigsetjmp, savectx, qsetjmp, vfork, getcontext, adds `DM_NORETURN`
when it is siglongjmp or longjmp, and for every other normalized name returns the
function and the type store unchanged. The three cases are exclusive and
exhaustive, which is the "exactly when". -/
theorem adapt_special_functions_classification (st : type_store) (function : entity_t)
    (symbol : symbol_t) (t r : Nat) (f : function_type_t)
    (hsym : function.symbol = some symbol) (hs : NUL ∉ symbol.string)
    (ht : function.type = some t) (hr : skip_typeref st t = Except.ok r)
    (hf : st[r]? = some (type_t.TYPE_FUNCTION f)) :
    (normalized_name symbol.string ∈ returns_twice_names →
      normalized_name symbol.string ∉ noreturn_names ∧
      adds_modifier st function DM_RETURNS_TWICE (adapt_special_functions st function)) ∧
    (normalized_name symbol.string ∈ noreturn_names →
      normalized_name symbol.string ∉ returns_twice_names ∧
      adds_modifier st function DM_NORETURN (adapt_special_functions st function)) ∧
    (normalized_name symbol.string ∉ returns_twice_names →
      normalized_name symbol.string ∉ noreturn_names →
      adapt_special_functions st function = Except.ok (function, st)) := by
  have hdisj : ∀ n ∈ returns_twice_names, n ∉ noreturn_names := by decide
  rw [adapt_special_functions_eq st function symbol hsym hs]
  refine ⟨fun h => ⟨hdisj _ h, ?_⟩, fun h => ⟨fun h2 => hdisj _ h2 h, ?_⟩, fun h1 h2 => ?_⟩
  · rw [if_pos h]
    exact set_type_modifier_adds st function t r _ f ht hr hf
  · rw [if_neg (fun h2 => hdisj _ h2 h), if_pos h]
    exact set_type_modifier_adds st function t r _ f ht hr hf
  · rw [if_neg h1, if_neg h2]

/-- Witness of C1: the function `__builtin_setjmp` of type `int f(void)`. -/
theorem adapt_special_functions_classification_witness :
    (normalized_name "__builtin_setjmp".toList ∈ returns_twice_names →
      normalized_name "__builtin_setjmp".toList ∉ noreturn_names ∧
      adds_modifier example_types (example_function "__builtin_setjmp") DM_RETURNS_TWICE
        (adapt_special_functions example_types (example_function "__builtin_setjmp"))) ∧
    (normalized_name "__builtin_setjmp".toList ∈ noreturn_names →
      normalized_name "__builtin_setjmp".toList ∉ returns_twice_names ∧
      adds_modifier example_types (example_function "__builtin_setjmp") DM_NORETURN
        (adapt_special_functions example_types (example_function "__builtin_setjmp"))) ∧
    (normalized_name "__builtin_setjmp".toList ∉ returns_twice_names →
      normalized_name "__builtin_setjmp".toList ∉ noreturn_names →
      adapt_special_functions example_types (example_function "__builtin_setjmp")
        = Except.ok (example_function "__builtin_setjmp", example_types)) :=
  adapt_special_functions_classification example_types
    (example_function "__builtin_setjmp") ⟨"__builtin_setjmp".toList⟩ 14 14
    ⟨1, [], false, DM_NONE⟩ rfl (by decide) rfl (by decide) (by decide)

/-- C2: for every name the prefix test of `adapt_special_functions` succeeds and
advances the name by exactly what the reference normalization drops: ten
characters after `__builtin_`, else three after `__x`, else two after `__`, else
one after `_`, else none; one rule, applied once. -/
theorem prefix_length_refines_reference (name : List Char) :
    ∃ k, prefix_length name = Except.ok k ∧
      name.drop k = normalize_reference name ∧
      normalized_name name = normalize_reference name := by
  refine ⟨_, prefix_length_eq name, ?_, ?_⟩
  · unfold normalize_reference
    split_ifs <;> simp
  · unfold normalize_reference normalized_name
    rw [prefix_length_eq name]
    split_ifs <;> simp

/-- C3: for each of the nine names of the classification table and each of its
spellings (bare, or behind `_`, `__`, `__x`, `__builtin_`), on a function whose
type resolves to a function type `adapt_special_functions` adds the modifier of
the bare name: `DM_RETURNS_TWICE` for setjmp, setjmp_syscall, sigsetjmp, savectx,
qsetjmp, vfork, getcontext and `DM_NORETURN` for siglongjmp and longjmp; for
`memcpy` and for `_` it returns the function and the type store unchanged. -/
theorem adapt_special_functions_spellings (st : type_store) (function : entity_t)
    (t r : Nat) (f : function_type_t)
    (ht : function.type = some t) (hr : skip_typeref st t = Except.ok r)
    (hf : st[r]? = some (type_t.TYPE_FUNCTION f)) :
    (∀ base ∈ returns_twice_names, ∀ pre ∈ name_spellings,
      adds_modifier st { function with symbol := some ⟨pre ++ base⟩ } DM_RETURNS_TWICE
        (adapt_special_functions st { function with symbol := some ⟨pre ++ base⟩ })) ∧
    (∀ base ∈ noreturn_names, ∀ pre ∈ name_spellings,
      adds_modifier st { function with symbol := some ⟨pre ++ base⟩ } DM_NORETURN
        (adapt_special_functions st { function with symbol := some ⟨pre ++ base⟩ })) ∧
    adapt_special_functions st { function with symbol := some ⟨"memcpy".toList⟩ }
      = Except.ok ({ function with symbol := some ⟨"memcpy".toList⟩ }, st) ∧
    adapt_special_functions st { function with symbol := some ⟨"_".toList⟩ }
      = Except.ok ({ function with symbol := some ⟨"_".toList⟩ }, st) := by
  have hdisj : ∀ n ∈ noreturn_names, n ∉ returns_twice_names := by decide
  refine ⟨fun base hb pre hp => ?_, fun base hb pre hp => ?_, ?_, ?_⟩
  · obtain ⟨h1, h2⟩ := spellings_normalize base (List.mem_append_left _ hb) pre hp
    rw [adapt_special_functions_eq st _ ⟨pre ++ base⟩ rfl h1]
    simp only [h2]
    rw [if_pos hb]
    exact set_type_modifier_adds st _ t r _ f ht hr hf
  · obtain ⟨h1, h2⟩ := spellings_normalize base (List.mem_append_right _ hb) pre hp
    rw [adapt_special_functions_eq st _ ⟨pre ++ base⟩ rfl h1]
    simp only [h2]
    rw [if_neg (hdisj _ hb), if_pos hb]
    exact set_type_modifier_adds st _ t r _ f ht hr hf
  · rw [adapt_special_functions_eq st _ ⟨"memcpy".toList⟩ rfl (by decide),
      if_neg (by decide), if_neg (by decide)]
  · rw [adapt_special_functions_eq st _ ⟨"_".toList⟩ rfl (by decide),
      if_neg (by decide), if_neg (by decide)]

/-- Witness of C3: the spelling `__longjmp` on a function of type `int f(void)`. -/
theorem adapt_special_functions_spellings_witness :
    adds_modifier example_types
      { example_function "f" with symbol := some ⟨"__".toList ++ "longjmp".toList⟩ }
      DM_NORETURN
      (adapt_special_functions example_types
        { example_function "f" with symbol := some ⟨"__".toList ++ "longjmp".toList⟩ }) :=
  (adapt_special_functions_spellings example_types (example_function "f") 14 14
    ⟨1, [], false, DM_NONE⟩ rfl (by decide) (by decide)).2.1
    "longjmp".toList (by decide) "__".toList (by decide)

/-! ## Adding modifiers to a type -/

/-- C4: when `t` resolves to a function type whose modifiers already contain all
bits of `m`, `add_type_modifier` returns the argument `t` itself (not the
resolved type) and leaves the type store as it was: no type is created. -/
theorem add_type_modifier_noop (st : type_store) (t r m : Nat) (f : function_type_t)
    (hr : skip_typeref st t = Except.ok r)
    (hf : st[r]? = some (type_t.TYPE_FUNCTION f))
    (hm : f.modifiers &&& m = m) :
    add_type_modifier st t m = Except.ok (t, st) :=
  add_type_modifier_present st t r m f hr hf hm

/-- Witness of C4: the typedef (type 2) of a function type (type 1) that
already carries `DM_CONST` and `DM_NORETURN`, asked for the non-empty set
`DM_CONST` and for both bits: the typedef is returned, not the function type
behind it, and the store is unchanged. -/
theorem add_type_modifier_noop_witness :
    skip_typeref example_types_const 2 = Except.ok 1 ∧
    DM_CONST ≠ DM_NONE ∧
    (DM_CONST ||| DM_NORETURN) &&& DM_CONST = DM_CONST ∧
    add_type_modifier example_types_const 2 DM_CONST
      = Except.ok (2, example_types_const) ∧
    add_type_modifier example_types_const 2 (DM_CONST ||| DM_NORETURN)
      = Except.ok (2, example_types_const) :=
  ⟨by decide, by decide, by decide,
   add_type_modifier_noop example_types_const 2 1 DM_CONST
     ⟨0, [0], false, DM_CONST ||| DM_NORETURN⟩ (by decide) (by decide) (by decide),
   add_type_modifier_noop example_types_const 2 1 (DM_CONST ||| DM_NORETURN)
     ⟨0, [0], false, DM_CONST ||| DM_NORETURN⟩ (by decide) (by decide) (by decide)⟩

/-- C5: when `t` resolves to a function type `f` whose modifiers do not contain
all bits of `m`, `add_type_modifier` returns a type `p` in the resulting store
that is the function type with the return type, parameters and variadic flag of
`f` and the modifiers `f.modifiers ||| m`; `p` is the canonical instance (asking
the canonicalizer for that structure again yields `p` and no new type), and every
type of the old store is kept in place. -/
theorem add_type_modifier_union (st : type_store) (t r m : Nat) (f : function_type_t)
    (hr : skip_typeref st t = Except.ok r)
    (hf : st[r]? = some (type_t.TYPE_FUNCTION f))
    (hm : ¬ f.modifiers &&& m = m) :
    ∃ (p : Nat) (st2 : type_store),
      add_type_modifier st t m = Except.ok (p, st2) ∧
      st2[p]? = some (type_t.TYPE_FUNCTION
        ⟨f.return_type, f.parameters, f.variadic, f.modifiers ||| m⟩) ∧
      identify_new_type st2 (type_t.TYPE_FUNCTION
        ⟨f.return_type, f.parameters, f.variadic, f.modifiers ||| m⟩) = (p, st2) ∧
      st <+: st2 :=
  ⟨_, _, add_type_modifier_absent st t r m f hr hf hm,
    identify_new_type_get st _, identify_new_type_again st _,
    identify_new_type_extends st _⟩

/-- Witness of C5: adding `DM_NORETURN` to `int f(void)`. -/
theorem add_type_modifier_union_witness :
    ∃ (p : Nat) (st2 : type_store),
      add_type_modifier example_types 14 DM_NORETURN = Except.ok (p, st2) ∧
      st2[p]? = some (type_t.TYPE_FUNCTION ⟨1, [], false, DM_NONE ||| DM_NORETURN⟩) ∧
      identify_new_type st2 (type_t.TYPE_FUNCTION ⟨1, [], false, DM_NONE ||| DM_NORETURN⟩)
        = (p, st2) ∧
      example_types <+: st2 :=
  add_type_modifier_union example_types 14 14 DM_NORETURN ⟨1, [], false, DM_NONE⟩
    (by decide) (by decide) (by decide)

/-- C6: `add_type_modifier` is idempotent: when `t` resolves to a function type,
the call succeeds with some type `p` and store, and adding the same modifiers to
`p` in that store returns `p` again and the same store. -/
theorem add_type_modifier_idempotent (st : type_store) (t r m : Nat) (f : function_type_t)
    (hr : skip_typeref st t = Except.ok r)
    (hf : st[r]? = some (type_t.TYPE_FUNCTION f)) :
    ∃ (p : Nat) (st2 : type_store),
      add_type_modifier st t m = Except.ok (p, st2) ∧
      add_type_modifier st2 p m = Except.ok (p, st2) := by
  by_cases hm : f.modifiers &&& m = m
  · exact ⟨t, st, add_type_modifier_present st t r m f hr hf hm,
      add_type_modifier_present st t r m f hr hf hm⟩
  · have hg := identify_new_type_get st (type_t.TYPE_FUNCTION
      ⟨f.return_type, f.parameters, f.variadic, f.modifiers ||| m⟩)
    exact ⟨_, _, add_type_modifier_absent st t r m f hr hf hm,
      add_type_modifier_present _ _ _ m _ (skip_typeref_function _ _ _ hg) hg
        (lor_land_self _ _)⟩

/-- Witness of C6: adding `DM_RETURNS_TWICE` twice to the typedef of a function
type. -/
theorem add_type_modifier_idempotent_witness :
    ∃ (p : Nat) (st2 : type_store),
      add_type_modifier example_types 13 DM_RETURNS_TWICE = Except.ok (p, st2) ∧
      add_type_modifier st2 p DM_RETURNS_TWICE = Except.ok (p, st2) :=
  add_type_modifier_idempotent example_types 13 12 DM_RETURNS_TWICE
    ⟨4, [11], false, DM_NONE⟩ (by decide) (by decide)

/-! ## Merging builtins onto user declarations -/

/-- C7: let `def_` point at the entity `d`, whose declared type (when `d` is a
function) is `t` and resolves to `r`. Then `merge_builtin` returns normally, and
it merges (records one call of `merge_into_decl` on `def_`) if and only if `d` is
a function entity and `r` is compatible with `type`. In the two failing cases
the resulting session is the old one with exactly one warning appended (the
"must be a function" warning, respectively the "incompatible" warning naming the
declared and the expected type): no merge is recorded and the entity store, and
with it `d`, is unchanged. -/
theorem merge_builtin_cases (ext : collaborators_t) (s : session_t) (def_ : Nat)
    (kind : builtin_kind_t) (type : Nat) (d : entity_t) (t r : Nat)
    (hd : s.entities[def_]? = some d)
    (ht : d.kind = entity_kind_t.ENTITY_FUNCTION →
      d.type = some t ∧ skip_typeref s.types t = Except.ok r) :
    ∃ s2, merge_builtin ext s def_ kind type = Except.ok s2 ∧
      (s2.merged = s.merged ++ [(def_, s.entities.length)] ↔
        (d.kind = entity_kind_t.ENTITY_FUNCTION ∧
          ext.types_compatible s.types r type = true)) ∧
      (d.kind ≠ entity_kind_t.ENTITY_FUNCTION →
        s2 = { s with diagnostics := s.diagnostics ++
          [⟨warning_t.WARN_OTHER, d.pos,
            "language standard mandates that '%N' is a function",
            [diagnostic_arg_t.entity def_]⟩] }) ∧
      (d.kind = entity_kind_t.ENTITY_FUNCTION →
        ext.types_compatible s.types r type = false →
        s2 = { s with diagnostics := s.diagnostics ++
          [⟨warning_t.WARN_OTHER, d.pos,
            "declaration of '%N' with type '%T' is incompatible with language standard specified '%T'",
            [diagnostic_arg_t.entity def_, diagnostic_arg_t.type t,
             diagnostic_arg_t.type type]⟩] }) ∧
      (¬ (d.kind = entity_kind_t.ENTITY_FUNCTION ∧
          ext.types_compatible s.types r type = true) →
        s2.merged = s.merged ∧ s2.entities = s.entities ∧
        s2.entities[def_]? = some d ∧
        s2.diagnostics.length = s.diagnostics.length + 1 ∧
        s2.types = s.types ∧ s2.scope = s.scope) := by
  by_cases hk : d.kind = entity_kind_t.ENTITY_FUNCTION
  · obtain ⟨ht1, hr⟩ := ht hk
    cases hc : ext.types_compatible s.types r type with
    | false =>
      refine ⟨_, merge_builtin_incompatible ext s def_ kind type d t r hd hk ht1 hr hc,
        ?_, fun h => absurd hk h, fun _ _ => rfl, fun _ => ?_⟩
      · simp
      · simp [hd]
    | true =>
      refine ⟨_, merge_builtin_compatible ext s def_ kind type d t r hd hk ht1 hr hc,
        ?_, fun h => absurd hk h, fun _ h => (by cases h), fun h => absurd ⟨hk, rfl⟩ h⟩
      simp [hk]
  · refine ⟨_, merge_builtin_not_function ext s def_ kind type d hd hk,
      ?_, fun _ => rfl, fun h => absurd h hk, fun _ => ?_⟩
    · simp [hk]
    · simp [hd]

/-- Witness of C7: `creal` declared as a variable, and `int cimagf(void)`. -/
theorem merge_builtin_cases_witness :
    (∃ s2, merge_builtin example_collaborators example_session 2
        builtin_kind_t.BUILTIN_CREAL 12 = Except.ok s2 ∧
      s2.merged = example_session.merged ∧ s2.entities = example_session.entities ∧
      s2.diagnostics.length = example_session.diagnostics.length + 1) ∧
    (∃ s2, merge_builtin example_collaborators example_session 3
        builtin_kind_t.BUILTIN_CIMAG 12 = Except.ok s2 ∧
      s2.merged = example_session.merged ∧ s2.entities = example_session.entities ∧
      s2.diagnostics.length = example_session.diagnostics.length + 1) := by
  constructor
  · obtain ⟨s2, h1, _, _, _, h5⟩ := merge_builtin_cases example_collaborators
      example_session 2 builtin_kind_t.BUILTIN_CREAL 12
      (user_entity entity_kind_t.ENTITY_VARIABLE "creal" 3 1) 1 1 (by decide)
      (fun h => absurd h (by decide))
    obtain ⟨a, b, _, c, _⟩ := h5 (fun h => absurd h.1 (by decide))
    exact ⟨s2, h1, a, b, c⟩
  · obtain ⟨s2, h1, _, _, _, h5⟩ := merge_builtin_cases example_collaborators
      example_session 3 builtin_kind_t.BUILTIN_CIMAG 12
      (user_entity entity_kind_t.ENTITY_FUNCTION "cimagf" 4 14) 14 14 (by decide)
      (fun _ => ⟨rfl, by decide⟩)
    obtain ⟨a, b, _, c, _⟩ := h5 (fun h => absurd h.2 (by decide))
    exact ⟨s2, h1, a, b, c⟩

/-- C8: when `def_` points at a function entity `d` whose declared type `t`
resolves to a type compatible with `type`, `merge_builtin` emits no diagnostic,
allocates exactly one entity, which is a function entity in the normal name space
with the symbol of `d`, builtin kind `kind`, declared type `type`, `implicit`
set, extern storage class (declared and effective) and `builtin_in_lib` set, and
passes it together with `def_` to `merge_into_decl` exactly once. -/
theorem merge_builtin_success (ext : collaborators_t) (s : session_t) (def_ : Nat)
    (kind : builtin_kind_t) (type : Nat) (d : entity_t) (t r : Nat)
    (hd : s.entities[def_]? = some d) (hk : d.kind = entity_kind_t.ENTITY_FUNCTION)
    (ht : d.type = some t) (hr : skip_typeref s.types t = Except.ok r)
    (hc : ext.types_compatible s.types r type = true) :
    ∃ (s2 : session_t) (b : entity_t),
      merge_builtin ext s def_ kind type = Except.ok s2 ∧
      b = { kind := entity_kind_t.ENTITY_FUNCTION,
            namespc := entity_namespace_t.NAMESPACE_NORMAL,
            symbol := d.symbol, pos := builtin_position,
            storage_class := storage_class_t.STORAGE_CLASS_EXTERN,
            declared_storage_class := storage_class_t.STORAGE_CLASS_EXTERN,
            type := some type, implicit := true, btk := kind,
            builtin_in_lib := true, actual_name := none, b := builtin_data_t.zero } ∧
      s2.diagnostics = s.diagnostics ∧
      s2.entities = (s.entities ++ [b]).set def_ (ext.merge_into_decl d b) ∧
      s2.entities.length = s.entities.length + 1 ∧
      s2.entities[s.entities.length]? = some b ∧
      s2.merged = s.merged ++ [(def_, s.entities.length)] ∧
      s2.types = s.types ∧ s2.scope = s.scope ∧ s2.symbol_table = s.symbol_table := by
  have hlt : def_ < s.entities.length := by
    by_contra h
    rw [List.getElem?_eq_none (by omega)] at hd
    cases hd
  refine ⟨_, _, merge_builtin_compatible ext s def_ kind type d t r hd hk ht hr hc, rfl,
    rfl, rfl, by simp, ?_, rfl, rfl, rfl, rfl⟩
  show ((s.entities ++ [merged_builtin_entity kind d.symbol type]).set def_ _)[
    s.entities.length]? = _
  rw [List.getElem?_set_ne (by omega)]
  simp [merged_builtin_entity]

/-- Witness of C8: `cimag` declared with the libc signature through a typedef. -/
theorem merge_builtin_success_witness :
    ∃ (s2 : session_t) (b : entity_t),
      merge_builtin example_collaborators example_session 0
        builtin_kind_t.BUILTIN_CIMAG 12 = Except.ok s2 ∧
      b = { kind := entity_kind_t.ENTITY_FUNCTION,
            namespc := entity_namespace_t.NAMESPACE_NORMAL,
            symbol := some ⟨"cimag".toList⟩, pos := builtin_position,
            storage_class := storage_class_t.STORAGE_CLASS_EXTERN,
            declared_storage_class := storage_class_t.STORAGE_CLASS_EXTERN,
            type := some 12, implicit := true, btk := builtin_kind_t.BUILTIN_CIMAG,
            builtin_in_lib := true, actual_name := none, b := builtin_data_t.zero } ∧
      s2.diagnostics = example_session.diagnostics ∧
      s2.entities = (example_session.entities ++ [b]).set 0
        (example_collaborators.merge_into_decl
          (user_entity entity_kind_t.ENTITY_FUNCTION "cimag" 1 13) b) ∧
      s2.entities.length = example_session.entities.length + 1 ∧
      s2.entities[example_session.entities.length]? = some b ∧
      s2.merged = example_session.merged ++ [(0, example_session.entities.length)] ∧
      s2.types = example_session.types ∧ s2.scope = example_session.scope ∧
      s2.symbol_table = example_session.symbol_table :=
  merge_builtin_success example_collaborators example_session 0
    builtin_kind_t.BUILTIN_CIMAG 12
    (user_entity entity_kind_t.ENTITY_FUNCTION "cimag" 1 13) 13 12
    (by decide) (by decide) rfl (by decide) (by decide)

/-- C10: under the freestanding dialect `find_known_libc_functions` returns the
session it was given: no symbol is looked up or interned, no diagnostic is
emitted, no entity is created or merged, whatever the scope holds. -/
theorem find_known_libc_functions_freestanding (ext : collaborators_t) (s : session_t)
    (h : s.dialect.freestanding = true) :
    find_known_libc_functions ext s = Except.ok s := by
  unfold find_known_libc_functions
  rw [if_pos h]
  rfl

/-- Witness of C10: the example declarations under the freestanding dialect. -/
theorem find_known_libc_functions_freestanding_witness :
    example_freestanding.dialect.freestanding = true ∧
    find_known_libc_functions example_collaborators example_freestanding
      = Except.ok example_freestanding :=
  ⟨rfl, find_known_libc_functions_freestanding example_collaborators
    example_freestanding rfl⟩

/-- C9, as stated, fails: in the hosted C99 example session, which declares
`cimag` and `memcpy` with their libc signatures, `find_known_libc_functions`
merges `cimag`, and the builtin record it attaches (entity 4) has the kind
`BUILTIN_CIMAG`, which is not the libc-wrapper kind `BUILTIN_LIBC`, and a null
`actual_name`, not the declared name; the declaration of `memcpy` (entity 1) is
not merged at all and stays as it was. -/
theorem merged_record_counterexample :
    (find_known_libc_functions example_collaborators example_session).map
        (fun s2 => s2.merged) = Except.ok [(0, 4)] ∧
    (find_known_libc_functions example_collaborators example_session).map
        (fun s2 => s2.entities[4]?.map (fun b => b.btk))
      = Except.ok (some builtin_kind_t.BUILTIN_CIMAG) ∧
    builtin_kind_t.BUILTIN_CIMAG ≠ builtin_kind_t.BUILTIN_LIBC ∧
    (find_known_libc_functions example_collaborators example_session).map
        (fun s2 => s2.entities[4]?.map (fun b => b.actual_name))
      = Except.ok (some none) ∧
    (none : Option symbol_t) ≠ some ⟨"cimag".toList⟩ ∧
    (find_known_libc_functions example_collaborators example_session).map
        (fun s2 => s2.entities[1]?)
      = Except.ok (some (user_entity entity_kind_t.ENTITY_FUNCTION "memcpy" 2 10)) := by
  decide

/-- C9, amended: when `find_known_libc_functions` returns on a session whose
scope holds valid entity pointers, every merge it made attached a builtin record
whose kind is the one passed for the name looked up, `BUILTIN_CIMAG` for cimag,
cimagf, cimagl and `BUILTIN_CREAL` for creal, crealf, creall (never the
libc-wrapper kind `BUILTIN_LIBC`), with `builtin_in_lib` set, the looked-up name
as its symbol and a null `actual_name`; no record is made for `memcpy`. -/
theorem find_known_libc_functions_merged_records (ext : collaborators_t)
    (s s2 : session_t) (hscope : ∀ p ∈ s.scope, p < s.entities.length)
    (h : find_known_libc_functions ext s = Except.ok s2) :
    ∃ new, s2.merged = s.merged ++ new ∧
      ∀ pr ∈ new, ∃ b name, s2.entities[pr.2]? = some b ∧
        (name, b.btk) ∈ known_libc_names ∧
        (b.btk = builtin_kind_t.BUILTIN_CIMAG ∨ b.btk = builtin_kind_t.BUILTIN_CREAL) ∧
        b.btk ≠ builtin_kind_t.BUILTIN_LIBC ∧
        b.builtin_in_lib = true ∧
        b.symbol = some ⟨name⟩ ∧
        b.symbol ≠ some ⟨"memcpy".toList⟩ ∧
        b.actual_name = none := by
  obtain ⟨_, _, new, hm, hnew⟩ := find_known_libc_functions_records ext s s2 hscope h
  refine ⟨new, hm, fun pr hpr => ?_⟩
  obtain ⟨_, name, kind, type, hk, _, hb⟩ := hnew pr hpr
  have hkinds : ∀ x ∈ known_libc_names,
      (x.2 = builtin_kind_t.BUILTIN_CIMAG ∨ x.2 = builtin_kind_t.BUILTIN_CREAL) ∧
      x.2 ≠ builtin_kind_t.BUILTIN_LIBC ∧ x.1 ≠ "memcpy".toList := by decide
  obtain ⟨k1, k2, k3⟩ := hkinds _ hk
  refine ⟨_, name, hb, hk, k1, k2, rfl, rfl, ?_, rfl⟩
  intro hx
  exact k3 (congrArg symbol_t.string (Option.some.inj hx))

/-- Witness of the amended C9: the hosted C99 example session. -/
theorem find_known_libc_functions_merged_records_witness :
    ∃ s2, find_known_libc_functions example_collaborators example_session = Except.ok s2 ∧
      ∃ new, s2.merged = example_session.merged ++ new ∧
        ∀ pr ∈ new, ∃ b name, s2.entities[pr.2]? = some b ∧
          (name, b.btk) ∈ known_libc_names ∧
          (b.btk = builtin_kind_t.BUILTIN_CIMAG ∨ b.btk = builtin_kind_t.BUILTIN_CREAL) ∧
          b.btk ≠ builtin_kind_t.BUILTIN_LIBC ∧
          b.builtin_in_lib = true ∧
          b.symbol = some ⟨name⟩ ∧
          b.symbol ≠ some ⟨"memcpy".toList⟩ ∧
          b.actual_name = none := by
  obtain ⟨s2, h⟩ := ok_of_toBool
    (find_known_libc_functions example_collaborators example_session) (by decide)
  exact ⟨s2, h, find_known_libc_functions_merged_records example_collaborators
    example_session s2 (by decide) h⟩

/-! ## Special functions: spellings and reads -/

/-- C16, as stated, fails: behind `__` the base name `x` is not recovered, since
`__x` is taken for the three-character prefix and nothing is left; behind `_` the
base name `_exit` is not recovered, since `__exit` loses both underscores. -/
theorem normalization_spelling_counterexample :
    prefix_length ("__".toList ++ "x".toList) = Except.ok 3 ∧
    normalized_name ("__".toList ++ "x".toList) = [] ∧
    normalized_name ("__".toList ++ "x".toList) ≠ "x".toList ∧
    normalized_name ("_".toList ++ "_exit".toList) = "exit".toList ∧
    normalized_name ("_".toList ++ "_exit".toList) ≠ "_exit".toList := by
  decide

/-- C16, amended: for every base name `b`, the spellings `__builtin_` ++ b and
`__x` ++ b normalize to `b`; the spelling `_` ++ b normalizes to `b` exactly when
`b` does not itself begin with `_`; and the spelling `__` ++ b normalizes to `b`
exactly when `b` begins neither with `x` nor with `builtin_`. -/
theorem normalization_spellings (b : List Char) :
    normalized_name ("__builtin_".toList ++ b) = b ∧
    normalized_name ("__x".toList ++ b) = b ∧
    (normalized_name ("_".toList ++ b) = b ↔ ¬ "_".toList <+: b) ∧
    (normalized_name ("__".toList ++ b) = b ↔
      (¬ "x".toList <+: b ∧ ¬ "builtin_".toList <+: b)) := by
  have e1 : "__builtin_".toList = ['_','_','b','u','i','l','t','i','n','_'] := rfl
  have e2 : "__x".toList = ['_','_','x'] := rfl
  have e3 : "__".toList = ['_','_'] := rfl
  have e4 : "_".toList = ['_'] := rfl
  have e5 : "builtin_".toList = ['b','u','i','l','t','i','n','_'] := rfl
  have e6 : "x".toList = ['x'] := rfl
  simp only [normalized_name_eq, e1, e2, e3, e4, e5, e6]
  refine ⟨?_, ?_, ?_, ?_⟩
  · simp [List.cons_prefix_cons]
  · simp [List.cons_prefix_cons]
  · by_cases hb : ['_'] <+: b
    · have hlen := hb.length_le
      simp only [List.length_singleton] at hlen
      simp only [hb, not_true_eq_false, iff_false]
      split_ifs with h1 h2 h3 h4
      · exact drop_ne_of_shorter _ _ _ (by simp) (by omega)
      · exact drop_ne_of_shorter _ _ _ (by simp) (by omega)
      · exact drop_ne_of_shorter _ _ _ (by simp) (by omega)
      · exfalso
        apply h3
        obtain ⟨t, rfl⟩ := hb
        simp [List.cons_prefix_cons]
      · exfalso
        apply h4
        simp [List.cons_prefix_cons]
    · simp only [hb, not_false_eq_true, iff_true]
      have h3 : ¬ ['_', '_'] <+: ['_'] ++ b := by
        intro h
        apply hb
        simpa [List.cons_prefix_cons] using h
      have h2 : ¬ ['_', '_', 'x'] <+: ['_'] ++ b := by
        intro h
        exact h3 ((List.prefix_append ['_','_'] ['x']).trans h)
      have h1 : ¬ ['_','_','b','u','i','l','t','i','n','_'] <+: ['_'] ++ b := by
        intro h
        exact h3 ((List.prefix_append ['_','_'] ['b','u','i','l','t','i','n','_']).trans h)
      have h4 : ['_'] <+: ['_'] ++ b := List.prefix_append _ _
      rw [if_neg h1, if_neg h2, if_neg h3, if_pos h4]
      rfl
  · have k1 : (['_','_','b','u','i','l','t','i','n','_'] <+: ['_','_'] ++ b)
        ↔ ['b','u','i','l','t','i','n','_'] <+: b := by
      simp [List.cons_prefix_cons]
    have k2 : (['_','_','x'] <+: ['_','_'] ++ b) ↔ ['x'] <+: b := by
      simp [List.cons_prefix_cons]
    have k3 : ['_','_'] <+: ['_','_'] ++ b := List.prefix_append _ _
    simp only [k1, k2, if_pos k3]
    by_cases hb : ['b','u','i','l','t','i','n','_'] <+: b
    · have hlen := hb.length_le
      simp only [List.length_cons, List.length_nil] at hlen
      simp only [hb, if_true, not_true_eq_false, and_false, iff_false]
      exact drop_ne_of_shorter _ _ _ (by simp) (by omega)
    · by_cases hx : ['x'] <+: b
      · have hlen := hx.length_le
        simp only [List.length_singleton] at hlen
        simp only [hb, hx, if_false, if_true, not_true_eq_false, false_and, iff_false]
        exact drop_ne_of_shorter _ _ _ (by simp) (by omega)
      · simp only [hb, hx, if_false, not_false_eq_true, and_self, iff_true]
        rfl

/-- C17: the name scan of `adapt_special_functions` never reads past the
terminator. For every symbol (a C string, so without an embedded NUL) the prefix
test succeeds and advances by at most the length of the name, and on a function
whose type resolves to a function type the whole call returns normally, so no
character was read at an index beyond the length of the name (such a read is a
fault in this model). The names shorter than a prefix under test, or left empty
by it (every prefix of `__builtin_`, with the empty name, `_` and `__` among
them, and `__x`), are returned unchanged, whatever the function's type field. -/
theorem adapt_special_functions_reads_in_bounds (st : type_store) (function : entity_t)
    (symbol : symbol_t) (t r : Nat) (f : function_type_t)
    (hsym : function.symbol = some symbol) (hs : NUL ∉ symbol.string)
    (ht : function.type = some t) (hr : skip_typeref st t = Except.ok r)
    (hf : st[r]? = some (type_t.TYPE_FUNCTION f)) :
    (∃ k, prefix_length symbol.string = Except.ok k ∧ k ≤ symbol.string.length) ∧
    (∃ res, adapt_special_functions st function = Except.ok res) ∧
    (∀ n ∈ short_names, ∀ g : entity_t,
      adapt_special_functions st { g with symbol := some ⟨n⟩ }
        = Except.ok ({ g with symbol := some ⟨n⟩ }, st)) := by
  refine ⟨⟨_, prefix_length_eq _, prefix_length_le _ _ (prefix_length_eq _)⟩, ?_, ?_⟩
  · rw [adapt_special_functions_eq st function symbol hsym hs]
    split_ifs
    · obtain ⟨_, _, p, _, st2, _, _, _, _, _, h, _⟩ :=
        set_type_modifier_adds st function t r DM_RETURNS_TWICE f ht hr hf
      exact ⟨_, h⟩
    · obtain ⟨_, _, p, _, st2, _, _, _, _, _, h, _⟩ :=
        set_type_modifier_adds st function t r DM_NORETURN f ht hr hf
      exact ⟨_, h⟩
    · exact ⟨_, rfl⟩
  · intro n hn g
    obtain ⟨h1, h2, h3⟩ := short_names_unclassified n hn
    rw [adapt_special_functions_eq st _ ⟨n⟩ rfl h1, if_neg h2, if_neg h3]

/-- Witness of C17: the function `__x` of type `int f(void)`, and the short name
`__builtin`. -/
theorem adapt_special_functions_reads_in_bounds_witness :
    (∃ k, prefix_length "__x".toList = Except.ok k ∧ k ≤ "__x".toList.length) ∧
    (∃ res, adapt_special_functions example_types (example_function "__x")
      = Except.ok res) ∧
    adapt_special_functions example_types
        { example_function "f" with symbol := some ⟨"__builtin".toList⟩ }
      = Except.ok ({ example_function "f" with symbol := some ⟨"__builtin".toList⟩ },
          example_types) := by
  obtain ⟨h1, h2, h3⟩ := adapt_special_functions_reads_in_bounds example_types
    (example_function "__x") ⟨"__x".toList⟩ 14 14 ⟨1, [], false, DM_NONE⟩
    rfl (by decide) rfl (by decide) (by decide)
  exact ⟨h1, h2, h3 "__builtin".toList (by decide) (example_function "f")⟩

/-- C18: let `t` resolve to `r` after the typedef and typeof links are stripped.
Then `add_type_modifier` fails with the assertion exactly when the type at `r` is
not a function type, and when it is a function type the call returns a type. The
call acts on the type store only: in a session it leaves the diagnostics as they
were. -/
theorem add_type_modifier_assertion (st : type_store) (t r m : Nat)
    (hr : skip_typeref st t = Except.ok r) :
    (add_type_modifier st t m = Except.error fault_t.assertion_failed ↔
      ¬ ∃ f, st[r]? = some (type_t.TYPE_FUNCTION f)) ∧
    ((∃ f, st[r]? = some (type_t.TYPE_FUNCTION f)) →
      ∃ p st2, add_type_modifier st t m = Except.ok (p, st2)) ∧
    (∀ (s : session_t) (p : Nat) (st2 : type_store), s.types = st →
      add_type_modifier s.types t m = Except.ok (p, st2) →
      ({ s with types := st2 } : session_t).diagnostics = s.diagnostics) := by
  have hret : (∃ f, st[r]? = some (type_t.TYPE_FUNCTION f)) →
      ∃ p st2, add_type_modifier st t m = Except.ok (p, st2) := by
    rintro ⟨f, hf⟩
    obtain ⟨p, _, st2, h, _⟩ := add_type_modifier_adds st t r m f hr hf
    exact ⟨p, st2, h⟩
  refine ⟨⟨fun h hf => ?_, fun h => ?_⟩, hret, fun _ _ _ _ _ => rfl⟩
  · obtain ⟨p, st2, h2⟩ := hret hf
    rw [h2] at h
    cases h
  · obtain ⟨ty, hty, _, _⟩ := skip_typeref_fuel_ok st _ t r hr
    exact add_type_modifier_not_function st t r m ty hr hty
      (fun f hf => h ⟨f, by rw [hty, hf]⟩)

/-- Witness of C18: the type `int` is not a function type, and the typedef of a
function type resolves to one. -/
theorem add_type_modifier_assertion_witness :
    add_type_modifier example_types 1 DM_NORETURN
      = Except.error fault_t.assertion_failed ∧
    ∃ p st2, add_type_modifier example_types 13 DM_NORETURN = Except.ok (p, st2) :=
  ⟨(add_type_modifier_assertion example_types 1 1 DM_NORETURN (by decide)).1.2
      (fun ⟨_, hf⟩ => (by simp [example_types] at hf)),
   (add_type_modifier_assertion example_types 13 12 DM_NORETURN (by decide)).2.1
      ⟨⟨4, [11], false, DM_NONE⟩, by decide⟩⟩

/-! ## Known libc functions under a hosted dialect -/

/-- C11: under a hosted dialect, without the c99 flag `find_known_libc_functions`
returns the session unchanged. With the flag it makes the three complex types
and then performs, in this order, one lookup-and-merge step for each of cimag,
cimagf, cimagl (kind `BUILTIN_CIMAG`) and creal, crealf, creall (kind
`BUILTIN_CREAL`), passing as return type double, float, long double for the
unsuffixed, the `f` and the `l` name and as parameter type the complex type over
it. A step for a name without an entity in the normal name space changes nothing
but the symbol table (no merge, no diagnostic); a step for a name with the
entity `e` is the one call of `merge_builtin` on `e` with the given kind and the
canonical function type with that return type, that one parameter and the
modifier `DM_CONST`; and a step never changes a type already in the store, so
the complex types made at the start are still there when they are used. -/
theorem find_known_libc_functions_hosted (ext : collaborators_t) (s : session_t)
    (hf : s.dialect.freestanding = false) :
    (s.dialect.c99 = false → find_known_libc_functions ext s = Except.ok s) ∧
    (s.dialect.c99 = true →
      ∃ (s0 : session_t) (cf cd cl : Nat),
        s0 = { s with types := s0.types } ∧ s.types <+: s0.types ∧
        s0.types[cf]? = some (type_t.TYPE_COMPLEX atomic_type_kind_t.ATOMIC_TYPE_FLOAT
          TYPE_QUALIFIER_NONE) ∧
        s0.types[cd]? = some (type_t.TYPE_COMPLEX atomic_type_kind_t.ATOMIC_TYPE_DOUBLE
          TYPE_QUALIFIER_NONE) ∧
        s0.types[cl]? = some (type_t.TYPE_COMPLEX atomic_type_kind_t.ATOMIC_TYPE_LONG_DOUBLE
          TYPE_QUALIFIER_NONE) ∧
        find_known_libc_functions ext s =
          (merge_known ext s0 "cimag".toList builtin_kind_t.BUILTIN_CIMAG
            (ext.type_global type_global_t.type_double) cd >>= fun s1 =>
           merge_known ext s1 "cimagf".toList builtin_kind_t.BUILTIN_CIMAG
            (ext.type_global type_global_t.type_float) cf >>= fun s2 =>
           merge_known ext s2 "cimagl".toList builtin_kind_t.BUILTIN_CIMAG
            (ext.type_global type_global_t.type_long_double) cl >>= fun s3 =>
           merge_known ext s3 "creal".toList builtin_kind_t.BUILTIN_CREAL
            (ext.type_global type_global_t.type_double) cd >>= fun s4 =>
           merge_known ext s4 "crealf".toList builtin_kind_t.BUILTIN_CREAL
            (ext.type_global type_global_t.type_float) cf >>= fun s5 =>
           merge_known ext s5 "creall".toList builtin_kind_t.BUILTIN_CREAL
            (ext.type_global type_global_t.type_long_double) cl)) ∧
    (∀ (s1 : session_t) (name : List Char) (kind : builtin_kind_t) (ret param : Nat),
      (get_entity s1 ⟨name⟩ entity_namespace_t.NAMESPACE_NORMAL = none →
        ∃ tbl, merge_known ext s1 name kind ret param
          = Except.ok { s1 with symbol_table := tbl }) ∧
      (∀ e, get_entity s1 ⟨name⟩ entity_namespace_t.NAMESPACE_NORMAL = some e →
        ∃ (s2 : session_t) (t : Nat) (tbl : List symbol_t),
          s2 = { s1 with symbol_table := tbl, types := s2.types } ∧
          s1.types <+: s2.types ∧
          s2.types[t]? = some (type_t.TYPE_FUNCTION ⟨ret, [param], false, DM_CONST⟩) ∧
          merge_known ext s1 name kind ret param = merge_builtin ext s2 e kind t) ∧
      (∀ s3, merge_known ext s1 name kind ret param = Except.ok s3 →
        s1.types <+: s3.types)) := by
  refine ⟨fun hc => ?_, fun hc => ?_, fun s1 name kind ret param => ?_⟩
  · unfold find_known_libc_functions
    simp [hf, hc]
    rfl
  · refine ⟨_, _, _, _, rfl, ?_, ?_, ?_, ?_,
      find_known_libc_functions_c99 ext s hf hc⟩
    · exact (identify_new_type_extends _ _).trans
        ((identify_new_type_extends _ _).trans (identify_new_type_extends _ _))
    · exact getElem?_of_isPrefix _ _ _ _
        ((identify_new_type_extends _ _).trans (identify_new_type_extends _ _))
        (identify_new_type_get _ _)
    · exact getElem?_of_isPrefix _ _ _ _ (identify_new_type_extends _ _)
        (identify_new_type_get _ _)
    · exact identify_new_type_get _ _
  · obtain ⟨tbl, htbl⟩ := symbol_table_insert_frame s1 name
    have habs : get_entity s1 ⟨name⟩ entity_namespace_t.NAMESPACE_NORMAL = none →
        merge_known ext s1 name kind ret param
          = Except.ok { s1 with symbol_table := tbl } := by
      intro h
      rw [← get_entity_symbol_table_insert s1 name] at h
      rw [merge_known_absent ext s1 name kind ret param h, htbl]
    have hpres : ∀ e, get_entity s1 ⟨name⟩ entity_namespace_t.NAMESPACE_NORMAL = some e →
        merge_known ext s1 name kind ret param =
          merge_builtin ext (make_function_type (symbol_table_insert s1 name).2 ret [param]
            DM_CONST).2 e kind
          (make_function_type (symbol_table_insert s1 name).2 ret [param] DM_CONST).1 := by
      intro e h
      rw [← get_entity_symbol_table_insert s1 name] at h
      exact merge_known_present ext s1 name kind ret param e h
    have hty : s1.types <+: (make_function_type (symbol_table_insert s1 name).2 ret [param]
        DM_CONST).2.types := by
      rw [htbl]
      exact identify_new_type_extends _ _
    refine ⟨fun h => ⟨tbl, habs h⟩, fun e h => ?_, fun s3 h3 => ?_⟩
    · refine ⟨_, _, tbl, ?_, hty, ?_, hpres e h⟩
      · rw [htbl]
        rfl
      · exact identify_new_type_get _ _
    · cases hg : get_entity s1 ⟨name⟩ entity_namespace_t.NAMESPACE_NORMAL with
      | none =>
        rw [habs hg] at h3
        cases h3
        exact List.prefix_refl _
      | some e =>
        rw [hpres e hg] at h3
        rw [merge_builtin_types ext _ _ _ _ _ h3]
        exact hty

/-- Witness of C11: the hosted C99 example session, which declares `cimag` (a
function with the libc signature), `creal` (a variable) and `cimagf` (an
incompatible function) and does not declare `cimagl`. The six steps run with the
stated names, kinds and types; the step for `cimag` is the call of
`merge_builtin` on its entity with the type `double(complex double)`,
`DM_CONST`; the step for `cimagl` changes the symbol table only; the whole run
records one merge (of `cimag`) and two diagnostics (for `cimagf` and `creal`).
Under the hosted dialect before C99 the same declarations are left alone. -/
theorem find_known_libc_functions_hosted_witness :
    example_session.dialect.freestanding = false ∧ example_session.dialect.c99 = true ∧
    (∃ (s0 : session_t) (cf cd cl : Nat),
      s0 = { example_session with types := s0.types } ∧
      example_session.types <+: s0.types ∧
      s0.types[cf]? = some (type_t.TYPE_COMPLEX atomic_type_kind_t.ATOMIC_TYPE_FLOAT
        TYPE_QUALIFIER_NONE) ∧
      s0.types[cd]? = some (type_t.TYPE_COMPLEX atomic_type_kind_t.ATOMIC_TYPE_DOUBLE
        TYPE_QUALIFIER_NONE) ∧
      s0.types[cl]? = some (type_t.TYPE_COMPLEX atomic_type_kind_t.ATOMIC_TYPE_LONG_DOUBLE
        TYPE_QUALIFIER_NONE) ∧
      find_known_libc_functions example_collaborators example_session =
        (merge_known example_collaborators s0 "cimag".toList builtin_kind_t.BUILTIN_CIMAG
          (example_collaborators.type_global type_global_t.type_double) cd >>= fun s1 =>
         merge_known example_collaborators s1 "cimagf".toList builtin_kind_t.BUILTIN_CIMAG
          (example_collaborators.type_global type_global_t.type_float) cf >>= fun s2 =>
         merge_known example_collaborators s2 "cimagl".toList builtin_kind_t.BUILTIN_CIMAG
          (example_collaborators.type_global type_global_t.type_long_double) cl
            >>= fun s3 =>
         merge_known example_collaborators s3 "creal".toList builtin_kind_t.BUILTIN_CREAL
          (example_collaborators.type_global type_global_t.type_double) cd >>= fun s4 =>
         merge_known example_collaborators s4 "crealf".toList builtin_kind_t.BUILTIN_CREAL
          (example_collaborators.type_global type_global_t.type_float) cf >>= fun s5 =>
         merge_known example_collaborators s5 "creall".toList builtin_kind_t.BUILTIN_CREAL
          (example_collaborators.type_global type_global_t.type_long_double) cl)) ∧
    get_entity example_session ⟨"cimag".toList⟩ entity_namespace_t.NAMESPACE_NORMAL
      = some 0 ∧
    (∃ (s2 : session_t) (t : Nat) (tbl : List symbol_t),
      s2 = { example_session with symbol_table := tbl, types := s2.types } ∧
      example_session.types <+: s2.types ∧
      s2.types[t]? = some (type_t.TYPE_FUNCTION ⟨4, [11], false, DM_CONST⟩) ∧
      merge_known example_collaborators example_session "cimag".toList
          builtin_kind_t.BUILTIN_CIMAG 4 11
        = merge_builtin example_collaborators s2 0 builtin_kind_t.BUILTIN_CIMAG t) ∧
    get_entity example_session ⟨"cimagl".toList⟩ entity_namespace_t.NAMESPACE_NORMAL
      = none ∧
    (∃ tbl, merge_known example_collaborators example_session "cimagl".toList
        builtin_kind_t.BUILTIN_CIMAG 5 16
      = Except.ok { example_session with symbol_table := tbl }) ∧
    (find_known_libc_functions example_collaborators example_session).map
        (fun s2 => (s2.merged, s2.diagnostics.length)) = Except.ok ([(0, 4)], 2) ∧
    example_c89.dialect.freestanding = false ∧ example_c89.dialect.c99 = false ∧
    find_known_libc_functions example_collaborators example_c89 = Except.ok example_c89 :=
  ⟨rfl, rfl,
   (find_known_libc_functions_hosted example_collaborators example_session rfl).2.1 rfl,
   by decide,
   ((find_known_libc_functions_hosted example_collaborators example_session rfl).2.2
      example_session "cimag".toList builtin_kind_t.BUILTIN_CIMAG 4 11).2.1 0 (by decide),
   by decide,
   ((find_known_libc_functions_hosted example_collaborators example_session rfl).2.2
      example_session "cimagl".toList builtin_kind_t.BUILTIN_CIMAG 5 16).1 (by decide),
   by decide,
   rfl, rfl,
   (find_known_libc_functions_hosted example_collaborators example_c89 rfl).1 rfl⟩

/-! ## The builtin catalog -/

/-- C12: on a session with no object growing on the symbol obstack, for every
base name `name`, `create_gnu_builtin_libc` allocates one entity, records it with
`record_entity` as a non-definition and makes it the entity that the scope shows
for the symbol `__builtin_` ++ name; the entity has kind `BUILTIN_LIBC`,
`builtin_in_lib` set and `actual_name` = name. `create_gnu_builtin_chk` does the
same for the symbol `__builtin___` ++ name ++ `_chk`, with kind
`BUILTIN_LIBC_CHECK`, `builtin_in_lib` set, `actual_name` = name and
`chk_arg_pos` as given. -/
theorem create_gnu_builtin_libc_chk_names (s : session_t) (name : List Char)
    (chk_arg_pos t : Nat) (h : s.symbol_obstack = []) :
    (∃ e, (create_gnu_builtin_libc s name t).2.entities[
          (create_gnu_builtin_libc s name t).1]? = some e ∧
      (create_gnu_builtin_libc s name t).2.recorded
        = s.recorded ++ [((create_gnu_builtin_libc s name t).1, false)] ∧
      get_entity (create_gnu_builtin_libc s name t).2 ⟨"__builtin_".toList ++ name⟩
        entity_namespace_t.NAMESPACE_NORMAL = some (create_gnu_builtin_libc s name t).1 ∧
      e.symbol = some ⟨"__builtin_".toList ++ name⟩ ∧
      e.btk = builtin_kind_t.BUILTIN_LIBC ∧
      e.builtin_in_lib = true ∧
      e.actual_name = some ⟨name⟩) ∧
    (∃ e, (create_gnu_builtin_chk s name chk_arg_pos t).2.entities[
          (create_gnu_builtin_chk s name chk_arg_pos t).1]? = some e ∧
      (create_gnu_builtin_chk s name chk_arg_pos t).2.recorded
        = s.recorded ++ [((create_gnu_builtin_chk s name chk_arg_pos t).1, false)] ∧
      get_entity (create_gnu_builtin_chk s name chk_arg_pos t).2
        ⟨"__builtin___".toList ++ name ++ "_chk".toList⟩
        entity_namespace_t.NAMESPACE_NORMAL
        = some (create_gnu_builtin_chk s name chk_arg_pos t).1 ∧
      e.symbol = some ⟨"__builtin___".toList ++ name ++ "_chk".toList⟩ ∧
      e.btk = builtin_kind_t.BUILTIN_LIBC_CHECK ∧
      e.builtin_in_lib = true ∧
      e.actual_name = some ⟨name⟩ ∧
      e.b = builtin_data_t.chk_arg_pos chk_arg_pos) := by
  constructor
  · obtain ⟨hp, hr⟩ := create_gnu_builtin_libc_registers s name t h
    obtain ⟨g1, g2⟩ := get_entity_registered _ _ _ _ ⟨"__builtin_".toList ++ name⟩
      entity_namespace_t.NAMESPACE_NORMAL hr rfl rfl
    rw [hp]
    exact ⟨_, g1, hr.2.2.2.1, g2, rfl, rfl, rfl, rfl⟩
  · obtain ⟨hp, hr⟩ := create_gnu_builtin_chk_registers s name chk_arg_pos t h
    obtain ⟨g1, g2⟩ := get_entity_registered _ _ _ _
      ⟨"__builtin___".toList ++ name ++ "_chk".toList⟩
      entity_namespace_t.NAMESPACE_NORMAL hr rfl rfl
    rw [hp]
    exact ⟨_, g1, hr.2.2.2.1, g2, rfl, rfl, rfl, rfl, rfl⟩

/-- Witness of C12: `memcpy` in the example session, checked argument 3. -/
theorem create_gnu_builtin_libc_chk_names_witness :
    (create_gnu_builtin_libc example_session "memcpy".toList 10).2.entities[4]?.map
        (fun e => (e.symbol, e.btk, e.builtin_in_lib, e.actual_name))
      = some (some ⟨"__builtin_memcpy".toList⟩, builtin_kind_t.BUILTIN_LIBC, true,
          some ⟨"memcpy".toList⟩) ∧
    ∃ e, (create_gnu_builtin_chk example_session "memcpy".toList 3 10).2.entities[
          (create_gnu_builtin_chk example_session "memcpy".toList 3 10).1]? = some e ∧
      e.symbol = some ⟨"__builtin___".toList ++ "memcpy".toList ++ "_chk".toList⟩ ∧
      e.b = builtin_data_t.chk_arg_pos 3 := by
  refine ⟨by decide, ?_⟩
  obtain ⟨e, h1, _, _, h4, _, _, _, h8⟩ :=
    (create_gnu_builtin_libc_chk_names example_session "memcpy".toList 3 10 rfl).2
  exact ⟨e, h1, h4, h8⟩

/-- C13: on a session with no object growing on the symbol obstack, running
`create_gnu_builtins` and then `create_microsoft_intrinsics` records 84 calls of
`record_entity`, all with `is_definition` false, one for each of the 84 entities
the two functions allocate; each of these entities is a function entity in the
normal name space, implicit, with storage class and declared storage class
extern. -/
theorem catalog_entities_implicit_extern (ext : collaborators_t) (s : session_t)
    (h : s.symbol_obstack = []) :
    ∃ new : List (Nat × Bool),
      (create_microsoft_intrinsics ext (create_gnu_builtins ext s)).recorded
        = s.recorded ++ new ∧
      new.map Prod.fst = List.range' s.entities.length 84 ∧
      (create_microsoft_intrinsics ext (create_gnu_builtins ext s)).entities.length
        = s.entities.length + 84 ∧
      ∀ pr ∈ new, pr.2 = false ∧
        ∃ e, (create_microsoft_intrinsics ext (create_gnu_builtins ext s)).entities[pr.1]?
            = some e ∧
          e.kind = entity_kind_t.ENTITY_FUNCTION ∧
          e.namespc = entity_namespace_t.NAMESPACE_NORMAL ∧
          e.implicit = true ∧
          e.storage_class = storage_class_t.STORAGE_CLASS_EXTERN ∧
          e.declared_storage_class = storage_class_t.STORAGE_CLASS_EXTERN := by
  rw [create_both_eq]
  obtain ⟨newE, h1, h2, h3, _⟩ := register_rows_spec ext catalog_rows s h
  have hlen : newE.length = 84 := by
    rw [← h2.length_eq, catalog_rows_length]
  rw [catalog_rows_length] at h3
  refine ⟨_, h3, ?_, ?_, ?_⟩
  · rw [List.map_map]
    exact List.map_id _
  · rw [h1, List.length_append, hlen]
  · intro pr hpr
    obtain ⟨p, hp, rfl⟩ := List.mem_map.1 hpr
    obtain ⟨hp1, hp2⟩ := List.mem_range'_1.1 hp
    have hidx : p - s.entities.length < newE.length := by omega
    have hget : (register_rows ext s catalog_rows).entities[p]?
        = some (newE[p - s.entities.length]) := by
      rw [h1, List.getElem?_append_right hp1, List.getElem?_eq_getElem hidx]
    obtain ⟨row, _, t, he, _⟩ := registered_mem ext _ _ _ h2 _ (List.getElem_mem hidx)
    obtain ⟨f1, f2, f3, f4, f5, _⟩ := row_entity_fields row t
    refine ⟨rfl, _, hget, ?_, ?_, ?_, ?_, ?_⟩ <;> rw [he] <;> assumption

/-- Witness of C13: the catalog built on top of the example session. -/
theorem catalog_entities_implicit_extern_witness :
    ∃ new : List (Nat × Bool),
      (create_microsoft_intrinsics example_collaborators
        (create_gnu_builtins example_collaborators example_session)).recorded
        = example_session.recorded ++ new ∧
      new.map Prod.fst = List.range' example_session.entities.length 84 ∧
      (create_microsoft_intrinsics example_collaborators
        (create_gnu_builtins example_collaborators example_session)).entities.length
        = example_session.entities.length + 84 ∧
      ∀ pr ∈ new, pr.2 = false ∧
        ∃ e, (create_microsoft_intrinsics example_collaborators
            (create_gnu_builtins example_collaborators example_session)).entities[pr.1]?
            = some e ∧
          e.kind = entity_kind_t.ENTITY_FUNCTION ∧
          e.namespc = entity_namespace_t.NAMESPACE_NORMAL ∧
          e.implicit = true ∧
          e.storage_class = storage_class_t.STORAGE_CLASS_EXTERN ∧
          e.declared_storage_class = storage_class_t.STORAGE_CLASS_EXTERN :=
  catalog_entities_implicit_extern example_collaborators example_session rfl

/-- C14: on a session with no object growing on the symbol obstack, running
`create_gnu_builtins` and then `create_microsoft_intrinsics` allocates exactly one
entity for each of the 84 lines of the two catalogs, in order, records each of
them exactly once, and the symbols of these entities, which are the externally
visible names of the lines, are pairwise distinct. -/
theorem catalog_registers_each_line_once (ext : collaborators_t) (s : session_t)
    (h : s.symbol_obstack = []) :
    ∃ new : List entity_t,
      (create_microsoft_intrinsics ext (create_gnu_builtins ext s)).entities
        = s.entities ++ new ∧
      catalog_rows.length = 84 ∧
      List.Forall₂ (fun row e => e.symbol = some ⟨visible_name row⟩) catalog_rows new ∧
      (create_microsoft_intrinsics ext (create_gnu_builtins ext s)).recorded
        = s.recorded ++
          (List.range' s.entities.length catalog_rows.length).map (fun p => (p, false)) ∧
      (new.map (fun e => e.symbol)).Nodup := by
  rw [create_both_eq]
  obtain ⟨newE, h1, h2, h3, _⟩ := register_rows_spec ext catalog_rows s h
  refine ⟨newE, h1, catalog_rows_length, ?_, h3, ?_⟩
  · refine h2.imp (fun row e hre => ?_)
    obtain ⟨t, he, _⟩ := hre
    rw [he]
    exact (row_entity_fields row t).2.2.2.2.2.1
  · rw [registered_map ext _ (fun e => e.symbol)
      (fun row => some (⟨visible_name row⟩ : symbol_t))
      (fun row t => (row_entity_fields row t).2.2.2.2.2.1) _ _ h2]
    exact catalog_names_nodup

/-- Witness of C14: the catalog built on top of the example session. -/
theorem catalog_registers_each_line_once_witness :
    ∃ new : List entity_t,
      (create_microsoft_intrinsics example_collaborators
        (create_gnu_builtins example_collaborators example_session)).entities
        = example_session.entities ++ new ∧
      catalog_rows.length = 84 ∧
      List.Forall₂ (fun row e => e.symbol = some ⟨visible_name row⟩) catalog_rows new ∧
      (create_microsoft_intrinsics example_collaborators
        (create_gnu_builtins example_collaborators example_session)).recorded
        = example_session.recorded ++
          (List.range' example_session.entities.length catalog_rows.length).map
            (fun p => (p, false)) ∧
      (new.map (fun e => e.symbol)).Nodup :=
  catalog_registers_each_line_once example_collaborators example_session rfl

/-- C15: on a session with no object growing on the symbol obstack,
`create_gnu_builtins` allocates nine entities of kind `BUILTIN_LIBC_CHECK`, and
for each of them `chk_arg_pos` is a valid index into the parameter list of the
entity's function type, the parameter at that index is `type_size_t`, and it is
the last parameter. -/
theorem chk_arg_pos_is_last_size_parameter (ext : collaborators_t) (s : session_t)
    (h : s.symbol_obstack = []) :
    ∃ new : List entity_t,
      (create_gnu_builtins ext s).entities = s.entities ++ new ∧
      (new.map (fun e => e.btk)).count builtin_kind_t.BUILTIN_LIBC_CHECK = 9 ∧
      ∀ e ∈ new, e.btk = builtin_kind_t.BUILTIN_LIBC_CHECK →
        ∃ (pos t : Nat) (f : function_type_t),
          e.b = builtin_data_t.chk_arg_pos pos ∧ e.type = some t ∧
          (create_gnu_builtins ext s).types[t]? = some (type_t.TYPE_FUNCTION f) ∧
          pos < f.parameters.length ∧
          f.parameters[pos]? = some (ext.type_global type_global_t.type_size_t) ∧
          pos + 1 = f.parameters.length := by
  obtain ⟨newE, h1, h2, _⟩ := register_rows_spec ext gnu_builtin_rows s h
  refine ⟨newE, h1, ?_, fun e he hbtk => ?_⟩
  · rw [registered_map ext _ (fun e => e.btk) (fun row => (row_entity row 0).btk)
      (fun row t => (row_entity_fields row t).2.2.2.2.2.2.2.1) _ _ h2]
    exact chk_rows_count
  · obtain ⟨row, hrow, t, hre, hty⟩ := registered_mem ext _ _ _ h2 e he
    obtain ⟨_, _, _, _, _, _, f7, f8, f9, _⟩ := row_entity_fields row t
    rw [hre, f8] at hbtk
    obtain ⟨c1, c2, c3⟩ := chk_rows_positions row hrow hbtk
    refine ⟨row.signature.parameters.length - 1, t, signature_type ext row.signature,
      ?_, ?_, hty, ?_, ?_, ?_⟩
    · rw [hre, f9, c1]
    · rw [hre, f7]
    · simp only [signature_type, List.length_map]
      omega
    · simp only [signature_type, List.getElem?_map, c3, Option.map_some']
    · simp only [signature_type, List.length_map]
      omega

/-- Witness of C15: the catalog built on top of the example session. -/
theorem chk_arg_pos_is_last_size_parameter_witness :
    ∃ new : List entity_t,
      (create_gnu_builtins example_collaborators example_session).entities
        = example_session.entities ++ new ∧
      (new.map (fun e => e.btk)).count builtin_kind_t.BUILTIN_LIBC_CHECK = 9 ∧
      ∀ e ∈ new, e.btk = builtin_kind_t.BUILTIN_LIBC_CHECK →
        ∃ (pos t : Nat) (f : function_type_t),
          e.b = builtin_data_t.chk_arg_pos pos ∧ e.type = some t ∧
          (create_gnu_builtins example_collaborators example_session).types[t]?
            = some (type_t.TYPE_FUNCTION f) ∧
          pos < f.parameters.length ∧
          f.parameters[pos]?
            = some (example_collaborators.type_global type_global_t.type_size_t) ∧
          pos + 1 = f.parameters.length :=
  chk_arg_pos_is_last_size_parameter example_collaborators example_session rfl

/-- C19, as stated, fails: line 143 of `builtins.c` registers
`__builtin_may_alias` through `create_builtin_firm`; in the catalog built on the
example session the entity of that line (the 36th new one, at pointer 39) has the
symbol `__builtin_may_alias`, which begins with `__builtin_`. -/
theorem create_builtin_firm_counterexample :
    gnu_builtin_rows[35]? = some (row_s ir_builtin_kind.ir_bk_may_alias
        "__builtin_may_alias"
        (function_type type_global_t.type_int
          [type_global_t.type_const_void_ptr, type_global_t.type_const_void_ptr]
          DM_NONE)) ∧
    (create_gnu_builtins example_collaborators example_session).entities[39]?.map
        (fun e => (e.symbol, e.btk, e.b))
      = some (some ⟨"__builtin_may_alias".toList⟩, builtin_kind_t.BUILTIN_FIRM,
          builtin_data_t.firm_builtin_kind ir_builtin_kind.ir_bk_may_alias) ∧
    "__builtin_".toList <+: "__builtin_may_alias".toList := by
  set_option maxRecDepth 1000000 in decide

/-- C19, amended: `create_builtin_firm` interns the name it is given as it is: on
a session with no object growing on the symbol obstack the entity it registers
has exactly the supplied name as its symbol, so the visible name begins with
`__builtin_` only when the supplied name does. The catalog has two lines through
`create_builtin_firm`: `__sync_val_compare_and_swap`, which does not begin with
`__builtin_`, and `__builtin_may_alias`, which is supplied with the prefix
spelled out. -/
theorem create_builtin_firm_verbatim (s : session_t) (kind : ir_builtin_kind)
    (name : List Char) (t : Nat) (h : s.symbol_obstack = []) :
    (∃ e, (create_builtin_firm s kind name t).2.entities[
          (create_builtin_firm s kind name t).1]? = some e ∧
      get_entity (create_builtin_firm s kind name t).2 ⟨name⟩
        entity_namespace_t.NAMESPACE_NORMAL = some (create_builtin_firm s kind name t).1 ∧
      e.symbol = some ⟨name⟩ ∧
      e.btk = builtin_kind_t.BUILTIN_FIRM ∧
      e.b = builtin_data_t.firm_builtin_kind kind) ∧
    (catalog_rows.filter (fun row =>
        match row.creator with
        | builtin_creator_t.builtin_firm _ => true
        | _ => false)).map (fun row => row.name)
      = ["__sync_val_compare_and_swap", "__builtin_may_alias"] ∧
    ¬ "__builtin_".toList <+: "__sync_val_compare_and_swap".toList ∧
    "__builtin_".toList <+: "__builtin_may_alias".toList := by
  refine ⟨?_, by decide, by decide, by decide⟩
  obtain ⟨hp, hr⟩ := create_builtin_firm_registers s kind name t h
  obtain ⟨g1, g2⟩ := get_entity_registered _ _ _ _ ⟨name⟩
    entity_namespace_t.NAMESPACE_NORMAL hr rfl rfl
  rw [hp]
  exact ⟨_, g1, g2, rfl, rfl, rfl⟩

/-- Witness of the amended C19: `__sync_val_compare_and_swap` in the example
session. -/
theorem create_builtin_firm_verbatim_witness :
    ∃ e, (create_builtin_firm example_session ir_builtin_kind.ir_bk_compare_swap
          "__sync_val_compare_and_swap".toList 1).2.entities[
          (create_builtin_firm example_session ir_builtin_kind.ir_bk_compare_swap
            "__sync_val_compare_and_swap".toList 1).1]? = some e ∧
      e.symbol = some ⟨"__sync_val_compare_and_swap".toList⟩ := by
  obtain ⟨e, h1, _, h3, _⟩ := (create_builtin_firm_verbatim example_session
    ir_builtin_kind.ir_bk_compare_swap "__sync_val_compare_and_swap".toList 1 rfl).1
  exact ⟨e, h1, h3⟩

/-- C20: on a session with no object growing on the symbol obstack,
`create_gnu_builtins` registers, among its new entities, checked entities (kind
`BUILTIN_LIBC_CHECK`) that have a libc entity (kind `BUILTIN_LIBC`) with the same
`actual_name` for exactly the names memcpy, memmove, memset, stpcpy, strcat,
strcpy, strncat and strncpy. Every such pair `c`, `l` has function types with
the same return type, modifiers and variadic flag, the parameters of `c` are those
of `l` followed by one `type_size_t`, and removing the parameter at `chk_arg_pos`
from those of `c` leaves those of `l`. The same eight names are the checked lines
of the table that have a libc line. -/
theorem chk_types_extend_libc_types (ext : collaborators_t) (s : session_t)
    (h : s.symbol_obstack = []) :
    (∃ new : List entity_t,
      (create_gnu_builtins ext s).entities = s.entities ++ new ∧
      (new.filter (fun c =>
          decide (c.btk = builtin_kind_t.BUILTIN_LIBC_CHECK) &&
          new.any (fun l =>
            decide (l.btk = builtin_kind_t.BUILTIN_LIBC ∧
              l.actual_name = c.actual_name)))).map (fun c => c.actual_name)
        = [some ⟨"memcpy".toList⟩, some ⟨"memmove".toList⟩, some ⟨"memset".toList⟩,
           some ⟨"stpcpy".toList⟩, some ⟨"strcat".toList⟩, some ⟨"strcpy".toList⟩,
           some ⟨"strncat".toList⟩, some ⟨"strncpy".toList⟩] ∧
      ∀ c ∈ new, ∀ l ∈ new, c.btk = builtin_kind_t.BUILTIN_LIBC_CHECK →
        l.btk = builtin_kind_t.BUILTIN_LIBC → c.actual_name = l.actual_name →
        ∃ (pos tc tl : Nat) (fc fl : function_type_t),
          c.b = builtin_data_t.chk_arg_pos pos ∧
          c.type = some tc ∧ l.type = some tl ∧
          (create_gnu_builtins ext s).types[tc]? = some (type_t.TYPE_FUNCTION fc) ∧
          (create_gnu_builtins ext s).types[tl]? = some (type_t.TYPE_FUNCTION fl) ∧
          fc.return_type = fl.return_type ∧ fc.modifiers = fl.modifiers ∧
          fc.variadic = fl.variadic ∧
          fc.parameters = fl.parameters ++ [ext.type_global type_global_t.type_size_t] ∧
          fc.parameters.eraseIdx pos = fl.parameters) ∧
    (gnu_builtin_rows.filter (fun rc =>
        decide ((row_entity rc 0).btk = builtin_kind_t.BUILTIN_LIBC_CHECK) &&
        gnu_builtin_rows.any (fun rl =>
          decide ((row_entity rl 0).btk = builtin_kind_t.BUILTIN_LIBC ∧
            (row_entity rl 0).actual_name = (row_entity rc 0).actual_name)))).map
      (fun rc => rc.name)
    = ["memcpy", "memmove", "memset", "stpcpy", "strcat", "strcpy", "strncat",
       "strncpy"] := by
  refine ⟨?_, chk_rows_with_libc_rows⟩
  obtain ⟨newE, h1, h2, _⟩ := register_rows_spec ext gnu_builtin_rows s h
  refine ⟨newE, h1, ?_, fun c hc l hl hcb hlb hname => ?_⟩
  · rw [checked_with_libc_map,
      registered_map ext _ kind_and_actual_name
        (fun row => kind_and_actual_name (row_entity row 0))
        (fun row t => (by
          obtain ⟨_, _, _, _, _, _, _, f8, _, f10⟩ := row_entity_fields row t
          simp only [kind_and_actual_name, f8, f10])) _ _ h2]
    exact chk_rows_with_libc_names
  obtain ⟨rc, hrc, tc, hce, hcty⟩ := registered_mem ext _ _ _ h2 c hc
  obtain ⟨rl, hrl, tl, hle, hlty⟩ := registered_mem ext _ _ _ h2 l hl
  obtain ⟨_, _, _, _, _, _, c7, c8, c9, c10⟩ := row_entity_fields rc tc
  obtain ⟨_, _, _, _, _, _, l7, l8, _, l10⟩ := row_entity_fields rl tl
  rw [hce, c8] at hcb
  rw [hle, l8] at hlb
  rw [hce, hle, c10, l10] at hname
  obtain ⟨p1, _, _⟩ := chk_rows_positions rc hrc hcb
  obtain ⟨q1, q2, q3, q4⟩ := chk_rows_extend_libc_rows rc hrc rl hrl hcb hlb hname
  refine ⟨rc.signature.parameters.length - 1, tc, tl, signature_type ext rc.signature,
    signature_type ext rl.signature, ?_, ?_, ?_, hcty, hlty, ?_, q2, q3, ?_, ?_⟩
  · rw [hce, c9, p1]
  · rw [hce, c7]
  · rw [hle, l7]
  · simp only [signature_type, q1]
  · simp only [signature_type, q4, List.map_append, List.map_cons, List.map_nil]
  · simp only [signature_type, q4, List.map_append, List.map_cons, List.map_nil,
      List.length_append, List.length_map, List.length_singleton, Nat.add_sub_cancel]
    rw [List.eraseIdx_append_of_length_le (by simp)]
    simp

/-- Witness of C20: the catalog built on top of the example session registers
the eight pairs, and each pair's types are related as stated. -/
theorem chk_types_extend_libc_types_witness :
    ∃ new : List entity_t,
      (create_gnu_builtins example_collaborators example_session).entities
        = example_session.entities ++ new ∧
      (new.filter (fun c =>
          decide (c.btk = builtin_kind_t.BUILTIN_LIBC_CHECK) &&
          new.any (fun l =>
            decide (l.btk = builtin_kind_t.BUILTIN_LIBC ∧
              l.actual_name = c.actual_name)))).map (fun c => c.actual_name)
        = [some ⟨"memcpy".toList⟩, some ⟨"memmove".toList⟩, some ⟨"memset".toList⟩,
           some ⟨"stpcpy".toList⟩, some ⟨"strcat".toList⟩, some ⟨"strcpy".toList⟩,
           some ⟨"strncat".toList⟩, some ⟨"strncpy".toList⟩] ∧
      ∀ c ∈ new, ∀ l ∈ new, c.btk = builtin_kind_t.BUILTIN_LIBC_CHECK →
        l.btk = builtin_kind_t.BUILTIN_LIBC → c.actual_name = l.actual_name →
        ∃ (pos tc tl : Nat) (fc fl : function_type_t),
          c.b = builtin_data_t.chk_arg_pos pos ∧
          c.type = some tc ∧ l.type = some tl ∧
          (create_gnu_builtins example_collaborators example_session).types[tc]?
            = some (type_t.TYPE_FUNCTION fc) ∧
          (create_gnu_builtins example_collaborators example_session).types[tl]?
            = some (type_t.TYPE_FUNCTION fl) ∧
          fc.return_type = fl.return_type ∧ fc.modifiers = fl.modifiers ∧
          fc.variadic = fl.variadic ∧
          fc.parameters = fl.parameters ++
            [example_collaborators.type_global type_global_t.type_size_t] ∧
          fc.parameters.eraseIdx pos = fl.parameters :=
  (chk_types_extend_libc_types example_collaborators example_session rfl).1

/-! ## Anonymous functions -/

/-- C21: for a function whose symbol is null, `adapt_special_functions` returns at
once: no name is read (there is none), the call cannot fault, and the function,
its type field included, and the type store are returned as they were, whatever
the type field holds (a null or dangling type pointer included). -/
theorem adapt_special_functions_anonymous (st : type_store) (function : entity_t)
    (h : function.symbol = none) :
    adapt_special_functions st function = Except.ok (function, st) := by
  unfold adapt_special_functions
  rw [h]
  rfl

/-- Witness of C21: an anonymous function with a null type pointer, and one
whose type pointer leads outside the type store. -/
theorem adapt_special_functions_anonymous_witness :
    adapt_special_functions example_types
        { example_function "f" with symbol := none, type := none }
      = Except.ok ({ example_function "f" with symbol := none, type := none },
          example_types) ∧
    adapt_special_functions example_types
        { example_function "f" with symbol := none, type := some 99 }
      = Except.ok ({ example_function "f" with symbol := none, type := some 99 },
          example_types) :=
  ⟨adapt_special_functions_anonymous example_types
      { example_function "f" with symbol := none, type := none } rfl,
   adapt_special_functions_anonymous example_types
      { example_function "f" with symbol := none, type := some 99 } rfl⟩

end CParser
